import Mathlib

/-!
# MNN runner bridge: session configuration and profiling pipeline

A shallow embedding of `android/app/src/main/cpp/mnn_runner.cpp` (the build with
`HAVE_MNN` set) and theorems about it.

The inference engine is an external collaborator.  What the bridge reads from its
headers or observes through its calls is a parameter of the embedding:

* the numeric values of the enumeration `MNNForwardType` (`ForwardIds`);
* what the engine answers to each call, and the clock (`Env`);
* the pseudo-random sample source `std::mt19937` with the two distribution objects
  declared next to it (`Sampler`).

The marshalling of strings and arrays through JNI is not modelled; a `jstring`
whose characters may come back null is an `Option String`.
-/

namespace MNNRunner

/-! ## Backend resolver (`mapForward`, `forwardName`) -/

/-- The enumerators of the engine's `MNNForwardType` that the bridge mentions, with
the integer each one stands for.  The header that fixes the integers belongs to the
engine, so they are a parameter. -/
structure ForwardIds where
  cpu : Int
  auto : Int
  metal : Int
  cuda : Int
  opencl : Int
  opengl : Int
  vulkan : Int
  nn : Int
  all : Int
deriving DecidableEq, Repr

/-- The enumerators are pairwise different: `forwardName` uses each of them as a
`case` label of one `switch`, which C++ only accepts for pairwise different values. -/
def ForwardIds.Distinct (F : ForwardIds) : Prop :=
  [F.cpu, F.auto, F.metal, F.cuda, F.opencl, F.opengl, F.vulkan, F.nn, F.all].Nodup

instance (F : ForwardIds) : Decidable F.Distinct := by
  unfold ForwardIds.Distinct; infer_instance

/-- The values of `MNNForwardType` in the engine release the bridge reports
("MNN 3.1.0"): CPU 0, METAL 1, CUDA 2, OPENCL 3, AUTO 4, NN 5, OPENGL 6, VULKAN 7,
ALL 12.  Used for concrete evaluations only. -/
def mnnIds : ForwardIds :=
  { cpu := 0, auto := 4, metal := 1, cuda := 2, opencl := 3, opengl := 6, vulkan := 7,
    nn := 5, all := 12 }

/-- `static int mapForward(const std::string& s)`, lines 18-33, `HAVE_MNN` branch. -/
def mapForward (F : ForwardIds) (s : String) : Int :=
  if s = "AUTO" then F.auto
  else if s = "CPU" then F.cpu
  else if s = "VULKAN" then F.vulkan
  else if s = "OPENCL" then F.opencl
  else if s = "OPENGL" ∨ s = "OPENGL_ES" ∨ s = "OPENGL_ES3" then F.opengl
  else if s = "METAL" then F.metal
  else if s = "CUDA" then F.cuda
  else if s = "NN" ∨ s = "NNAPI" then F.nn
  else F.cpu

/-- `static const char* forwardName(MNNForwardType t)`, lines 36-49.  The argument is
the integer held by the enumeration value (the callers cast an `int` to it). -/
def forwardName (F : ForwardIds) (t : Int) : String :=
  if t = F.cpu then "CPU"
  else if t = F.auto then "AUTO"
  else if t = F.metal then "METAL"
  else if t = F.cuda then "CUDA"
  else if t = F.opencl then "OPENCL"
  else if t = F.opengl then "OPENGL"
  else if t = F.vulkan then "VULKAN"
  else if t = F.nn then "NN"
  else if t = F.all then "ALL"
  else "UNKNOWN"

/-- The names `mapForward` compares its argument with. -/
def recognizedNames : List String :=
  ["AUTO", "CPU", "VULKAN", "OPENCL", "OPENGL", "OPENGL_ES", "OPENGL_ES3", "METAL", "CUDA",
    "NN", "NNAPI"]

/-- The names `forwardName` can give back for a value `mapForward` returns. -/
def canonicalNames : List String :=
  ["AUTO", "CPU", "VULKAN", "OPENCL", "OPENGL", "METAL", "CUDA", "NN"]

/-- The spelling `forwardName` reports for a recognized name: the aliases of
`mapForward` (`OPENGL_ES`, `OPENGL_ES3`, `NNAPI`) are reported under the name of the
enumerator they share. -/
def canonicalOf (s : String) : String :=
  if s = "OPENGL_ES" ∨ s = "OPENGL_ES3" then "OPENGL"
  else if s = "NNAPI" then "NN"
  else s

/-! ## Schedule configuration (lines 86-99, 247-259, 565-577, 737-749) -/

/-- `MNN::BackendConfig::PrecisionMode`, the three values the bridge assigns. -/
inductive Precision where
  | Precision_Normal
  | Precision_High
  | Precision_Low
deriving DecidableEq, Repr

/-- The fields of `MNN::ScheduleConfig` the bridge sets, with the precision of the
`BackendConfig` it points to. -/
structure ScheduleConfig where
  type : Int
  backupType : Int
  numThread : Int
  precision : Precision
deriving DecidableEq, Repr

/-- The block that fills `cfg` and `bcfg`; it is repeated word for word in `runModel`,
`runModelProfile`, `runModelMulti` and `runModelMultiProfile`. -/
def buildScheduleConfig (F : ForwardIds) (cBackend : String) (cBackup : Option String)
    (threads : Int) (cPrec : Option String) : ScheduleConfig :=
  let prec : String := match cPrec with
    | some p => p
    | none => "NORMAL"
  { type := mapForward F cBackend
    backupType := mapForward F (match cBackup with
      | some b => b
      | none => "CPU")
    numThread := if threads > 0 then threads else 1
    precision :=
      if prec = "LOW" then Precision.Precision_Low
      else if prec = "HIGH" then Precision.Precision_High
      else Precision.Precision_Normal }

/-! ## Synthetic input generator (lines 118-143, 283-306, 612-636, 784-808) -/

/-- The `code` of a `halide_type_t`.  The bridge names three of the codes; every other
code the engine's header defines is `other`. -/
inductive HalideTypeCode where
  | halide_type_int
  | halide_type_uint
  | halide_type_float
  | other (code : Nat)
deriving DecidableEq, Repr

/-- What the bridge reads from one non-null input tensor of the session: `size()` and
`elementSize()` and `getType().code` of the host tensor built from it, and
`dimensions()`, `length(i)` (as the list `dims`). -/
structure InputTensor where
  size : Nat
  elementSize : Int
  code : HalideTypeCode
  dims : List Int
deriving DecidableEq, Repr

/-- One byte of a staging buffer: not written since the allocation, written as a byte,
or the byte number `k` (0 to 3) of a stored `float` value `v`. -/
inductive Cell (V : Type) where
  | uninit
  | byte (b : Nat)
  | f32 (v : V) (k : Nat)
deriving DecidableEq, Repr

/-- The memory of a host tensor, one cell per byte. -/
abbrev Buffer (V : Type) := List (Cell V)

/-- The sample source of one run: `std::mt19937 rng(seed)` together with the objects
`uni(0.0f, 1.0f)` and `norm(0.0f, 1.0f)` declared after it.  `σ` is the joint state of
the three, `V` the type of `float` values, `one` the literal `1.0f`, and `uni`, `norm`
one call `uni(rng)`, `norm(rng)`. -/
structure Sampler (σ V : Type) where
  one : V
  seed : Nat → σ
  uni : σ → V × σ
  norm : σ → V × σ

/-- The cells of stored `float` values laid out one after the other. -/
def f32Cells {V : Type} : List V → Buffer V
  | [] => []
  | v :: vs => Cell.f32 v 0 :: Cell.f32 v 1 :: Cell.f32 v 2 :: Cell.f32 v 3 :: f32Cells vs

/-- The store `ptr[i] = v` through `float* ptr = host->host<float>()`: the four cells
from offset `4 * i` are replaced by the cells of `v`.  `none` when the four cells are not
all inside the allocation. -/
def storeF32 {V : Type} (buf : Buffer V) (i : Nat) (v : V) : Option (Buffer V) :=
  if 4 * i + 4 ≤ buf.length then
    some (buf.take (4 * i) ++ f32Cells [v] ++ buf.drop (4 * i + 4))
  else none

/-- The loop `for (int i = ...; i < host->elementSize(); ++i) ptr[i] = gen(...)`, with
`k` iterations left and `i` the current index. -/
def fillLoop {σ V : Type} (gen : σ → V × σ) : Nat → Nat → Buffer V → σ → Option (Buffer V × σ)
  | 0, _, buf, st => some (buf, st)
  | k + 1, i, buf, st =>
    match storeF32 buf i (gen st).1 with
    | none => none
    | some buf1 => fillLoop gen k (i + 1) buf1 (gen st).2

/-- `std::memset(host->host<void>(), 0, bytes)` with `bytes = host->size()`, the size of
the allocation. -/
def memsetZero {V : Type} (buf : Buffer V) : Buffer V :=
  buf.map (fun _ => Cell.byte 0)

/-- The body of the fill loop for one non-null input, up to the copy: allocate the host
tensor, then fill it according to `fill` and the element type code.  The result is the
staged buffer and the state of the sample source; `none` when a store leaves the
allocation. -/
def fillHost {σ V : Type} (R : Sampler σ V) (fill : String) (t : InputTensor) (st : σ) :
    Option (Buffer V × σ) :=
  let host : Buffer V := List.replicate t.size Cell.uninit
  if fill = "ONE" ∧ t.code = HalideTypeCode.halide_type_float then
    fillLoop (fun s => (R.one, s)) t.elementSize.toNat 0 host st
  else if fill = "UNIFORM" ∧ t.code = HalideTypeCode.halide_type_float then
    fillLoop R.uni t.elementSize.toNat 0 host st
  else if fill = "NORMAL" ∧ t.code = HalideTypeCode.halide_type_float then
    fillLoop R.norm t.elementSize.toNat 0 host st
  else some (memsetZero host, st)

/-- The buffers the fill loop hands to `copyFromHostTensor`, in the order of the
enumeration of the inputs (null entries are skipped), when no engine call faults. -/
def stageInputs {σ V : Type} (R : Sampler σ V) (fill : String) :
    List (String × Option InputTensor) → σ → Option (List (String × Buffer V))
  | [], _ => some []
  | (_, none) :: rest, st => stageInputs R fill rest st
  | (name, some t) :: rest, st =>
    match fillHost R fill t st with
    | none => none
    | some (buf, st1) =>
      match stageInputs R fill rest st1 with
      | none => none
      | some bufs => some ((name, buf) :: bufs)

/-- A sample source for concrete evaluations: the state is a counter, `uni` yields the
counter and `norm` the counter plus 100. -/
def counterSampler : Sampler Nat Nat :=
  { one := 1, seed := fun s => s, uni := fun s => (s, s + 1), norm := fun s => (s + 100, s + 1) }

/-! ## Backend attribution (lines 313-371, 814-869) -/

/-- The lambda `isGpu` inside `pickGpuLabel`. -/
def isGpu (F : ForwardIds) (t : Int) : Bool :=
  t == F.opencl || t == F.opengl || t == F.vulkan || t == F.cuda || t == F.metal || t == F.nn

/-- The loop `for (int i = 0; i < 16; ++i)` over `beBuf`, from index `i` with `fuel`
iterations left: `some label` when the loop returns from inside, `none` when it ends by
`break` or by running out.  `beBuf` lists what the engine wrote into the array; the
entries it did not write keep the 0 of the initialisation `int beBuf[16] = {0}`. -/
def scanBE (F : ForwardIds) (beBuf : List Int) : Nat → Nat → Option String
  | _, 0 => none
  | i, fuel + 1 =>
    let v := beBuf.getD i 0
    if v = 0 ∧ i > 0 then none
    else if v < 0 ∨ v > 20 then scanBE F beBuf (i + 1) fuel
    else if isGpu F v then some (forwardName F v)
    else scanBE F beBuf (i + 1) fuel

/-- The lambda `pickGpuLabel`; `hasBE` and `beBuf` are the variables it captures. -/
def pickGpuLabel (F : ForwardIds) (hasBE : Bool) (beBuf : List Int) (primaryType : Int) :
    String :=
  if primaryType = F.auto ∨ primaryType = F.cpu then
    (if hasBE then
      (match scanBE F beBuf 0 16 with
        | some label => label
        | none => "CPU")
    else "CPU")
  else if isGpu F primaryType then forwardName F primaryType
  else "CPU"

/-- The `name()` and `type()` of an `MNN::OperatorInfo`. -/
structure OperatorInfo where
  name : String
  type : String
deriving DecidableEq, Repr

/-- The local struct `OpPerf`.  The three times are differences of clock readings, in
ticks of the clock; `deviceId` is a `uint64_t`. -/
structure OpPerf where
  name : String
  type : String
  ms : Int
  start : Int
  end_ : Int
  deviceId : Nat
  backend : String
deriving DecidableEq, Repr

/-- The lambda `dur_ms`, before the conversion of the difference to milliseconds. -/
def dur_ms (a b : Int) : Int := b - a

/-- The record the lambda `after` appends to `ops`.  `tensors` holds, for each pointer
of the vector, `none` for a null pointer and the `deviceId()` of the tensor otherwise;
`started` is the entry of `startByPtr` for `info`, when there is one; `tEnd` is the
clock reading the lambda takes first. -/
def afterRecord (gpuLabel : String) (runStartAnchor : Int) (started : Option Int) (tEnd : Int)
    (tensors : List (Option Nat)) (info : Option OperatorInfo) : OpPerf :=
  let name : String := match info with
    | some i => i.name
    | none => "op"
  let type : String := match info with
    | some i => i.type
    | none => "unknown"
  let times : Int × Int × Int := match started with
    | some t => (dur_ms t tEnd, dur_ms runStartAnchor t, dur_ms runStartAnchor tEnd)
    | none => (0, 0, 0)
  let deviceId : Nat := match tensors with
    | some d :: _ => d % 2 ^ 64
    | _ => 0
  { name := name, type := type, ms := times.1, start := times.2.1, end_ := times.2.2,
    deviceId := deviceId,
    backend := if deviceId ≠ 0 then gpuLabel else "CPU" }

/-! ## Engine calls, faults and scopes -/

/-- What the bridge reads from one non-null output tensor: `dimensions()` and
`length(i)`, as a list. -/
structure OutputTensor where
  dims : List Int
deriving DecidableEq, Repr

/-- The calls the bridge makes into the engine, and the destruction of the
interpreter by the `std::unique_ptr` that owns it. -/
inductive Event (V : Type) where
  | createFromFile (path : String)
  | setCacheFile (path : String)
  | createSession (cfg : ScheduleConfig)
  | getSessionInputAll
  | getSessionInput (name : String)
  | resizeTensor (name : String) (shape : List Int)
  | resizeSession
  | hostTensor (name : String)
  | copyFromHostTensor (name : String) (host : Buffer V)
  | getSessionInfoThreads
  | getSessionInfoBackends
  | runSession
  | getSessionOutputAll
  | releaseSession
  | destroyInterpreter
deriving DecidableEq, Repr

/-- The surroundings of one call of an entry point: what the engine answers, which of
its calls throws, what the clock shows, how the stream prints a duration.

* `fault k = some what`: the call number `k` into the engine (counted from 0) throws a
  `std::exception` whose `what()` is `what`;
* `interpreter`, `session`: `createFromFile`, `createSession` return a non-null pointer;
* `knows name`: `getSessionInput(session, name)` returns a non-null pointer;
* `inputs`, `outputs`: the maps of `getSessionInputAll`, `getSessionOutputAll` in the
  order of their iteration, a null tensor pointer being `none`;
* `threadNumber`: what `getSessionInfo(.., THREAD_NUMBER, ..)` writes, if it writes;
* `hasBE`, `beBuf`: the result of `getSessionInfo(.., BACKENDS, beBuf)` and what it wrote;
* `clock k`: reading number `k` of `std::chrono::steady_clock`, in ticks;
* `showMs d`: the text the stream prints for a difference of `d` ticks in milliseconds
  with `std::ios::fixed` and precision 3. -/
structure Env where
  fault : Nat → Option String
  interpreter : Bool
  session : Bool
  knows : String → Bool
  inputs : List (String × Option InputTensor)
  outputs : List (String × Option OutputTensor)
  threadNumber : Option Int
  hasBE : Bool
  beBuf : List Int
  clock : Nat → Int
  showMs : Int → String

/-- The engine calls made so far (oldest first), their number, and the number of clock
readings taken. -/
structure World (V : Type) where
  trace : List (Event V)
  calls : Nat
  ticks : Nat
deriving DecidableEq, Repr

/-- The state in which an entry point starts. -/
def World.init {V : Type} : World V := { trace := [], calls := 0, ticks := 0 }

/-- What ends a computation early: a thrown `std::exception`, or a step the language
gives no meaning to (a store outside an allocation, a call through a null pointer). -/
inductive Fault where
  | exn (what : String)
  | undefined
deriving DecidableEq, Repr

/-- A piece of an entry point: from the state before to a result or a fault, and the
state after. -/
def Run (V : Type) (α : Type) : Type := World V → Except Fault α × World V

/-- Return of a value. -/
def Run.pure {V α : Type} (a : α) : Run V α := fun w => (Except.ok a, w)

/-- Sequencing: the second piece runs only when the first one gave a value. -/
def Run.bind {V α β : Type} (m : Run V α) (f : α → Run V β) : Run V β := fun w =>
  match m w with
  | (Except.ok a, w1) => f a w1
  | (Except.error e, w1) => (Except.error e, w1)

instance {V : Type} : Monad (Run V) where
  pure := Run.pure
  bind := Run.bind

/-- One call into the engine: it is recorded, then it throws if the engine faults there. -/
def engineCall {V : Type} (E : Env) (ev : Event V) : Run V Unit := fun w =>
  match E.fault w.calls with
  | some what =>
    (Except.error (Fault.exn what), { w with trace := w.trace ++ [ev], calls := w.calls + 1 })
  | none => (Except.ok (), { w with trace := w.trace ++ [ev], calls := w.calls + 1 })

/-- One `clock::now()`. -/
def now {V : Type} (E : Env) : Run V Int := fun w =>
  (Except.ok (E.clock w.ticks), { w with ticks := w.ticks + 1 })

/-- The statement `throw std::runtime_error(what)`. -/
def throwRuntimeError {V α : Type} (what : String) : Run V α := fun w =>
  (Except.error (Fault.exn what), w)

/-- A step without a meaning in the language. -/
def undefinedBehaviour {V α : Type} : Run V α := fun w => (Except.error Fault.undefined, w)

/-- The statement `try { body } catch (const std::exception& e) { handler(e.what()) }`. -/
def tryCatch {V α : Type} (body : Run V α) (handler : String → Run V α) : Run V α := fun w =>
  match body w with
  | (Except.error (Fault.exn what), w1) => handler what w1
  | r => r

/-- The rest of the scope of `std::unique_ptr<MNN::Interpreter> net` once it holds a
non-null pointer: when the scope is left, by `return` or by an exception, the
interpreter is destroyed. -/
def withInterpreter {V α : Type} (body : Run V α) : Run V α := fun w =>
  match body w with
  | (Except.error Fault.undefined, w1) => (Except.error Fault.undefined, w1)
  | (r, w1) => (r, { w1 with trace := w1.trace ++ [Event.destroyInterpreter] })

/-- The call `MNN::Interpreter::createFromFile(cModel)`; the result tells whether the
pointer is non-null. -/
def createFromFile {V : Type} (E : Env) (cModel : String) : Run V Bool := do
  engineCall E (Event.createFromFile cModel)
  pure E.interpreter

/-- The lines `if (cCache && std::strlen(cCache) > 0) net->setCacheFile(cCache);`. -/
def setCache {V : Type} (E : Env) (cacheFile : Option String) : Run V Unit :=
  match cacheFile with
  | some cCache => if cCache.length > 0 then engineCall E (Event.setCacheFile cCache) else pure ()
  | none => pure ()

/-- The call `net->createSession(cfg)`; the result tells whether the pointer is non-null. -/
def createSession {V : Type} (E : Env) (cfg : ScheduleConfig) : Run V Bool := do
  engineCall E (Event.createSession cfg)
  pure E.session

/-- The call `net->getSessionInputAll(session)`. -/
def getSessionInputAll {V : Type} (E : Env) : Run V (List (String × Option InputTensor)) := do
  engineCall E Event.getSessionInputAll
  pure E.inputs

/-- The call `net->getSessionOutputAll(session)`. -/
def getSessionOutputAll {V : Type} (E : Env) : Run V (List (String × Option OutputTensor)) := do
  engineCall E Event.getSessionOutputAll
  pure E.outputs

/-- The loop of `runModel` and `runModelProfile` that requests the one shape for every
non-null input (lines 105-109, 268-272). -/
def resizeAll {V : Type} (E : Env) (shape : List Int) :
    List (String × Option InputTensor) → Run V Unit
  | [] => pure ()
  | (_, none) :: rest => resizeAll E shape rest
  | (name, some _) :: rest => do
    engineCall E (Event.resizeTensor name shape)
    resizeAll E shape rest

/-- The loop of `runModelMulti` and `runModelMultiProfile` over the names and their
shapes (lines 587-603, 760-774): an input is looked up by name and resized if the
session has it. -/
def resizeNamed {V : Type} (E : Env) : List (String × List Int) → Run V Unit
  | [] => pure ()
  | (cname, shape) :: rest => do
    engineCall E (Event.getSessionInput cname)
    if E.knows cname then engineCall E (Event.resizeTensor cname shape) else pure ()
    resizeNamed E rest

/-- The fill loop (lines 123-143, 287-306, 617-636, 789-808): for every non-null input a
host tensor is built, filled, and copied to the input. -/
def stageLoop {σ V : Type} (E : Env) (R : Sampler σ V) (fill : String) :
    List (String × Option InputTensor) → σ → Run V Unit
  | [], _ => pure ()
  | (_, none) :: rest, st => stageLoop E R fill rest st
  | (name, some t) :: rest, st => do
    engineCall E (Event.hostTensor name)
    match fillHost R fill t st with
    | none => undefinedBehaviour
    | some (buf, st1) => do
      engineCall E (Event.copyFromHostTensor name buf)
      stageLoop E R fill rest st1

/-! ## Report serializer -/

/-- The text `operator<<` prints for an `int`. -/
def showInt (n : Int) : String := toString n

/-- The loop `out << t->length(i); if (i + 1 < t->dimensions()) out << sep;`. -/
def dimsTrail (sep : String) : List Int → String
  | [] => ""
  | [d] => showInt d
  | d :: e :: rest => showInt d ++ sep ++ dimsTrail sep (e :: rest)

/-- The loop `if (i) json << ","; json << t->length(i);`, from index `i`. -/
def dimsLead : List Int → Nat → String
  | [], _ => ""
  | d :: rest, i => (if i ≠ 0 then "," else "") ++ showInt d ++ dimsLead rest (i + 1)

/-- The output loop of `runModel` (lines 148-159), which reads every tensor pointer of
the map without testing it: `none` when a pointer is null. -/
def summaryUnchecked : List (String × Option OutputTensor) → Bool → Option String
  | [], _ => some ""
  | (_, none) :: _, _ => none
  | (name, some t) :: rest, first =>
    match summaryUnchecked rest false with
    | none => none
    | some s => some ((if first then "" else ", ") ++ name ++ "[" ++ dimsTrail "x" t.dims ++ "]" ++ s)

/-- The output loop of `runModelMulti` (lines 642-654), which skips null pointers. -/
def summaryChecked : List (String × Option OutputTensor) → Bool → String
  | [], _ => ""
  | (_, none) :: rest, first => summaryChecked rest first
  | (name, some t) :: rest, first =>
    (if first then "" else ", ") ++ name ++ "[" ++ dimsTrail "x" t.dims ++ "]"
      ++ summaryChecked rest false

/-- The loop over `outputs` inside the JSON report (lines 408-420, 905-917); `f` is the
flag of the same name. -/
def outputsJson : List (String × Option OutputTensor) → Bool → String
  | [], _ => ""
  | (_, none) :: rest, f => outputsJson rest f
  | (name, some t) :: rest, f =>
    (if f then "" else ",") ++ "\x7b\"name\":\"" ++ name ++ "\",\"shape\":[" ++ dimsLead t.dims 0
      ++ "]\x7d" ++ outputsJson rest false

/-- The loop over `ops` inside the JSON report (lines 424-435, 920-931), from index `i`. -/
def opsJson (showMs : Int → String) : List OpPerf → Nat → String
  | [], _ => ""
  | op :: rest, i =>
    (if i ≠ 0 then "," else "") ++ "\x7b\"index\":" ++ toString (i + 1)
      ++ ",\"type\":\"" ++ op.type ++ "\""
      ++ ",\"name\":\"" ++ op.name ++ "\""
      ++ ",\"backend\":\"" ++ op.backend ++ "\""
      ++ ",\"start_ms\":" ++ showMs op.start
      ++ ",\"end_ms\":" ++ showMs op.end_
      ++ ",\"duration_ms\":" ++ showMs op.ms
      ++ "\x7d" ++ opsJson showMs rest (i + 1)

/-- The four differences of clock readings the report prints. -/
structure Metrics where
  createInterpreter : Int
  createSession : Int
  resizeSession : Int
  runSession : Int
deriving DecidableEq, Repr

/-- The JSON report of the two profile entry points (lines 394-436, 892-932). -/
def profileJson (F : ForwardIds) (showMs : Int → String) (cBackend : String)
    (cBackup : Option String) (threadsInfo : Int) (m : Metrics)
    (outputs : List (String × Option OutputTensor)) (ops : List OpPerf) : String :=
  "\x7b" ++ "\"profile\":true,"
    ++ "\"backend\":\"" ++ forwardName F (mapForward F cBackend) ++ "\","
    ++ "\"backup\":\"" ++ forwardName F (mapForward F (match cBackup with
        | some b => b
        | none => "CPU")) ++ "\","
    ++ "\"threads\":" ++ showInt threadsInfo ++ ","
    ++ "\"metrics\":\x7b"
    ++ "\"createInterpreter_ms\":" ++ showMs m.createInterpreter ++ ","
    ++ "\"createSession_ms\":" ++ showMs m.createSession ++ ","
    ++ "\"resizeSession_ms\":" ++ showMs m.resizeSession ++ ","
    ++ "\"runSession_ms\":" ++ showMs m.runSession ++ "\x7d,"
    ++ "\"outputs\":[" ++ outputsJson outputs true ++ "],"
    ++ "\"ops\":[" ++ opsJson showMs ops 0 ++ "]\x7d"

/-- The `switch` on the element type code in `getModelInfo` (lines 509-514). -/
def dtypeName : HalideTypeCode → String
  | HalideTypeCode.halide_type_float => "float"
  | HalideTypeCode.halide_type_int => "int"
  | HalideTypeCode.halide_type_uint => "uint"
  | HalideTypeCode.other _ => "unknown"

/-- The loop over the inputs in `getModelInfo` (lines 498-516). -/
def inputsJson : List (String × Option InputTensor) → Bool → String
  | [], _ => ""
  | (_, none) :: rest, first => inputsJson rest first
  | (name, some t) :: rest, first =>
    (if first then "" else ",") ++ "\x7b\"name\":\"" ++ name ++ "\",\"dims\":["
      ++ dimsTrail "," t.dims ++ "],\"dtype\":\"" ++ dtypeName t.code ++ "\"\x7d"
      ++ inputsJson rest false

/-! ## Entry points -/

/-- The arguments of `runModel` and `runModelProfile`.  `memoryMode` and `powerMode`
are only fetched and released by the bridge. -/
structure RunArgs where
  modelPath : String
  inputShape : List Int
  backend : String
  backupType : Option String
  memoryMode : String
  precisionMode : Option String
  powerMode : String
  inputFill : Option String
  threads : Int
  cacheFile : Option String
deriving DecidableEq, Repr

/-- The arguments of `runModelMulti` and `runModelMultiProfile`. -/
structure MultiArgs where
  modelPath : String
  inputNames : List String
  inputShapes : List (List Int)
  backend : String
  backupType : Option String
  memoryMode : String
  precisionMode : Option String
  powerMode : String
  inputFill : Option String
  threads : Int
  cacheFile : Option String
deriving DecidableEq, Repr

/-- The lines `std::string fill = "ZERO"; ... if (cFill) fill = std::string(cFill);`. -/
def fillMode (inputFill : Option String) : String :=
  match inputFill with
  | some cFill => cFill
  | none => "ZERO"

/-- The part of `runModel` behind the creation of the session, lines 103-175: resize
of all inputs to the one shape, fill and copy, run, summary of the outputs, release. -/
def runBody {σ V : Type} (R : Sampler σ V) (E : Env) (a : RunArgs) : Run V String := do
  let inputs ← getSessionInputAll E
  resizeAll E a.inputShape inputs
  engineCall E Event.resizeSession
  stageLoop E R (fillMode a.inputFill) inputs (R.seed 42)
  engineCall E Event.runSession
  let outputs ← getSessionOutputAll E
  match summaryUnchecked outputs true with
  | none => undefinedBehaviour
  | some out => do
    engineCall E Event.releaseSession
    pure ("MNN 3.1.0 OK backend=" ++ a.backend ++ " outputs=" ++ out)

/-- `Java_com_mnn_runner_mnn_1runner_1app_NativeBridge_runModel`, lines 74-188. -/
def runModel {σ V : Type} (F : ForwardIds) (R : Sampler σ V) (E : Env) (a : RunArgs) :
    Run V String :=
  tryCatch
    (do
      let net ← createFromFile E a.modelPath
      if !net then throwRuntimeError "Failed to create interpreter"
      else withInterpreter (do
        setCache E a.cacheFile
        let cfg := buildScheduleConfig F a.backend a.backupType a.threads a.precisionMode
        let session ← createSession E cfg
        if !session then throwRuntimeError "Failed to create session"
        else runBody R E a))
    (fun what => pure ("MNN ERROR: " ++ what))

/-- The part the two profile entry points share word for word, lines 277-449 and
779-944 without the enumeration of the inputs: fill and copy, session information, run,
report, release.  The lambdas `before` and `after` are defined but the session is run by
`net->runSession(session)`, which does not take them, so `ops` stays empty.  The string
`outShapes` (lines 378-391, 876-889) is built and not used. -/
def profileFinish {σ V : Type} (F : ForwardIds) (R : Sampler σ V) (E : Env)
    (cBackend : String) (cBackup : Option String) (inputFill : Option String)
    (cfg : ScheduleConfig) (t0 t1 t2_before t2 t3_before t3 : Int)
    (inputs : List (String × Option InputTensor)) : Run V String := do
  stageLoop E R (fillMode inputFill) inputs (R.seed 42)
  engineCall E Event.getSessionInfoThreads
  let threadsInfo : Int := match E.threadNumber with
    | some n => n
    | none => cfg.numThread
  engineCall E Event.getSessionInfoBackends
  let gpuLabel := pickGpuLabel F E.hasBE E.beBuf (mapForward F cBackend)
  let _after := afterRecord gpuLabel
  let ops : List OpPerf := []
  let runStartAnchor ← now E
  engineCall E Event.runSession
  let t4 ← now E
  let outputs ← getSessionOutputAll E
  let json := profileJson F E.showMs cBackend cBackup threadsInfo
    { createInterpreter := dur_ms t0 t1, createSession := dur_ms t2_before t2,
      resizeSession := dur_ms t3_before t3, runSession := dur_ms runStartAnchor t4 }
    outputs ops
  engineCall E Event.releaseSession
  pure json

/-- The part of `runModelProfile` behind the creation of the session, lines 264-449. -/
def profileBody {σ V : Type} (F : ForwardIds) (R : Sampler σ V) (E : Env) (a : RunArgs)
    (cfg : ScheduleConfig) (t0 t1 t2_before : Int) : Run V String := do
  let t2 ← now E
  let inputs ← getSessionInputAll E
  resizeAll E a.inputShape inputs
  let t3_before ← now E
  engineCall E Event.resizeSession
  let t3 ← now E
  profileFinish F R E a.backend a.backupType a.inputFill cfg t0 t1 t2_before t2 t3_before t3
    inputs

/-- `Java_com_mnn_runner_mnn_1runner_1app_NativeBridge_runModelProfile`, lines 232-462. -/
def runModelProfile {σ V : Type} (F : ForwardIds) (R : Sampler σ V) (E : Env) (a : RunArgs) :
    Run V String := do
  let t0 ← now E
  tryCatch
    (do
      let net ← createFromFile E a.modelPath
      if !net then throwRuntimeError "Failed to create interpreter"
      else withInterpreter (do
        let t1 ← now E
        setCache E a.cacheFile
        let cfg := buildScheduleConfig F a.backend a.backupType a.threads a.precisionMode
        let t2_before ← now E
        let session ← createSession E cfg
        if !session then throwRuntimeError "Failed to create session"
        else profileBody F R E a cfg t0 t1 t2_before))
    (fun what => pure ("MNN PROFILE ERROR: " ++ what))

/-- `Java_com_mnn_runner_mnn_1runner_1app_NativeBridge_getModelInfo`, lines 485-526.
`dflt` is a default-constructed `MNN::ScheduleConfig`, of which only `type` is set. -/
def getModelInfo {V : Type} (F : ForwardIds) (dflt : ScheduleConfig) (E : Env)
    (modelPath : String) : Run V String :=
  tryCatch
    (do
      let net ← createFromFile E modelPath
      if !net then throwRuntimeError "Failed to create interpreter"
      else withInterpreter (do
        let session ← createSession E { dflt with type := F.cpu }
        if !session then throwRuntimeError "Failed to create session"
        else do
          let inputs ← getSessionInputAll E
          let json := "\x7b\"inputs\":[" ++ inputsJson inputs true ++ "]\x7d"
          engineCall E Event.releaseSession
          pure json))
    (fun what => pure ("\x7b\"error\":\"" ++ what ++ "\"\x7d"))

/-- The part of `runModelMulti` behind the comparison of the two lengths, lines
587-670: resize of the named inputs, fill and copy of all inputs, run, summary, release. -/
def multiBody {σ V : Type} (R : Sampler σ V) (E : Env) (a : MultiArgs) : Run V String := do
  resizeNamed E (a.inputNames.zip a.inputShapes)
  engineCall E Event.resizeSession
  let inputsAll ← getSessionInputAll E
  stageLoop E R (fillMode a.inputFill) inputsAll (R.seed 42)
  engineCall E Event.runSession
  let outputs ← getSessionOutputAll E
  let out := summaryChecked outputs true
  engineCall E Event.releaseSession
  pure ("MNN 3.1.0 OK backend=" ++ a.backend ++ " outputs=" ++ out)

/-- `Java_com_mnn_runner_mnn_1runner_1app_NativeBridge_runModelMulti`, lines 554-683. -/
def runModelMulti {σ V : Type} (F : ForwardIds) (R : Sampler σ V) (E : Env) (a : MultiArgs) :
    Run V String :=
  tryCatch
    (do
      let net ← createFromFile E a.modelPath
      if !net then throwRuntimeError "Failed to create interpreter"
      else withInterpreter (do
        setCache E a.cacheFile
        let cfg := buildScheduleConfig F a.backend a.backupType a.threads a.precisionMode
        let session ← createSession E cfg
        if !session then throwRuntimeError "Failed to create session"
        else
          let nInputs := a.inputNames.length
          let nShapes := a.inputShapes.length
          if nInputs ≠ nShapes then throwRuntimeError "names/shapes length mismatch"
          else multiBody R E a))
    (fun what => pure ("MNN ERROR: " ++ what))

/-- The part of `runModelMultiProfile` behind the comparison of the two lengths, lines
760-944. -/
def multiProfileBody {σ V : Type} (F : ForwardIds) (R : Sampler σ V) (E : Env) (a : MultiArgs)
    (cfg : ScheduleConfig) (t0 t1 t2_before t2 : Int) : Run V String := do
  resizeNamed E (a.inputNames.zip a.inputShapes)
  let t3_before ← now E
  engineCall E Event.resizeSession
  let t3 ← now E
  let inputsAll ← getSessionInputAll E
  profileFinish F R E a.backend a.backupType a.inputFill cfg t0 t1 t2_before t2 t3_before t3
    inputsAll

/-- `Java_com_mnn_runner_mnn_1runner_1app_NativeBridge_runModelMultiProfile`, lines
722-955. -/
def runModelMultiProfile {σ V : Type} (F : ForwardIds) (R : Sampler σ V) (E : Env)
    (a : MultiArgs) : Run V String := do
  let t0 ← now E
  tryCatch
    (do
      let net ← createFromFile E a.modelPath
      if !net then throwRuntimeError "Failed to create interpreter"
      else withInterpreter (do
        let t1 ← now E
        setCache E a.cacheFile
        let cfg := buildScheduleConfig F a.backend a.backupType a.threads a.precisionMode
        let t2_before ← now E
        let session ← createSession E cfg
        if !session then throwRuntimeError "Failed to create session"
        else do
          let t2 ← now E
          let nInputs := a.inputNames.length
          let nShapes := a.inputShapes.length
          if nInputs ≠ nShapes then throwRuntimeError "names/shapes length mismatch"
          else multiProfileBody F R E a cfg t0 t1 t2_before t2))
    (fun what => pure ("MNN PROFILE ERROR: " ++ what))

/-- The events that change or execute the session: a resize request, the commit of the
resizes, the building and the copy of a staged input, the run. -/
def Event.isExecution {V : Type} : Event V → Bool
  | Event.resizeTensor _ _ => true
  | Event.resizeSession => true
  | Event.hostTensor _ => true
  | Event.copyFromHostTensor _ _ => true
  | Event.runSession => true
  | _ => false

/-- The engine calls of the fill loop for a list of staged buffers. -/
def stagingEvents {V : Type} : List (String × Buffer V) → List (Event V)
  | [] => []
  | (name, buf) :: rest =>
    Event.hostTensor name :: Event.copyFromHostTensor name buf :: stagingEvents rest

/-- The number of `releaseSession` calls in a trace. -/
def releaseCount {V : Type} (trace : List (Event V)) : Nat :=
  (trace.filter (fun e => match e with
    | Event.releaseSession => true
    | _ => false)).length

/-- The number of `createSession` calls in a trace. -/
def createCount {V : Type} (trace : List (Event V)) : Nat :=
  (trace.filter (fun e => match e with
    | Event.createSession _ => true
    | _ => false)).length

/-- An engine in which nothing faults, the model loads and the session is created; it
has one float input `x` of four elements and one output `y` of shape 1x2. -/
def plainEnv : Env :=
  { fault := fun _ => none, interpreter := true, session := true, knows := fun n => n == "x",
    inputs := [("x", some ⟨16, 4, HalideTypeCode.halide_type_float, [1, 4]⟩)],
    outputs := [("y", some { dims := [1, 2] })],
    threadNumber := some 4, hasBE := true, beBuf := [0], clock := fun k => k,
    showMs := fun d => toString d }

/-- A call of the multi-input entry points with one name and no shape. -/
def mismatchArgs : MultiArgs :=
  { modelPath := "m.mnn", inputNames := ["x"], inputShapes := [], backend := "CPU",
    backupType := some "CPU", memoryMode := "NORMAL", precisionMode := some "NORMAL",
    powerMode := "NORMAL", inputFill := some "ZERO", threads := 1, cacheFile := none }

/-- The string an entry point returned, when it returned. -/
def outcomeText {V : Type} (r : Except Fault String × World V) : Option String :=
  match r.1 with
  | Except.ok text => some text
  | Except.error _ => none

/-- As `plainEnv`, but the model file cannot be loaded. -/
def noModelEnv : Env := { plainEnv with interpreter := false }

/-- As `plainEnv`, but the engine throws in its call number `k`. -/
def faultyEnv (k : Nat) (what : String) : Env :=
  { plainEnv with fault := fun j => if j = k then some what else none }

/-- A call of the multi-input entry points with one name and one shape. -/
def matchedArgs : MultiArgs := { mismatchArgs with inputShapes := [[1, 4]] }

/-- Three inputs for concrete evaluations of the fill loop: two floating-point tensors
with an integer tensor between them. -/
def mixedInputs : List (String × Option InputTensor) :=
  [("a", some ⟨8, 2, HalideTypeCode.halide_type_float, [2]⟩),
    ("b", some ⟨4, 1, HalideTypeCode.halide_type_int, [1]⟩),
    ("c", some ⟨4, 1, HalideTypeCode.halide_type_float, [1]⟩)]

/-- A buffer whose first entry is CPU (0), whose second entry is 0, and whose third
entry is OPENCL (3). -/
def gapBuffer : List Int := [0, 0, 3, 0, 0, 0, 0, 0, 0, 0, 0, 0, 0, 0, 0, 0]

/-! ## Properties of runs -/

/-- The run `m` leaves every state that satisfies `I` in a state that satisfies `I`. -/
def Keeps {V α : Type} (I : World V → Prop) (m : Run V α) : Prop :=
  ∀ w, I w → I (m w).2

/-- The run `m` ends, from every state, by a thrown `std::exception`. -/
def Throws {V α : Type} (m : Run V α) : Prop :=
  ∀ w, ∃ what, (m w).1 = Except.error (Fault.exn what)

/-- The run `m` never ends in a step without meaning. -/
def NoUB {V α : Type} (m : Run V α) : Prop :=
  ∀ w, (m w).1 ≠ Except.error Fault.undefined

/-- The run `m` returns, from every state, a string that starts with `marker`. -/
def ReturnsError {V : Type} (marker : String) (m : Run V String) : Prop :=
  ∀ w, ∃ what, (m w).1 = Except.ok (marker ++ what)

/-- No event of the trace changes or executes the session. -/
def NoExecution {V : Type} (w : World V) : Prop :=
  ∀ e ∈ w.trace, e.isExecution = false

/-! ## The build without the engine (`HAVE_MNN` unset) -/

/-- `mapForward` in the build without the engine (lines 29-31). -/
def mapForwardStub (_s : String) : Int := 0

/-- The text the stubs of `runModel` (lines 201-206) and `runModelMulti` (lines
696-699) return, and the text inside the stub of `getModelInfo`. -/
def notBundledText : String :=
  "MNN not bundled. Place headers under src/main/cpp/third_party/MNN/include and libMNN.so under src/main/jniLibs/<ABI>/"

/-- The text the stubs of `runModelProfile` (lines 471-475) and `runModelMultiProfile`
(lines 967-970) return. -/
def cannotProfileText : String :=
  "MNN not bundled. Cannot profile. Place headers and libMNN.so as documented."

/-- The `jstring` arguments whose characters the stubs get or release. -/
inductive JArg where
  | modelPath
  | backend
  | backupType
  | memoryMode
  | powerMode
  | inputFill
  | cacheFile
deriving DecidableEq, Repr

/-- One statement of a stub: `env->GetStringUTFChars(arg, nullptr)`,
`env->ReleaseStringUTFChars(arg, chars)` with the characters got from `arg`, or
`msg << text`. -/
inductive StubStep where
  | getChars (arg : JArg)
  | releaseChars (arg : JArg)
  | write (text : String)
deriving DecidableEq, Repr

/-- The state of a stub: the arguments whose characters are held (got and not yet
released, one entry for each `GetStringUTFChars`), and the contents of `msg`. -/
structure StubState where
  held : List JArg
  msg : String
deriving DecidableEq, Repr

/-- One statement of a stub.  `ReleaseStringUTFChars` on characters that are not held,
because they were released before, is a step the interface gives no meaning to. -/
def stubStep (s : StubState) : StubStep → Except Fault StubState
  | StubStep.getChars arg => Except.ok { s with held := arg :: s.held }
  | StubStep.releaseChars arg =>
    if arg ∈ s.held then Except.ok { s with held := s.held.erase arg }
    else Except.error Fault.undefined
  | StubStep.write text => Except.ok { s with msg := s.msg ++ text }

/-- The statements of a stub one after the other, up to the first one without meaning,
and behind them `return env->NewStringUTF(msg.str().c_str());`. -/
def runStub : List StubStep → StubState → Except Fault String × StubState
  | [], s => (Except.ok s.msg, s)
  | step :: rest, s =>
    match stubStep s step with
    | Except.ok s1 => runStub rest s1
    | Except.error e => (Except.error e, s)

/-- The lines `const char* cCache = cacheFile ? env->GetStringUTFChars(cacheFile, nullptr)
: nullptr; if (cCache) env->ReleaseStringUTFChars(cacheFile, cCache);`. -/
def cacheSteps (cacheFile : Option String) : List StubStep :=
  match cacheFile with
  | some _ => [StubStep.getChars JArg.cacheFile, StubStep.releaseChars JArg.cacheFile]
  | none => []

/-- `runModel` in the build without the engine: lines 66-68 and 189-206, statement by
statement (the three calls on the `jintArray` of lines 70-72 touch no string).  The
characters of `backupType` are released at line 191 and again at line 205. -/
def runModelStub (a : RunArgs) : Except Fault String × StubState :=
  runStub ([StubStep.getChars JArg.modelPath, StubStep.getChars JArg.backend,
      StubStep.getChars JArg.backupType, StubStep.releaseChars JArg.backupType]
    ++ cacheSteps a.cacheFile
    ++ [StubStep.getChars JArg.memoryMode, StubStep.releaseChars JArg.memoryMode,
      StubStep.getChars JArg.powerMode, StubStep.releaseChars JArg.powerMode,
      StubStep.getChars JArg.inputFill, StubStep.releaseChars JArg.inputFill,
      StubStep.write notBundledText, StubStep.releaseChars JArg.modelPath,
      StubStep.releaseChars JArg.backend, StubStep.releaseChars JArg.backupType]) ⟨[], ""⟩

/-- `runModelProfile` in the build without the engine: lines 224-226 and 463-475,
statement by statement (the three calls on the `jintArray` of lines 228-230 touch no
string). -/
def runModelProfileStub (_a : RunArgs) : Except Fault String × StubState :=
  runStub [StubStep.getChars JArg.modelPath, StubStep.getChars JArg.backend,
    StubStep.getChars JArg.backupType, StubStep.releaseChars JArg.backupType,
    StubStep.getChars JArg.memoryMode, StubStep.releaseChars JArg.memoryMode,
    StubStep.getChars JArg.powerMode, StubStep.releaseChars JArg.powerMode,
    StubStep.getChars JArg.inputFill, StubStep.releaseChars JArg.inputFill,
    StubStep.write cannotProfileText, StubStep.releaseChars JArg.modelPath,
    StubStep.releaseChars JArg.backend] ⟨[], ""⟩

/-- `getModelInfo` in the build without the engine: lines 484 and 527-531. -/
def getModelInfoStub (_modelPath : String) : Except Fault String × StubState :=
  runStub [StubStep.getChars JArg.modelPath,
    StubStep.write "\x7b\"error\":\"MNN not bundled. Place headers under src/main/cpp/third_party/MNN/include and libMNN.so under src/main/jniLibs/<ABI>/\"\x7d",
    StubStep.releaseChars JArg.modelPath] ⟨[], ""⟩

/-- `runModelMulti` in the build without the engine: lines 550-552 and 684-699. -/
def runModelMultiStub (a : MultiArgs) : Except Fault String × StubState :=
  runStub ([StubStep.getChars JArg.modelPath, StubStep.getChars JArg.backend,
      StubStep.getChars JArg.backupType, StubStep.releaseChars JArg.backend,
      StubStep.releaseChars JArg.backupType,
      StubStep.getChars JArg.memoryMode, StubStep.releaseChars JArg.memoryMode,
      StubStep.getChars JArg.powerMode, StubStep.releaseChars JArg.powerMode,
      StubStep.getChars JArg.inputFill, StubStep.releaseChars JArg.inputFill]
    ++ cacheSteps a.cacheFile
    ++ [StubStep.write notBundledText, StubStep.releaseChars JArg.modelPath]) ⟨[], ""⟩

/-- `runModelMultiProfile` in the build without the engine: lines 718-720 and
956-970. -/
def runModelMultiProfileStub (a : MultiArgs) : Except Fault String × StubState :=
  runStub ([StubStep.getChars JArg.modelPath, StubStep.getChars JArg.backend,
      StubStep.getChars JArg.backupType, StubStep.releaseChars JArg.backend,
      StubStep.releaseChars JArg.backupType,
      StubStep.getChars JArg.memoryMode, StubStep.releaseChars JArg.memoryMode,
      StubStep.getChars JArg.powerMode, StubStep.releaseChars JArg.powerMode,
      StubStep.getChars JArg.inputFill, StubStep.releaseChars JArg.inputFill]
    ++ cacheSteps a.cacheFile
    ++ [StubStep.write cannotProfileText, StubStep.releaseChars JArg.modelPath]) ⟨[], ""⟩

/-- The sentence of the stub texts that says where the headers and the library go. -/
def placementGuidance : String :=
  "Place headers under src/main/cpp/third_party/MNN/include and libMNN.so under src/main/jniLibs/<ABI>/"

/-- The characters `p` are the first characters of the second list. -/
def startsWithChars : List Char → List Char → Bool
  | [], _ => true
  | _ :: _, [] => false
  | p :: ps, c :: cs => p == c && startsWithChars ps cs

/-- The characters `needle` occur, one after the other, somewhere in the second list. -/
def occursIn (needle : List Char) : List Char → Bool
  | [] => needle.isEmpty
  | c :: cs => startsWithChars needle (c :: cs) || occursIn needle cs

/-- The string `hay` contains the string `needle`. -/
def containsText (needle hay : String) : Bool := occursIn needle.data hay.data

/-- Any arguments of the single-input entry points. -/
def someRunArgs : RunArgs :=
  { modelPath := "m.mnn", inputShape := [1, 4], backend := "CPU", backupType := some "CPU",
    memoryMode := "NORMAL", precisionMode := some "NORMAL", powerMode := "NORMAL",
    inputFill := some "ONE", threads := 1, cacheFile := none }

/-- As `plainEnv`, but the input `x` is a floating-point tensor of two elements of 64
bits: its host buffer has 16 bytes. -/
def wideEnv : Env :=
  { plainEnv with inputs := [("x", some ⟨16, 2, HalideTypeCode.halide_type_float, [2]⟩)] }

/-- The identifiers `forwardName` has a name for. -/
def namedIds (F : ForwardIds) : List Int :=
  [F.cpu, F.auto, F.metal, F.cuda, F.opencl, F.opengl, F.vulkan, F.nn, F.all]

/-! ## Traces of runs in which nothing fails -/

/-- The engine call of the lines `if (cCache && std::strlen(cCache) > 0) ...`, if any. -/
def setCacheEvents {V : Type} (cacheFile : Option String) : List (Event V) :=
  match cacheFile with
  | some cCache => if cCache.length > 0 then [Event.setCacheFile cCache] else []
  | none => []

/-- The engine calls of the loop that requests one shape for every non-null input. -/
def resizeAllEvents {V : Type} (shape : List Int) :
    List (String × Option InputTensor) → List (Event V)
  | [] => []
  | (_, none) :: rest => resizeAllEvents shape rest
  | (name, some _) :: rest => Event.resizeTensor name shape :: resizeAllEvents shape rest

/-- The engine calls of the loop over the names and their shapes: each name is looked
up, and a resize is requested for the names the session knows. -/
def resizeNamedEvents {V : Type} (E : Env) : List (String × List Int) → List (Event V)
  | [] => []
  | (cname, shape) :: rest =>
    if E.knows cname then
      Event.getSessionInput cname :: Event.resizeTensor cname shape :: resizeNamedEvents E rest
    else Event.getSessionInput cname :: resizeNamedEvents E rest

/-- The entries of a map whose tensor pointer is not null. -/
def present {α : Type} : List (String × Option α) → List (String × α)
  | [] => []
  | (_, none) :: rest => present rest
  | (name, some t) :: rest => (name, t) :: present rest

/-- One entry `name[d0xd1x...]` of the summary line. -/
def summaryEntry (kv : String × OutputTensor) : String :=
  kv.1 ++ "[" ++ "x".intercalate (kv.2.dims.map showInt) ++ "]"

/-- One entry of the array `inputs` of `getModelInfo`. -/
def inputEntry (kv : String × InputTensor) : String :=
  "\x7b\"name\":\"" ++ kv.1 ++ "\",\"dims\":[" ++ ",".intercalate (kv.2.dims.map showInt)
    ++ "],\"dtype\":\"" ++ dtypeName kv.2.code ++ "\"\x7d"

/-- The clock never goes back. -/
def MonotoneClock (E : Env) : Prop := ∀ i j, i ≤ j → E.clock i ≤ E.clock j

/-- Every event of the trace satisfies `P`. -/
def TraceAll {V : Type} (P : Event V → Prop) (w : World V) : Prop :=
  ∀ e ∈ w.trace, P e

/-- The engine calls `getModelInfo` may make: loading the model, creating a session on
the CPU backend, enumerating the inputs, releasing the session; and the destruction of
the interpreter. -/
def Event.isInfoCall {V : Type} (F : ForwardIds) : Event V → Bool
  | Event.createFromFile _ => true
  | Event.createSession cfg => cfg.type == F.cpu
  | Event.getSessionInputAll => true
  | Event.releaseSession => true
  | Event.destroyInterpreter => true
  | _ => false

/-- The results of the run `m` that are strings all satisfy `Q`. -/
def ResultIn {V : Type} (Q : String → Prop) (m : Run V String) : Prop :=
  ∀ w s, (m w).1 = Except.ok s → Q s

/-- The value of `threadsInfo` when the report is written: what the engine wrote for
`THREAD_NUMBER`, else the thread count of the configuration. -/
def threadsInfoOf (E : Env) (cfg : ScheduleConfig) : Int :=
  match E.threadNumber with
  | some n => n
  | none => cfg.numThread

/-- The report of the profile entry points up to and without the member `ops`. -/
def reportHead (F : ForwardIds) (showMs : Int → String) (cBackend : String)
    (cBackup : Option String) (threadsInfo : Int) (m : Metrics)
    (outputs : List (String × Option OutputTensor)) : String :=
  "\x7b" ++ "\"profile\":true,"
    ++ "\"backend\":\"" ++ forwardName F (mapForward F cBackend) ++ "\","
    ++ "\"backup\":\"" ++ forwardName F (mapForward F (match cBackup with
        | some b => b
        | none => "CPU")) ++ "\","
    ++ "\"threads\":" ++ showInt threadsInfo ++ ","
    ++ "\"metrics\":\x7b"
    ++ "\"createInterpreter_ms\":" ++ showMs m.createInterpreter ++ ","
    ++ "\"createSession_ms\":" ++ showMs m.createSession ++ ","
    ++ "\"resizeSession_ms\":" ++ showMs m.resizeSession ++ ","
    ++ "\"runSession_ms\":" ++ showMs m.runSession ++ "\x7d,"
    ++ "\"outputs\":[" ++ outputsJson outputs true ++ "],"

/-! ## Faults and the strings they become -/

/-- No engine call with a number from `lo` up to, and without, `hi` throws. -/
def NoFaultIn (E : Env) (lo hi : Nat) : Prop :=
  ∀ k, lo ≤ k → k < hi → E.fault k = none

/-- The first engine call from number `lo` on that throws has a number below `hi`, and
it throws with the message `what`. -/
def FirstFaultIn (E : Env) (lo hi : Nat) (what : String) : Prop :=
  ∃ k, lo ≤ k ∧ k < hi ∧ E.fault k = some what ∧ NoFaultIn E lo k

/-- The messages of the exceptions the bridge throws itself. -/
def bridgeMessages : List String :=
  ["Failed to create interpreter", "Failed to create session", "names/shapes length mismatch"]

/-- The run `m` accounts for the faults of the engine: it makes its engine calls in
order; it ends by an exception only with the message of the first call that threw, or,
if no call threw, with a message of the bridge; and it ends otherwise only if no call
threw. -/
def Accounted {V α : Type} (E : Env) (m : Run V α) : Prop :=
  ∀ w, w.calls ≤ (m w).2.calls ∧
    (∀ what, (m w).1 = Except.error (Fault.exn what) →
      FirstFaultIn E w.calls (m w).2.calls what
        ∨ (what ∈ bridgeMessages ∧ NoFaultIn E w.calls (m w).2.calls)) ∧
    ((∀ what, (m w).1 ≠ Except.error (Fault.exn what)) → NoFaultIn E w.calls (m w).2.calls)

/-- The run `m` lets no exception out, and when an engine call throws (the first one
that does, with the message `what`) it returns `marker` followed by `what`. -/
def Settled {V : Type} (E : Env) (marker : String) (m : Run V String) : Prop :=
  ∀ w, (∀ what, (m w).1 ≠ Except.error (Fault.exn what)) ∧
    (∀ k what, w.calls ≤ k → E.fault k = some what → NoFaultIn E w.calls k →
      k < (m w).2.calls → (m w).1 = Except.ok (marker ++ what))

/-- What C12 says of one run entry point `m` with the marker `marker`: no exception
leaves it; an exception of the engine with the message `what` (the first call that
throws, among the calls made) gives `marker` followed by `what`; a model that cannot be
loaded gives `marker` followed by "Failed to create interpreter"; a session that cannot
be created gives `marker` followed by "Failed to create session". -/
def ConvertsFaults {V : Type} (E : Env) (marker : String) (m : Run V String) : Prop :=
  (∀ what, (m World.init).1 ≠ Except.error (Fault.exn what)) ∧
  (∀ k what, E.fault k = some what → NoFaultIn E 0 k → k < (m World.init).2.calls →
    (m World.init).1 = Except.ok (marker ++ what)) ∧
  (E.fault 0 = none → E.interpreter = false →
    (m World.init).1 = Except.ok (marker ++ "Failed to create interpreter")) ∧
  (E.interpreter = true → E.session = false → (∀ k, k < 3 → E.fault k = none) →
    (m World.init).1 = Except.ok (marker ++ "Failed to create session"))

/-! ## JSON texts (RFC 8259) -/

/-- A JSON value as a tree.  A number is kept as its text, a string as the text between
its quotes (escapes are not decoded), an object as the list of its members in the order
of the text. -/
inductive Json where
  | null
  | bool (b : Bool)
  | num (text : String)
  | str (text : String)
  | arr (items : List Json)
  | obj (members : List (String × Json))

/-- States of the automaton of the grammar `number`:
`[ minus ] int [ frac ] [ exp ]`. -/
inductive NumState where
  | start
  | minus
  | zero
  | int
  | dot
  | frac
  | exp
  | expSign
  | expDigits
deriving DecidableEq, Repr

/-- One character of a number. -/
def numStep : NumState → Char → Option NumState
  | NumState.start, c =>
    if c = '-' then some NumState.minus
    else if c = '0' then some NumState.zero
    else if c.isDigit then some NumState.int else none
  | NumState.minus, c =>
    if c = '0' then some NumState.zero
    else if c.isDigit then some NumState.int else none
  | NumState.zero, c =>
    if c = '.' then some NumState.dot
    else if c = 'e' ∨ c = 'E' then some NumState.exp else none
  | NumState.int, c =>
    if c.isDigit then some NumState.int
    else if c = '.' then some NumState.dot
    else if c = 'e' ∨ c = 'E' then some NumState.exp else none
  | NumState.dot, c => if c.isDigit then some NumState.frac else none
  | NumState.frac, c =>
    if c.isDigit then some NumState.frac
    else if c = 'e' ∨ c = 'E' then some NumState.exp else none
  | NumState.exp, c =>
    if c = '+' ∨ c = '-' then some NumState.expSign
    else if c.isDigit then some NumState.expDigits else none
  | NumState.expSign, c => if c.isDigit then some NumState.expDigits else none
  | NumState.expDigits, c => if c.isDigit then some NumState.expDigits else none

/-- The states in which a number may end. -/
def numFinal : NumState → Bool
  | NumState.zero => true
  | NumState.int => true
  | NumState.frac => true
  | NumState.expDigits => true
  | _ => false

/-- The characters of a text, read by the automaton of `number` from the state `s`. -/
def numRun : NumState → List Char → Option NumState
  | s, [] => some s
  | s, c :: cs =>
    match numStep s c with
    | some s1 => numRun s1 cs
    | none => none

/-- The text is a JSON number. -/
def isNumber (text : String) : Bool :=
  match numRun NumState.start text.data with
  | some s => numFinal s
  | none => false

/-- An array or an object that is being read: the items or members read so far, and for
an object the name of the member whose value is read next. -/
inductive Frame where
  | arr (done : List Json)
  | obj (done : List (String × Json)) (key : String)

/-- Where the reader is inside a string: in plain text, behind a backslash, or inside
the four hexadecimal digits of `\u`, `left` of them still to come. -/
inductive Esc where
  | plain
  | slash
  | hex (left : Nat)
deriving DecidableEq, Repr

/-- What the reader expects next. -/
inductive Mode where
  | value
  | valueOrEnd
  | keyOrEnd
  | key
  | colon
  | str (isKey : Bool) (acc : List Char) (esc : Esc)
  | num (acc : List Char) (s : NumState)
  | lit (rest : List Char) (v : Json)
  | afterValue
  | finished (v : Json)

/-- The state of the reader: the arrays and objects that are open, innermost first, and
what is expected next. -/
structure JsonState where
  stack : List Frame
  mode : Mode

/-- The insignificant whitespace `ws`. -/
def isWs (c : Char) : Bool := c = ' ' || c = '\t' || c = '\n' || c = '\r'

/-- A hexadecimal digit. -/
def isHexDigit (c : Char) : Bool :=
  c.isDigit || (97 ≤ c.toNat && c.toNat ≤ 102) || (65 ≤ c.toNat && c.toNat ≤ 70)

/-- A value has been read: it is added to the innermost open array or object, or it is
the value of the whole text. -/
def complete (stack : List Frame) (v : Json) : JsonState :=
  match stack with
  | [] => ⟨[], Mode.finished v⟩
  | Frame.arr done :: rest => ⟨Frame.arr (done ++ [v]) :: rest, Mode.afterValue⟩
  | Frame.obj done key :: rest => ⟨Frame.obj (done ++ [(key, v)]) key :: rest, Mode.afterValue⟩

/-- One character behind a value. -/
def stepAfter (st : JsonState) (c : Char) : Option JsonState :=
  match st.mode, st.stack with
  | Mode.finished _, _ => if isWs c then some st else none
  | Mode.afterValue, Frame.arr done :: rest =>
    if isWs c then some st
    else if c = ',' then some ⟨Frame.arr done :: rest, Mode.value⟩
    else if c = ']' then some (complete rest (Json.arr done)) else none
  | Mode.afterValue, Frame.obj done key :: rest =>
    if isWs c then some st
    else if c = ',' then some ⟨Frame.obj done key :: rest, Mode.key⟩
    else if c = '\x7d' then some (complete rest (Json.obj done)) else none
  | _, _ => none

/-- The first character of a value. -/
def startValue (stack : List Frame) (c : Char) : Option JsonState :=
  if c = '\x7b' then some ⟨Frame.obj [] "" :: stack, Mode.keyOrEnd⟩
  else if c = '[' then some ⟨Frame.arr [] :: stack, Mode.valueOrEnd⟩
  else if c = '"' then some ⟨stack, Mode.str false [] Esc.plain⟩
  else if c = 't' then some ⟨stack, Mode.lit ['r', 'u', 'e'] (Json.bool true)⟩
  else if c = 'f' then some ⟨stack, Mode.lit ['a', 'l', 's', 'e'] (Json.bool false)⟩
  else if c = 'n' then some ⟨stack, Mode.lit ['u', 'l', 'l'] Json.null⟩
  else match numStep NumState.start c with
    | some s => some ⟨stack, Mode.num [c] s⟩
    | none => none

/-- The closing quote of a string: a member name is noted in the open object, any other
string is a value. -/
def closeString (stack : List Frame) (isKey : Bool) (acc : List Char) : Option JsonState :=
  if isKey then
    match stack with
    | Frame.obj done _ :: rest => some ⟨Frame.obj done (String.mk acc) :: rest, Mode.colon⟩
    | _ => none
  else some (complete stack (Json.str (String.mk acc)))

/-- One character inside a string. -/
def stepString (stack : List Frame) (isKey : Bool) (acc : List Char) (esc : Esc) (c : Char) :
    Option JsonState :=
  match esc with
  | Esc.plain =>
    if c = '"' then closeString stack isKey acc
    else if c = '\\' then some ⟨stack, Mode.str isKey (acc ++ [c]) Esc.slash⟩
    else if c.toNat < 32 then none
    else some ⟨stack, Mode.str isKey (acc ++ [c]) Esc.plain⟩
  | Esc.slash =>
    if c = '"' ∨ c = '\\' ∨ c = '/' ∨ c = 'b' ∨ c = 'f' ∨ c = 'n' ∨ c = 'r' ∨ c = 't' then
      some ⟨stack, Mode.str isKey (acc ++ [c]) Esc.plain⟩
    else if c = 'u' then some ⟨stack, Mode.str isKey (acc ++ [c]) (Esc.hex 4)⟩
    else none
  | Esc.hex left =>
    if isHexDigit c then
      some ⟨stack, Mode.str isKey (acc ++ [c]) (if left ≤ 1 then Esc.plain else Esc.hex (left - 1))⟩
    else none

/-- One character of a JSON text. -/
def step (st : JsonState) (c : Char) : Option JsonState :=
  match st.mode with
  | Mode.value => if isWs c then some st else startValue st.stack c
  | Mode.valueOrEnd =>
    if isWs c then some st
    else if c = ']' then
      match st.stack with
      | Frame.arr done :: rest => some (complete rest (Json.arr done))
      | _ => none
    else startValue st.stack c
  | Mode.keyOrEnd =>
    if isWs c then some st
    else if c = '\x7d' then
      match st.stack with
      | Frame.obj done _ :: rest => some (complete rest (Json.obj done))
      | _ => none
    else if c = '"' then some ⟨st.stack, Mode.str true [] Esc.plain⟩ else none
  | Mode.key =>
    if isWs c then some st
    else if c = '"' then some ⟨st.stack, Mode.str true [] Esc.plain⟩ else none
  | Mode.colon =>
    if isWs c then some st
    else if c = ':' then some ⟨st.stack, Mode.value⟩ else none
  | Mode.str isKey acc esc => stepString st.stack isKey acc esc c
  | Mode.num acc s =>
    match numStep s c with
    | some s1 => some ⟨st.stack, Mode.num (acc ++ [c]) s1⟩
    | none =>
      if numFinal s then stepAfter (complete st.stack (Json.num (String.mk acc))) c else none
  | Mode.lit rest v =>
    match rest with
    | [] => none
    | [r] => if c = r then some (complete st.stack v) else none
    | r :: rs => if c = r then some ⟨st.stack, Mode.lit rs v⟩ else none
  | Mode.afterValue => stepAfter st c
  | Mode.finished _ => stepAfter st c

/-- The characters of a text, read from the state `st`: `none` when one of them cannot
stand where it stands. -/
def readFrom : JsonState → List Char → Option JsonState
  | st, [] => some st
  | st, c :: cs =>
    match step st c with
    | some st1 => readFrom st1 cs
    | none => none

/-- The value of a text that has been read to its end. -/
def finish (st : JsonState) : Option Json :=
  match st.stack, st.mode with
  | [], Mode.finished v => some v
  | [], Mode.num acc s => if numFinal s then some (Json.num (String.mk acc)) else none
  | _, _ => none

/-- The value a JSON text denotes; `none` when the text is not a JSON text. -/
def readJson (text : String) : Option Json :=
  match readFrom ⟨[], Mode.value⟩ text.data with
  | some st => finish st
  | none => none

/-- The names of the members of an object, in the order of the text. -/
def Json.keys : Json → Option (List String)
  | Json.obj members => some (members.map fun kv => kv.1)
  | _ => none

/-- A character that may stand in a JSON string as it is: not the double quote, not the
backslash, not a control character. -/
def SafeChar (c : Char) : Prop := c ≠ '"' ∧ c ≠ '\\' ∧ 32 ≤ c.toNat

/-- A text all of whose characters may stand in a JSON string as they are. -/
def SafeText (s : String) : Prop := ∀ c ∈ s.data, SafeChar c

/-- The value of one entry of the member `outputs` of the report: an object with the
members `name` and `shape`, the shape being the array of the lengths. -/
def outputTree (kv : String × OutputTensor) : Json :=
  Json.obj [("name", Json.str kv.1),
    ("shape", Json.arr (kv.2.dims.map fun d => Json.num (showInt d)))]

/-- The values of the entries of the member `ops` of the report, the first of them
being entry number `i + 1`: objects with the members `index`, `type`, `name`, `backend`,
`start_ms`, `end_ms`, `duration_ms`. -/
def opTrees (showMs : Int → String) : List OpPerf → Nat → List Json
  | [], _ => []
  | op :: rest, i =>
    Json.obj [("index", Json.num (toString (i + 1))), ("type", Json.str op.type),
      ("name", Json.str op.name), ("backend", Json.str op.backend),
      ("start_ms", Json.num (showMs op.start)), ("end_ms", Json.num (showMs op.end_)),
      ("duration_ms", Json.num (showMs op.ms))] :: opTrees showMs rest (i + 1)

/-- The value of the report as a tree: one object with the members `profile`, `backend`,
`backup`, `threads`, `metrics`, `outputs`, `ops`, in this order. -/
def reportTree (F : ForwardIds) (showMs : Int → String) (cBackend : String)
    (cBackup : Option String) (threadsInfo : Int) (m : Metrics)
    (outputs : List (String × Option OutputTensor)) (ops : List OpPerf) : Json :=
  Json.obj [("profile", Json.bool true),
    ("backend", Json.str (forwardName F (mapForward F cBackend))),
    ("backup", Json.str (forwardName F (mapForward F (match cBackup with
      | some b => b
      | none => "CPU")))),
    ("threads", Json.num (showInt threadsInfo)),
    ("metrics", Json.obj [("createInterpreter_ms", Json.num (showMs m.createInterpreter)),
      ("createSession_ms", Json.num (showMs m.createSession)),
      ("resizeSession_ms", Json.num (showMs m.resizeSession)),
      ("runSession_ms", Json.num (showMs m.runSession))]),
    ("outputs", Json.arr ((present outputs).map outputTree)),
    ("ops", Json.arr (opTrees showMs ops 0))]

/-- As `plainEnv`, but the name of the output tensor is one double quote. -/
def quoteEnv : Env := { plainEnv with outputs := [("\"", some { dims := [1, 2] })] }

/-- As `plainEnv`, but the name of the output tensor closes the string, the object and
the array it is printed in and opens a member `injected`. -/
def injectingEnv : Env :=
  { plainEnv with
    outputs := [("a\",\"shape\":[]\x7d],\"injected\":[\x7b\"name\":\"b", some { dims := [1, 2] })] }

/-- As `someRunArgs`, but the backend is asked for in lower case. -/
def lowerRunArgs : RunArgs := { someRunArgs with backend := "vulkan" }

/-- As `matchedArgs`, but the backend is a name `mapForward` does not know. -/
def fooMultiArgs : MultiArgs := { matchedArgs with backend := "FOO" }

/-- The value of one entry of the array `inputs` of `getModelInfo`: an object with the
members `name`, `dims`, `dtype`. -/
def inputTree (kv : String × InputTensor) : Json :=
  Json.obj [("name", Json.str kv.1),
    ("dims", Json.arr (kv.2.dims.map fun d => Json.num (showInt d))),
    ("dtype", Json.str (dtypeName kv.2.code))]

/-- As `plainEnv`, but the name of the output tensor is the four characters `a`, `\`,
`n`, `b`. -/
def escapeEnv : Env := { plainEnv with outputs := [("a\\nb", some { dims := [1, 2] })] }

/-- As `plainEnv`, but the name of the input tensor has double quotes in it: it closes
the string it is printed in and opens a member `y`. -/
def quotedInputEnv : Env :=
  { plainEnv with
    inputs := [("x\",\"y\":\"z", some ⟨16, 4, HalideTypeCode.halide_type_float, [1, 4]⟩)] }

/-- As `plainEnv`, but the name of the input tensor is one double quote. -/
def quoteInputEnv : Env :=
  { plainEnv with inputs := [("\"", some ⟨16, 4, HalideTypeCode.halide_type_float, [1, 4]⟩)] }

/-- The text is a JSON text. -/
def wellFormed (text : String) : Bool := (readJson text).isSome

/-! ## Elements of a staged buffer and what is read from it -/

/-- The cells of element number `k` of a host tensor whose elements have `width`
bytes. -/
def elementCells {V : Type} (width k : Nat) (buf : Buffer V) : Buffer V :=
  (buf.drop (width * k)).take width

/-- What a reader of a staged buffer finds in it, the first cell having the offset `i`:
a cell that was not written since the allocation shows the byte the memory held before,
`heap j` at offset `j`. -/
def bytesRead {V : Type} (heap : Nat → Nat) : Buffer V → Nat → Buffer V
  | [], _ => []
  | Cell.uninit :: rest, i => Cell.byte (heap i) :: bytesRead heap rest (i + 1)
  | Cell.byte b :: rest, i => Cell.byte b :: bytesRead heap rest (i + 1)
  | Cell.f32 v k :: rest, i => Cell.f32 v k :: bytesRead heap rest (i + 1)

/-- As `plainEnv`, but the input `x` is a floating-point tensor of two elements of 16
bits: its host buffer has 4 bytes. -/
def halfEnv : Env :=
  { plainEnv with inputs := [("x", some ⟨4, 2, HalideTypeCode.halide_type_float, [2]⟩)] }

/-- As `someRunArgs`, with the fill mode "UNIFORM". -/
def uniformRunArgs : RunArgs := { someRunArgs with inputFill := some "UNIFORM" }

/-- As `someRunArgs`, with the fill mode "NORMAL". -/
def normalRunArgs : RunArgs := { someRunArgs with inputFill := some "NORMAL" }

/-- As `matchedArgs`, with the fill mode "ONE". -/
def oneMultiArgs : MultiArgs := { matchedArgs with inputFill := some "ONE" }

/-- As `plainEnv`, but the session has the three inputs of `mixedInputs`. -/
def mixedEnv : Env := { plainEnv with inputs := mixedInputs }

/-- The buffers handed to `copyFromHostTensor` in a trace, with the names of their
inputs, in the order of the calls. -/
def stagedBuffers {V : Type} : List (Event V) → List (String × Buffer V)
  | [] => []
  | Event.copyFromHostTensor name buf :: rest => (name, buf) :: stagedBuffers rest
  | _ :: rest => stagedBuffers rest

/-! # Theorems -/

/-! ## Backend resolver -/

theorem ForwardIds.Distinct.ne {F : ForwardIds} (h : F.Distinct) :
    (F.cpu ≠ F.auto ∧ F.cpu ≠ F.metal ∧ F.cpu ≠ F.cuda ∧ F.cpu ≠ F.opencl ∧ F.cpu ≠ F.opengl ∧
      F.cpu ≠ F.vulkan ∧ F.cpu ≠ F.nn ∧ F.cpu ≠ F.all) ∧
    (F.auto ≠ F.metal ∧ F.auto ≠ F.cuda ∧ F.auto ≠ F.opencl ∧ F.auto ≠ F.opengl ∧
      F.auto ≠ F.vulkan ∧ F.auto ≠ F.nn ∧ F.auto ≠ F.all) ∧
    (F.metal ≠ F.cuda ∧ F.metal ≠ F.opencl ∧ F.metal ≠ F.opengl ∧ F.metal ≠ F.vulkan ∧
      F.metal ≠ F.nn ∧ F.metal ≠ F.all) ∧
    (F.cuda ≠ F.opencl ∧ F.cuda ≠ F.opengl ∧ F.cuda ≠ F.vulkan ∧ F.cuda ≠ F.nn ∧
      F.cuda ≠ F.all) ∧
    (F.opencl ≠ F.opengl ∧ F.opencl ≠ F.vulkan ∧ F.opencl ≠ F.nn ∧ F.opencl ≠ F.all) ∧
    (F.opengl ≠ F.vulkan ∧ F.opengl ≠ F.nn ∧ F.opengl ≠ F.all) ∧
    (F.vulkan ≠ F.nn ∧ F.vulkan ≠ F.all) ∧ F.nn ≠ F.all := by
  simpa [ForwardIds.Distinct, and_assoc] using h

/-- On each enumerator `forwardName` gives the enumerator's own name. -/
theorem forwardName_enumerators {F : ForwardIds} (h : F.Distinct) :
    forwardName F F.cpu = "CPU" ∧ forwardName F F.auto = "AUTO" ∧
    forwardName F F.metal = "METAL" ∧ forwardName F F.cuda = "CUDA" ∧
    forwardName F F.opencl = "OPENCL" ∧ forwardName F F.opengl = "OPENGL" ∧
    forwardName F F.vulkan = "VULKAN" ∧ forwardName F F.nn = "NN" ∧
    forwardName F F.all = "ALL" := by
  obtain ⟨⟨h1, h2, h3, h4, h5, h6, h7, h8⟩, ⟨a1, a2, a3, a4, a5, a6, a7⟩,
    ⟨m1, m2, m3, m4, m5, m6⟩, ⟨c1, c2, c3, c4, c5⟩, ⟨o1, o2, o3, o4⟩, ⟨g1, g2, g3⟩,
    ⟨v1, v2⟩, n1⟩ := h.ne
  refine ⟨?_, ?_, ?_, ?_, ?_, ?_, ?_, ?_, ?_⟩ <;>
    simp only [forwardName, eq_self_iff_true, if_true, if_false, h1, h2, h3, h4, h5, h6, h7,
      h8, a1, a2, a3, a4, a5, a6, a7, m1, m2, m3, m4, m5, m6, c1, c2, c3, c4, c5, o1, o2,
      o3, o4, g1, g2, g3, v1, v2, n1, h1.symm, h2.symm, h3.symm, h4.symm, h5.symm, h6.symm,
      h7.symm, h8.symm, a1.symm, a2.symm, a3.symm, a4.symm, a5.symm, a6.symm, a7.symm,
      m1.symm, m2.symm, m3.symm, m4.symm, m5.symm, m6.symm, c1.symm, c2.symm, c3.symm,
      c4.symm, c5.symm, o1.symm, o2.symm, o3.symm, o4.symm, g1.symm, g2.symm, g3.symm,
      v1.symm, v2.symm, n1.symm]

/-- C3 as stated fails: the alias `NNAPI` is recognized by `mapForward` and resolves to
the enumerator `NN`, whose name `forwardName` reports as `NN`, not `NNAPI`. -/
theorem roundtrip_alias_counterexample :
    "NNAPI" ∈ recognizedNames ∧ forwardName mnnIds (mapForward mnnIds "NNAPI") = "NN" ∧
      forwardName mnnIds (mapForward mnnIds "NNAPI") ≠ "NNAPI" := by
  decide

/-- C3, amended: for every recognized name, `forwardName (mapForward name)` is the
canonical spelling of the name: the name itself for AUTO, CPU, VULKAN, OPENCL, OPENGL,
METAL, CUDA and NN, `OPENGL` for the aliases OPENGL_ES and OPENGL_ES3, and `NN` for the
alias NNAPI. -/
theorem forwardName_mapForward_canonical (F : ForwardIds) (hF : F.Distinct) (name : String)
    (h : name ∈ recognizedNames) :
    forwardName F (mapForward F name) = canonicalOf name ∧
      (name ∈ canonicalNames → forwardName F (mapForward F name) = name) := by
  obtain ⟨h1, h2, h3, h4, h5, h6, h7, h8, -⟩ := forwardName_enumerators hF
  simp only [recognizedNames, List.mem_cons, List.mem_singleton, List.not_mem_nil, or_false] at h
  rcases h with h | h | h | h | h | h | h | h | h | h | h <;> subst h <;>
    simp [mapForward, canonicalOf, canonicalNames, *]

theorem forwardName_mapForward_canonical_witness :
    forwardName mnnIds (mapForward mnnIds "OPENGL_ES3") = canonicalOf "OPENGL_ES3" ∧
      ("OPENGL_ES3" ∈ canonicalNames →
        forwardName mnnIds (mapForward mnnIds "OPENGL_ES3") = "OPENGL_ES3") :=
  forwardName_mapForward_canonical mnnIds (by decide) "OPENGL_ES3" (by decide)

/-- C4: `mapForward` is a total function, and on every string that is not one of the
recognized names it returns the CPU identifier; in particular on the empty string and on
a recognized name written in lower case. -/
theorem mapForward_unrecognized (F : ForwardIds) (s : String) (h : s ∉ recognizedNames) :
    mapForward F s = F.cpu := by
  simp only [recognizedNames, List.mem_cons, List.mem_singleton, List.not_mem_nil, or_false,
    not_or] at h
  obtain ⟨h1, h2, h3, h4, h5, h6, h7, h8, h9, h10, h11⟩ := h
  simp [mapForward, *]

theorem mapForward_unrecognized_witness :
    mapForward mnnIds "" = mnnIds.cpu ∧ mapForward mnnIds "vulkan" = mnnIds.cpu :=
  ⟨mapForward_unrecognized mnnIds "" (by decide),
    mapForward_unrecognized mnnIds "vulkan" (by decide)⟩

/-! ## Schedule configuration -/

/-- C7: the schedule configuration built from (backend, backupType, threads,
precisionMode) has type `mapForward backend`; backupType `mapForward` of the backup
name, CPU when the name is absent; numThread `threads` when `threads > 0` and 1
otherwise, hence at least 1; precision Low for "LOW", High for "HIGH" and Normal for
every other string and for an absent one. -/
theorem buildScheduleConfig_spec (F : ForwardIds) (backend : String) (backup : Option String)
    (threads : Int) (prec : Option String) :
    (buildScheduleConfig F backend backup threads prec).type = mapForward F backend ∧
    (∀ b, backup = some b →
      (buildScheduleConfig F backend backup threads prec).backupType = mapForward F b) ∧
    (backup = none → (buildScheduleConfig F backend backup threads prec).backupType = F.cpu) ∧
    (0 < threads → (buildScheduleConfig F backend backup threads prec).numThread = threads) ∧
    (threads ≤ 0 → (buildScheduleConfig F backend backup threads prec).numThread = 1) ∧
    1 ≤ (buildScheduleConfig F backend backup threads prec).numThread ∧
    (prec = some "LOW" →
      (buildScheduleConfig F backend backup threads prec).precision = Precision.Precision_Low) ∧
    (prec = some "HIGH" →
      (buildScheduleConfig F backend backup threads prec).precision = Precision.Precision_High) ∧
    (prec ≠ some "LOW" → prec ≠ some "HIGH" →
      (buildScheduleConfig F backend backup threads prec).precision
        = Precision.Precision_Normal) := by
  refine ⟨rfl, ?_, ?_, ?_, ?_, ?_, ?_, ?_, ?_⟩
  · rintro b rfl; rfl
  · rintro rfl; simp [buildScheduleConfig, mapForward]
  · intro h; simp [buildScheduleConfig, h]
  · intro h; simp [buildScheduleConfig, not_lt.mpr h]
  · simp only [buildScheduleConfig]; split_ifs <;> omega
  · rintro rfl; simp [buildScheduleConfig]
  · rintro rfl; simp [buildScheduleConfig]
  · intro h1 h2
    cases prec with
    | none => simp [buildScheduleConfig]
    | some p =>
      have e1 : p ≠ "LOW" := fun e => h1 (by rw [e])
      have e2 : p ≠ "HIGH" := fun e => h2 (by rw [e])
      simp [buildScheduleConfig, e1, e2]

theorem buildScheduleConfig_spec_witness :
    (buildScheduleConfig mnnIds "VULKAN" none (-3) (some "LOW")).backupType = mnnIds.cpu ∧
    (buildScheduleConfig mnnIds "VULKAN" none (-3) (some "LOW")).numThread = 1 ∧
    (buildScheduleConfig mnnIds "VULKAN" none (-3) (some "LOW")).precision
      = Precision.Precision_Low :=
  ⟨(buildScheduleConfig_spec mnnIds "VULKAN" none (-3) (some "LOW")).2.2.1 rfl,
    (buildScheduleConfig_spec mnnIds "VULKAN" none (-3) (some "LOW")).2.2.2.2.1 (by decide),
    (buildScheduleConfig_spec mnnIds "VULKAN" none (-3) (some "LOW")).2.2.2.2.2.2.1 rfl⟩

/-! ## Runs: invariants of the trace and the kind of result -/

theorem run_bind_apply {V α β : Type} (m : Run V α) (f : α → Run V β) (w : World V) :
    (m >>= f) w = match m w with
      | (Except.ok a, w1) => f a w1
      | (Except.error e, w1) => (Except.error e, w1) := rfl

theorem run_pure_apply {V α : Type} (a : α) (w : World V) :
    (pure a : Run V α) w = (Except.ok a, w) := rfl

theorem keeps_pure {V α : Type} (I : World V → Prop) (a : α) : Keeps I (pure a : Run V α) :=
  fun _ h => h

theorem keeps_bind {V α β : Type} {I : World V → Prop} {m : Run V α} {f : α → Run V β}
    (hm : Keeps I m) (hf : ∀ a, Keeps I (f a)) : Keeps I (m >>= f) := by
  intro w hw
  have h1 := hm w hw
  rw [run_bind_apply]
  rcases hmw : m w with ⟨r, w1⟩
  rw [hmw] at h1
  cases r with
  | error e => exact h1
  | ok a => exact hf a w1 h1

theorem keeps_throw {V α : Type} (I : World V → Prop) (what : String) :
    Keeps I (throwRuntimeError what : Run V α) := fun _ h => h

theorem keeps_ite {V α : Type} {I : World V → Prop} (c : Prop) [Decidable c] {m n : Run V α}
    (hm : Keeps I m) (hn : Keeps I n) : Keeps I (if c then m else n) := by
  split_ifs
  · exact hm
  · exact hn

theorem keeps_tryCatch {V α : Type} {I : World V → Prop} {body : Run V α}
    {handler : String → Run V α} (hb : Keeps I body) (hh : ∀ what, Keeps I (handler what)) :
    Keeps I (tryCatch body handler) := by
  intro w hw
  have h1 := hb w hw
  unfold tryCatch
  rcases hbw : body w with ⟨r, w1⟩
  rw [hbw] at h1
  match r with
  | Except.ok a => exact h1
  | Except.error Fault.undefined => exact h1
  | Except.error (Fault.exn what) => exact hh what w1 h1

theorem noExecution_snoc {V : Type} (w : World V) (ev : Event V) (c t : Nat)
    (hw : NoExecution w) (hev : ev.isExecution = false) :
    NoExecution { trace := w.trace ++ [ev], calls := c, ticks := t } := by
  intro e he
  rcases List.mem_append.mp he with h | h
  · exact hw e h
  · rw [List.mem_singleton.mp h]; exact hev

theorem keeps_engineCall {V : Type} (E : Env) (ev : Event V) (hev : ev.isExecution = false) :
    Keeps NoExecution (engineCall E ev) := by
  intro w hw
  unfold engineCall
  cases E.fault w.calls <;> exact noExecution_snoc w ev _ _ hw hev

theorem keeps_now {V : Type} (E : Env) : Keeps NoExecution (now E : Run V Int) :=
  fun _ hw => hw

theorem keeps_withInterpreter {V α : Type} {body : Run V α} (hb : Keeps NoExecution body) :
    Keeps NoExecution (withInterpreter body) := by
  intro w hw
  have h1 := hb w hw
  unfold withInterpreter
  rcases hbw : body w with ⟨r, w1⟩
  rw [hbw] at h1
  match r with
  | Except.ok a => exact noExecution_snoc w1 _ _ _ h1 rfl
  | Except.error Fault.undefined => exact h1
  | Except.error (Fault.exn what) => exact noExecution_snoc w1 _ _ _ h1 rfl

theorem keeps_createFromFile {V : Type} (E : Env) (p : String) :
    Keeps NoExecution (createFromFile E p : Run V Bool) :=
  keeps_bind (keeps_engineCall E _ rfl) (fun _ => keeps_pure _ _)

theorem keeps_createSession {V : Type} (E : Env) (cfg : ScheduleConfig) :
    Keeps NoExecution (createSession E cfg : Run V Bool) :=
  keeps_bind (keeps_engineCall E _ rfl) (fun _ => keeps_pure _ _)

theorem keeps_setCache {V : Type} (E : Env) (c : Option String) :
    Keeps NoExecution (setCache E c : Run V Unit) := by
  cases c with
  | none => exact keeps_pure _ _
  | some s => exact keeps_ite _ (keeps_engineCall E _ rfl) (keeps_pure _ _)

theorem noUB_pure {V α : Type} (a : α) : NoUB (pure a : Run V α) := by
  intro w h; cases h

theorem noUB_engineCall {V : Type} (E : Env) (ev : Event V) : NoUB (engineCall E ev) := by
  intro w
  unfold engineCall
  cases E.fault w.calls <;> simp

theorem noUB_now {V : Type} (E : Env) : NoUB (now E : Run V Int) := by
  intro w h; cases h

theorem noUB_bind {V α β : Type} {m : Run V α} {f : α → Run V β}
    (hm : NoUB m) (hf : ∀ a, NoUB (f a)) : NoUB (m >>= f) := by
  intro w
  have h1 := hm w
  rw [run_bind_apply]
  rcases hmw : m w with ⟨r, w1⟩
  rw [hmw] at h1
  cases r with
  | error e => simpa using h1
  | ok a => exact hf a w1

theorem noUB_createFromFile {V : Type} (E : Env) (p : String) :
    NoUB (createFromFile E p : Run V Bool) :=
  noUB_bind (noUB_engineCall E _) (fun _ => noUB_pure _)

theorem noUB_createSession {V : Type} (E : Env) (cfg : ScheduleConfig) :
    NoUB (createSession E cfg : Run V Bool) :=
  noUB_bind (noUB_engineCall E _) (fun _ => noUB_pure _)

theorem noUB_setCache {V : Type} (E : Env) (c : Option String) :
    NoUB (setCache E c : Run V Unit) := by
  cases c with
  | none => exact noUB_pure _
  | some s =>
    show NoUB (if s.length > 0 then engineCall E (Event.setCacheFile s) else pure ())
    split_ifs
    · exact noUB_engineCall E _
    · exact noUB_pure _

theorem throws_throw {V α : Type} (what : String) : Throws (throwRuntimeError what : Run V α) :=
  fun _ => ⟨what, rfl⟩

theorem throws_bind {V α β : Type} {m : Run V α} {f : α → Run V β}
    (hm : NoUB m) (hf : ∀ a, Throws (f a)) : Throws (m >>= f) := by
  intro w
  have h1 := hm w
  rw [run_bind_apply]
  rcases hmw : m w with ⟨r, w1⟩
  rw [hmw] at h1
  match r, h1 with
  | Except.ok a, _ => exact hf a w1
  | Except.error (Fault.exn what), _ => exact ⟨what, rfl⟩
  | Except.error Fault.undefined, h1 => exact absurd rfl h1

theorem throws_ite {V α : Type} (c : Prop) [Decidable c] {m n : Run V α}
    (hm : Throws m) (hn : Throws n) : Throws (if c then m else n) := by
  split_ifs
  · exact hm
  · exact hn

theorem throws_withInterpreter {V α : Type} {body : Run V α} (hb : Throws body) :
    Throws (withInterpreter body) := by
  intro w
  obtain ⟨what, h⟩ := hb w
  unfold withInterpreter
  rcases hbw : body w with ⟨r, w1⟩
  rw [hbw] at h
  simp only at h
  subst h
  exact ⟨what, rfl⟩

theorem tryCatch_of_throws {V : Type} {body : Run V String} (marker : String) (hb : Throws body)
    (w : World V) :
    ∃ what, (tryCatch body (fun what => pure (marker ++ what)) w).1
      = Except.ok (marker ++ what) := by
  obtain ⟨what, h⟩ := hb w
  unfold tryCatch
  rcases hbw : body w with ⟨r, w1⟩
  rw [hbw] at h
  simp only at h
  subst h
  exact ⟨what, rfl⟩

theorem returnsError_tryCatch {V : Type} {body : Run V String} (marker : String)
    (hb : Throws body) : ReturnsError marker (tryCatch body (fun what => pure (marker ++ what))) :=
  fun w => tryCatch_of_throws marker hb w

theorem returnsError_now {V : Type} (E : Env) (marker : String) {f : Int → Run V String}
    (hf : ∀ t, ReturnsError marker (f t)) : ReturnsError marker (now E >>= f) :=
  fun _ => hf _ _

theorem multi_mismatch_exact {σ V : Type} (F : ForwardIds) (R : Sampler σ V) (E : Env)
    (a : MultiArgs) (h : a.inputNames.length ≠ a.inputShapes.length)
    (hi : E.interpreter = true) (hs : E.session = true) (hf : ∀ k, k < 3 → E.fault k = none) :
    (runModelMulti F R E a World.init).1
      = Except.ok "MNN ERROR: names/shapes length mismatch" := by
  have h0 := hf 0 (by omega)
  have h1 := hf 1 (by omega)
  have h2 := hf 2 (by omega)
  rcases hc : a.cacheFile with _ | c
  · simp only [runModelMulti, tryCatch, withInterpreter, run_bind_apply, createFromFile,
      createSession, setCache, engineCall, throwRuntimeError, run_pure_apply, World.init, h,
      hc, hi, hs, h0, h1, h2, ne_eq, not_false_eq_true, if_true, Bool.not_true,
      Bool.false_eq_true, if_false, Nat.zero_add]
    rfl
  · by_cases hl : c.length > 0
    · simp only [runModelMulti, tryCatch, withInterpreter, run_bind_apply, createFromFile,
        createSession, setCache, engineCall, throwRuntimeError, run_pure_apply, World.init, h,
        hc, hi, hs, h0, h1, h2, hl, ne_eq, not_false_eq_true, if_true, Bool.not_true,
        Bool.false_eq_true, if_false, Nat.zero_add]
      rfl
    · simp only [runModelMulti, tryCatch, withInterpreter, run_bind_apply, createFromFile,
        createSession, setCache, engineCall, throwRuntimeError, run_pure_apply, World.init, h,
        hc, hi, hs, h0, h1, h2, hl, ne_eq, not_false_eq_true, if_true, Bool.not_true,
        Bool.false_eq_true, if_false, Nat.zero_add]
      rfl

theorem multiProfile_mismatch_exact {σ V : Type} (F : ForwardIds) (R : Sampler σ V) (E : Env)
    (a : MultiArgs) (h : a.inputNames.length ≠ a.inputShapes.length)
    (hi : E.interpreter = true) (hs : E.session = true) (hf : ∀ k, k < 3 → E.fault k = none) :
    (runModelMultiProfile F R E a World.init).1
      = Except.ok "MNN PROFILE ERROR: names/shapes length mismatch" := by
  have h0 := hf 0 (by omega)
  have h1 := hf 1 (by omega)
  have h2 := hf 2 (by omega)
  rcases hc : a.cacheFile with _ | c
  · simp only [runModelMultiProfile, tryCatch, withInterpreter, run_bind_apply, createFromFile,
      createSession, setCache, engineCall, throwRuntimeError, run_pure_apply, World.init, h, now,
      hc, hi, hs, h0, h1, h2, ne_eq, not_false_eq_true, if_true, Bool.not_true,
      Bool.false_eq_true, if_false, Nat.zero_add]
    rfl
  · by_cases hl : c.length > 0
    · simp only [runModelMultiProfile, tryCatch, withInterpreter, run_bind_apply,
        createFromFile, createSession, setCache, engineCall, throwRuntimeError, run_pure_apply,
        World.init, h, now, hc, hi, hs, h0, h1, h2, hl, ne_eq, not_false_eq_true, if_true,
        Bool.not_true, Bool.false_eq_true, if_false, Nat.zero_add]
      rfl
    · simp only [runModelMultiProfile, tryCatch, withInterpreter, run_bind_apply,
        createFromFile, createSession, setCache, engineCall, throwRuntimeError, run_pure_apply,
        World.init, h, now, hc, hi, hs, h0, h1, h2, hl, ne_eq, not_false_eq_true, if_true,
        Bool.not_true, Bool.false_eq_true, if_false, Nat.zero_add]
      rfl

/-- C1, amended: for every call of `runModelMulti` and of `runModelMultiProfile` in
which the number of input names differs from the number of input shapes, whatever the
engine answers, the call returns an error string ("MNN ERROR: " or "MNN PROFILE ERROR: "
followed by a message) and has made no engine call that changes or executes the session:
no tensor resize, no commit of a resize, no staging or copy of an input, no run.  The
message is the one of the length mismatch when the model was loaded, the session was
created and the engine did not throw before; otherwise it is the message of that earlier
failure. -/
theorem multi_mismatch_no_execution {σ V : Type} (F : ForwardIds) (R : Sampler σ V) (E : Env)
    (a : MultiArgs) (h : a.inputNames.length ≠ a.inputShapes.length) :
    (NoExecution (runModelMulti F R E a World.init).2 ∧
      (∃ what, (runModelMulti F R E a World.init).1 = Except.ok ("MNN ERROR: " ++ what)) ∧
      (E.interpreter = true → E.session = true → (∀ k, k < 3 → E.fault k = none) →
        (runModelMulti F R E a World.init).1
          = Except.ok "MNN ERROR: names/shapes length mismatch")) ∧
    (NoExecution (runModelMultiProfile F R E a World.init).2 ∧
      (∃ what, (runModelMultiProfile F R E a World.init).1
        = Except.ok ("MNN PROFILE ERROR: " ++ what)) ∧
      (E.interpreter = true → E.session = true → (∀ k, k < 3 → E.fault k = none) →
        (runModelMultiProfile F R E a World.init).1
          = Except.ok "MNN PROFILE ERROR: names/shapes length mismatch")) := by
  have hinit : NoExecution (World.init : World V) := fun e he => by cases he
  refine ⟨⟨?_, ?_, multi_mismatch_exact F R E a h⟩, ?_, ?_,
    multiProfile_mismatch_exact F R E a h⟩
  · refine keeps_tryCatch (keeps_bind (keeps_createFromFile E _) fun net =>
      keeps_ite _ (keeps_throw _ _) (keeps_withInterpreter
        (keeps_bind (keeps_setCache E _) fun _ =>
          keeps_bind (keeps_createSession E _) fun session =>
            keeps_ite _ (keeps_throw _ _) ?_))) (fun _ => keeps_pure _ _) _ hinit
    simp only [h, ne_eq, not_false_eq_true, if_true]
    exact keeps_throw _ _
  · refine tryCatch_of_throws "MNN ERROR: " (throws_bind (noUB_createFromFile E _) fun net =>
      throws_ite _ (throws_throw _) (throws_withInterpreter
        (throws_bind (noUB_setCache E _) fun _ =>
          throws_bind (noUB_createSession E _) fun session =>
            throws_ite _ (throws_throw _) ?_))) _
    simp only [h, ne_eq, not_false_eq_true, if_true]
    exact throws_throw _
  · refine keeps_bind (keeps_now E) (fun t0 =>
      keeps_tryCatch (keeps_bind (keeps_createFromFile E _) fun net =>
        keeps_ite _ (keeps_throw _ _) (keeps_withInterpreter
          (keeps_bind (keeps_now E) fun t1 =>
            keeps_bind (keeps_setCache E _) fun _ =>
              keeps_bind (keeps_now E) fun t2_before =>
                keeps_bind (keeps_createSession E _) fun session =>
                  keeps_ite _ (keeps_throw _ _) (keeps_bind (keeps_now E) fun t2 => ?_))))
        (fun _ => keeps_pure _ _)) _ hinit
    simp only [h, ne_eq, not_false_eq_true, if_true]
    exact keeps_throw _ _
  · refine returnsError_now E _ (fun t0 =>
      returnsError_tryCatch "MNN PROFILE ERROR: " (throws_bind (noUB_createFromFile E _)
        fun net => throws_ite _ (throws_throw _) (throws_withInterpreter
          (throws_bind (noUB_now E) fun t1 =>
            throws_bind (noUB_setCache E _) fun _ =>
              throws_bind (noUB_now E) fun t2_before =>
                throws_bind (noUB_createSession E _) fun session =>
                  throws_ite _ (throws_throw _) (throws_bind (noUB_now E) fun t2 => ?_))))) _
    simp only [h, ne_eq, not_false_eq_true, if_true]
    exact throws_throw _

theorem multi_mismatch_no_execution_witness :
    (NoExecution (runModelMulti mnnIds counterSampler plainEnv mismatchArgs World.init).2 ∧
      (∃ what, (runModelMulti mnnIds counterSampler plainEnv mismatchArgs World.init).1
        = Except.ok ("MNN ERROR: " ++ what)) ∧
      (plainEnv.interpreter = true → plainEnv.session = true →
        (∀ k, k < 3 → plainEnv.fault k = none) →
        (runModelMulti mnnIds counterSampler plainEnv mismatchArgs World.init).1
          = Except.ok "MNN ERROR: names/shapes length mismatch")) ∧
    (NoExecution
        (runModelMultiProfile mnnIds counterSampler plainEnv mismatchArgs World.init).2 ∧
      (∃ what, (runModelMultiProfile mnnIds counterSampler plainEnv mismatchArgs World.init).1
        = Except.ok ("MNN PROFILE ERROR: " ++ what)) ∧
      (plainEnv.interpreter = true → plainEnv.session = true →
        (∀ k, k < 3 → plainEnv.fault k = none) →
        (runModelMultiProfile mnnIds counterSampler plainEnv mismatchArgs World.init).1
          = Except.ok "MNN PROFILE ERROR: names/shapes length mismatch")) :=
  multi_mismatch_no_execution mnnIds counterSampler plainEnv mismatchArgs (by decide)

/-- C1 as stated fails: with one name and no shape and a model file that cannot be
loaded, `runModelMulti` and `runModelMultiProfile` return the error of the failed load,
not the error of the length mismatch. -/
theorem mismatch_after_load_counterexample :
    mismatchArgs.inputNames.length ≠ mismatchArgs.inputShapes.length ∧
    outcomeText (runModelMulti mnnIds counterSampler noModelEnv mismatchArgs World.init)
      = some "MNN ERROR: Failed to create interpreter" ∧
    outcomeText (runModelMulti mnnIds counterSampler noModelEnv mismatchArgs World.init)
      ≠ some "MNN ERROR: names/shapes length mismatch" ∧
    outcomeText (runModelMultiProfile mnnIds counterSampler noModelEnv mismatchArgs World.init)
      = some "MNN PROFILE ERROR: Failed to create interpreter" ∧
    outcomeText (runModelMultiProfile mnnIds counterSampler noModelEnv mismatchArgs World.init)
      ≠ some "MNN PROFILE ERROR: names/shapes length mismatch" := by
  decide

/-- C2 fails on the code: when a step behind a successful `createSession` throws, the
entry point returns without a call of `releaseSession`.  Shown for `runModelMulti` with
one name and no shape (the session is created, the lengths differ), and with matching
lengths when the engine throws in `runSession`: each trace holds one `createSession` and
no `releaseSession`; the only cleanup is the destruction of the interpreter.  On the
normal return of the same entry point `releaseSession` is called once. -/
theorem release_missing_when_a_step_throws :
    (outcomeText (runModelMulti mnnIds counterSampler plainEnv mismatchArgs World.init)
        = some "MNN ERROR: names/shapes length mismatch" ∧
      (runModelMulti mnnIds counterSampler plainEnv mismatchArgs World.init).2.trace
        = [Event.createFromFile "m.mnn",
            Event.createSession (buildScheduleConfig mnnIds "CPU" (some "CPU") 1 (some "NORMAL")),
            Event.destroyInterpreter] ∧
      createCount (runModelMulti mnnIds counterSampler plainEnv mismatchArgs World.init).2.trace
        = 1 ∧
      releaseCount (runModelMulti mnnIds counterSampler plainEnv mismatchArgs World.init).2.trace
        = 0) ∧
    (outcomeText (runModelMulti mnnIds counterSampler (faultyEnv 8 "boom") matchedArgs
          World.init) = some "MNN ERROR: boom" ∧
      Event.runSession ∈ (runModelMulti mnnIds counterSampler (faultyEnv 8 "boom") matchedArgs
          World.init).2.trace ∧
      createCount (runModelMulti mnnIds counterSampler (faultyEnv 8 "boom") matchedArgs
          World.init).2.trace = 1 ∧
      releaseCount (runModelMulti mnnIds counterSampler (faultyEnv 8 "boom") matchedArgs
          World.init).2.trace = 0) ∧
    (outcomeText (runModelMulti mnnIds counterSampler plainEnv matchedArgs World.init)
        = some "MNN 3.1.0 OK backend=CPU outputs=y[1x2]" ∧
      releaseCount (runModelMulti mnnIds counterSampler plainEnv matchedArgs World.init).2.trace
        = 1) := by
  decide

/-! ## Synthetic input generator -/

/-- C8: with the fill mode "ZERO", and with every fill mode other than "ONE", "UNIFORM"
and "NORMAL", the fill step produces, for every input tensor whatever its element type
and size, a staging buffer of exactly `size()` bytes in which every byte is zero (and it
draws nothing from the sample source). -/
theorem fillHost_zero {σ V : Type} (R : Sampler σ V) (fill : String) (t : InputTensor) (st : σ)
    (h1 : fill ≠ "ONE") (h2 : fill ≠ "UNIFORM") (h3 : fill ≠ "NORMAL") :
    fillHost R fill t st = some (List.replicate t.size (Cell.byte 0), st) ∧
      (List.replicate t.size (Cell.byte 0 : Cell V)).length = t.size ∧
      ∀ c ∈ (List.replicate t.size (Cell.byte 0 : Cell V)), c = Cell.byte 0 := by
  refine ⟨?_, by simp, ?_⟩
  · simp [fillHost, h1, h2, h3, memsetZero]
  · intro c hc
    exact (List.mem_replicate.mp hc).2

theorem fillHost_zero_witness :
    fillHost counterSampler "ZERO" ⟨6, 3, HalideTypeCode.halide_type_float, [3]⟩ 42
        = some (List.replicate 6 (Cell.byte 0), 42) ∧
      (List.replicate 6 (Cell.byte 0 : Cell Nat)).length = 6 ∧
      ∀ c ∈ (List.replicate 6 (Cell.byte 0 : Cell Nat)), c = Cell.byte 0 :=
  fillHost_zero counterSampler "ZERO" ⟨6, 3, HalideTypeCode.halide_type_float, [3]⟩ 42
    (by decide) (by decide) (by decide)

theorem engineCall_ok {V : Type} (E : Env) (ev : Event V) (w : World V)
    (h : E.fault w.calls = none) :
    engineCall E ev w = (Except.ok (), { w with trace := w.trace ++ [ev], calls := w.calls + 1 }) := by
  simp [engineCall, h]

theorem stageLoop_eq {σ V : Type} (E : Env) (R : Sampler σ V) (fill : String)
    (hE : ∀ k, E.fault k = none) (inputs : List (String × Option InputTensor)) (st : σ)
    (bufs : List (String × Buffer V)) (h : stageInputs R fill inputs st = some bufs)
    (w : World V) :
    stageLoop E R fill inputs st w
      = (Except.ok (), { w with trace := w.trace ++ stagingEvents bufs,
                                calls := w.calls + 2 * bufs.length }) := by
  induction inputs generalizing st bufs w with
  | nil =>
    simp only [stageInputs, Option.some.injEq] at h
    subst h
    simp [stageLoop, stagingEvents]
    rfl
  | cons kv rest ih =>
    obtain ⟨name, ot⟩ := kv
    cases ot with
    | none => exact ih st bufs h w
    | some t =>
      simp only [stageInputs] at h
      cases hfh : fillHost R fill t st with
      | none => simp [hfh] at h
      | some p =>
        obtain ⟨buf, st1⟩ := p
        simp only [hfh] at h
        cases hr : stageInputs R fill rest st1 with
        | none => simp [hr] at h
        | some bufs1 =>
          simp only [hr, Option.some.injEq] at h
          subst h
          simp only [stageLoop, run_bind_apply, hfh, engineCall_ok _ _ _ (hE _), ih st1 bufs1 hr]
          simp [stagingEvents]
          omega

/-! ## Backend attribution -/

theorem isGpu_iff (F : ForwardIds) (t : Int) :
    isGpu F t = true ↔ t = F.opencl ∨ t = F.opengl ∨ t = F.vulkan ∨ t = F.cuda ∨ t = F.metal
      ∨ t = F.nn := by
  simp [isGpu, or_assoc]

/-- The scan returns the name of the first identifier that is GPU-class and inside
0..20, when no entry from index 1 up to it is zero. -/
theorem scanBE_first (F : ForwardIds) (beBuf : List Int) (k : Nat)
    (hg : isGpu F (beBuf.getD k 0) = true)
    (hin : 0 ≤ beBuf.getD k 0 ∧ beBuf.getD k 0 ≤ 20)
    (hnz : ∀ j, 0 < j → j ≤ k → beBuf.getD j 0 ≠ 0)
    (hfirst : ∀ j, j < k → 0 ≤ beBuf.getD j 0 → beBuf.getD j 0 ≤ 20 →
      isGpu F (beBuf.getD j 0) = false)
    (fuel i : Nat) (hik : i ≤ k) (hk : k < i + fuel) :
    scanBE F beBuf i fuel = some (forwardName F (beBuf.getD k 0)) := by
  induction fuel generalizing i with
  | zero => omega
  | succ fuel ih =>
    unfold scanBE
    have hbrk : ¬ (beBuf.getD i 0 = 0 ∧ i > 0) := fun ⟨h0, hi⟩ => hnz i hi hik h0
    simp only [hbrk, if_false]
    rcases Nat.eq_or_lt_of_le hik with rfl | hlt
    · have hr : ¬ (beBuf.getD i 0 < 0 ∨ beBuf.getD i 0 > 20) := by omega
      simp only [hr, if_false, hg, if_true]
    · by_cases hr : beBuf.getD i 0 < 0 ∨ beBuf.getD i 0 > 20
      · simp only [hr, if_true]
        exact ih (i + 1) (by omega) (by omega)
      · have hng := hfirst i hlt (by omega) (by omega)
        simp only [hr, if_false, hng]
        exact ih (i + 1) (by omega) (by omega)

theorem afterRecord_backend (gpuLabel : String) (runStartAnchor : Int) (started : Option Int)
    (tEnd : Int) (tensors : List (Option Nat)) (info : Option OperatorInfo) :
    (afterRecord gpuLabel runStartAnchor started tEnd tensors info).backend
      = if (afterRecord gpuLabel runStartAnchor started tEnd tensors info).deviceId ≠ 0
        then gpuLabel else "CPU" := rfl

theorem afterRecord_deviceId (gpuLabel : String) (runStartAnchor : Int) (started : Option Int)
    (tEnd : Int) (tensors : List (Option Nat)) (info : Option OperatorInfo) :
    (afterRecord gpuLabel runStartAnchor started tEnd tensors info).deviceId
      = match tensors with
        | some d :: _ => d % 2 ^ 64
        | _ => 0 := rfl

/-- C5 as stated fails: with the request AUTO and a reported buffer of 16 integers that
holds the GPU-class identifier OPENCL at index 2 behind a zero at index 1, the scan stops
at the zero, `pickGpuLabel` returns "CPU", and an operator record with a non-zero device
id is labeled "CPU", not "OPENCL". -/
theorem pickGpuLabel_gap_counterexample :
    mapForward mnnIds "AUTO" = mnnIds.auto ∧ gapBuffer.length = 16 ∧
    isGpu mnnIds (gapBuffer.getD 2 0) = true ∧
    forwardName mnnIds (gapBuffer.getD 2 0) = "OPENCL" ∧
    pickGpuLabel mnnIds true gapBuffer (mapForward mnnIds "AUTO") = "CPU" ∧
    (afterRecord (pickGpuLabel mnnIds true gapBuffer (mapForward mnnIds "AUTO")) 0 (some 1) 2
      [some 7] none).deviceId = 7 ∧
    (afterRecord (pickGpuLabel mnnIds true gapBuffer (mapForward mnnIds "AUTO")) 0 (some 1) 2
      [some 7] none).backend = "CPU" := by
  decide

/-- The scan returns from inside for no entry, when every identifier that is GPU-class
and inside 0..20 has a zero entry at an index from 1 up to its own: the loop ends at that
zero, or runs out. -/
theorem scanBE_none (F : ForwardIds) (beBuf : List Int) (fuel i : Nat)
    (h : ∀ k, i ≤ k → k < i + fuel → isGpu F (beBuf.getD k 0) = true →
      0 ≤ beBuf.getD k 0 → beBuf.getD k 0 ≤ 20 →
      ∃ j, i ≤ j ∧ 0 < j ∧ j ≤ k ∧ beBuf.getD j 0 = 0) :
    scanBE F beBuf i fuel = none := by
  induction fuel generalizing i with
  | zero => rfl
  | succ fuel ih =>
    unfold scanBE
    by_cases hbrk : beBuf.getD i 0 = 0 ∧ i > 0
    · simp only [hbrk, and_self, if_true]
    · have next : scanBE F beBuf (i + 1) fuel = none := by
        apply ih
        intro k h1 h2 h3 h4 h5
        obtain ⟨j, j1, j2, j3, j4⟩ := h k (by omega) (by omega) h3 h4 h5
        refine ⟨j, ?_, j2, j3, j4⟩
        rcases Nat.eq_or_lt_of_le j1 with rfl | hlt
        · exact absurd ⟨j4, j2⟩ hbrk
        · exact hlt
      simp only [hbrk, if_false]
      by_cases hr : beBuf.getD i 0 < 0 ∨ beBuf.getD i 0 > 20
      · simp only [hr, if_true, next]
      · simp only [hr, if_false, next]
        by_cases hg : isGpu F (beBuf.getD i 0) = true
        · obtain ⟨j, j1, j2, j3, j4⟩ := h i (le_refl i) (by omega) hg (by omega) (by omega)
          have : j = i := by omega
          subst this
          exact absurd ⟨j4, j2⟩ hbrk
        · simp only [hg, Bool.false_eq_true, if_false]

/-- C5, amended: for a requested backend that resolves to AUTO and a reported
active-backend buffer, the scan reads the entries from index 0 and stops at the first
zero entry behind index 0; entries outside 0..20 are passed over.
If index `k < 16` holds the first identifier of the buffer that is GPU-class and lies in
0..20, and no entry at an index from 1 to `k` is zero, then `pickGpuLabel` returns the
name of that identifier; every operator record with a non-zero device id is labeled with
that name and every operator record with a zero device id is labeled "CPU".
If an index `z` from 1 to 15 holds a zero and no entry before it is a GPU-class identifier
in 0..20, the scan stops there: whatever the buffer holds behind `z`, `pickGpuLabel`
returns "CPU" and every operator record is labeled "CPU".  More generally the label is
"CPU" whenever every GPU-class identifier among the 16 entries has a zero entry at an
index from 1 up to its own, which covers the buffer without any GPU-class identifier. -/
theorem pickGpuLabel_auto_scan (F : ForwardIds) (backend : String) (beBuf : List Int)
    (hres : mapForward F backend = F.auto) :
    (∀ k, k < 16 → isGpu F (beBuf.getD k 0) = true →
      0 ≤ beBuf.getD k 0 ∧ beBuf.getD k 0 ≤ 20 →
      (∀ j, 0 < j → j ≤ k → beBuf.getD j 0 ≠ 0) →
      (∀ j, j < k → 0 ≤ beBuf.getD j 0 → beBuf.getD j 0 ≤ 20 →
        isGpu F (beBuf.getD j 0) = false) →
      pickGpuLabel F true beBuf (mapForward F backend) = forwardName F (beBuf.getD k 0) ∧
      ∀ (runStartAnchor : Int) (started : Option Int) (tEnd : Int)
        (tensors : List (Option Nat)) (info : Option OperatorInfo),
        ((afterRecord (pickGpuLabel F true beBuf (mapForward F backend)) runStartAnchor
            started tEnd tensors info).deviceId ≠ 0 →
          (afterRecord (pickGpuLabel F true beBuf (mapForward F backend)) runStartAnchor
            started tEnd tensors info).backend = forwardName F (beBuf.getD k 0)) ∧
        ((afterRecord (pickGpuLabel F true beBuf (mapForward F backend)) runStartAnchor
            started tEnd tensors info).deviceId = 0 →
          (afterRecord (pickGpuLabel F true beBuf (mapForward F backend)) runStartAnchor
            started tEnd tensors info).backend = "CPU")) ∧
    (∀ z, 0 < z → z < 16 → beBuf.getD z 0 = 0 →
      (∀ j, j < z → 0 ≤ beBuf.getD j 0 → beBuf.getD j 0 ≤ 20 →
        isGpu F (beBuf.getD j 0) = false) →
      pickGpuLabel F true beBuf (mapForward F backend) = "CPU" ∧
      ∀ (runStartAnchor : Int) (started : Option Int) (tEnd : Int)
        (tensors : List (Option Nat)) (info : Option OperatorInfo),
        (afterRecord (pickGpuLabel F true beBuf (mapForward F backend)) runStartAnchor
          started tEnd tensors info).backend = "CPU") ∧
    ((∀ k, k < 16 → isGpu F (beBuf.getD k 0) = true →
        0 ≤ beBuf.getD k 0 → beBuf.getD k 0 ≤ 20 →
        ∃ j, 0 < j ∧ j ≤ k ∧ beBuf.getD j 0 = 0) →
      pickGpuLabel F true beBuf (mapForward F backend) = "CPU" ∧
      ∀ (runStartAnchor : Int) (started : Option Int) (tEnd : Int)
        (tensors : List (Option Nat)) (info : Option OperatorInfo),
        (afterRecord (pickGpuLabel F true beBuf (mapForward F backend)) runStartAnchor
          started tEnd tensors info).backend = "CPU") := by
  have unseen : (∀ k, k < 16 → isGpu F (beBuf.getD k 0) = true →
      0 ≤ beBuf.getD k 0 → beBuf.getD k 0 ≤ 20 →
      ∃ j, 0 < j ∧ j ≤ k ∧ beBuf.getD j 0 = 0) →
      pickGpuLabel F true beBuf (mapForward F backend) = "CPU" ∧
      ∀ (runStartAnchor : Int) (started : Option Int) (tEnd : Int)
        (tensors : List (Option Nat)) (info : Option OperatorInfo),
        (afterRecord (pickGpuLabel F true beBuf (mapForward F backend)) runStartAnchor
          started tEnd tensors info).backend = "CPU" := by
    intro h
    have hs : scanBE F beBuf 0 16 = none :=
      scanBE_none F beBuf 16 0 fun k _ h2 h3 h4 h5 => by
        obtain ⟨j, j1, j2, j3⟩ := h k (by omega) h3 h4 h5
        exact ⟨j, Nat.zero_le j, j1, j2, j3⟩
    have hp : pickGpuLabel F true beBuf (mapForward F backend) = "CPU" := by
      simp only [pickGpuLabel, hres, true_or, if_true, hs]
    refine ⟨hp, ?_⟩
    intro a st e ts info
    rw [afterRecord_backend, hp]
    exact ite_self _
  refine ⟨?_, ?_, unseen⟩
  · intro k hk hg hin hnz hfirst
    have hp : pickGpuLabel F true beBuf (mapForward F backend)
        = forwardName F (beBuf.getD k 0) := by
      have hs := scanBE_first F beBuf k hg hin hnz hfirst 16 0 (Nat.zero_le k) (by omega)
      simp only [pickGpuLabel, hres, true_or, if_true, hs]
    refine ⟨hp, ?_⟩
    intro a st e ts info
    rw [afterRecord_backend, hp]
    constructor
    · intro h; rw [if_pos h]
    · intro h; rw [if_neg (by simpa using h)]
  · intro z hz0 hz hzero hbefore
    apply unseen
    intro k _ hg h0 h20
    refine ⟨z, hz0, ?_, hzero⟩
    by_contra hlt
    have hng := hbefore k (by omega) h0 h20
    rw [hg] at hng
    cases hng

/-- With the request AUTO: in the buffer VULKAN, OPENCL the first GPU-class identifier
is at index 1 and gives the label "VULKAN"; in the buffer AUTO, 0, VULKAN the zero at
index 1 stops the scan and the label is "CPU". -/
theorem pickGpuLabel_auto_scan_witness :
    (pickGpuLabel mnnIds true [0, 7, 3] (mapForward mnnIds "AUTO")
        = forwardName mnnIds (([0, 7, 3] : List Int).getD 1 0) ∧
      forwardName mnnIds (([0, 7, 3] : List Int).getD 1 0) = "VULKAN") ∧
    (pickGpuLabel mnnIds true [4, 0, 7] (mapForward mnnIds "AUTO") = "CPU" ∧
      ∀ (runStartAnchor : Int) (started : Option Int) (tEnd : Int)
        (tensors : List (Option Nat)) (info : Option OperatorInfo),
        (afterRecord (pickGpuLabel mnnIds true [4, 0, 7] (mapForward mnnIds "AUTO"))
          runStartAnchor started tEnd tensors info).backend = "CPU") :=
  ⟨⟨((pickGpuLabel_auto_scan mnnIds "AUTO" [0, 7, 3] (by decide)).1 1 (by decide) (by decide)
      (by decide)
      (by intro j h1 h2; obtain rfl : j = 1 := by omega
          decide)
      (by intro j h1; obtain rfl : j = 0 := by omega
          decide)).1, by decide⟩,
    (pickGpuLabel_auto_scan mnnIds "AUTO" [4, 0, 7] (by decide)).2.1 1 (by decide) (by decide)
      (by decide)
      (by intro j h1; obtain rfl : j = 0 := by omega
          decide)⟩

/-- C6: when the requested backend resolves to a GPU-class identifier `g`, the device
label is `forwardName g` whatever the active-backend buffer holds and whether or not it
was reported; an operator record gets that label exactly when its first output tensor is
present with a non-zero device id, and gets "CPU" when the device id is zero, when the
first tensor pointer is null, and when there is no output tensor. -/
theorem pickGpuLabel_gpu_primary (F : ForwardIds) (hF : F.Distinct) (backend : String)
    (hasBE : Bool) (beBuf : List Int) (hg : isGpu F (mapForward F backend) = true) :
    pickGpuLabel F hasBE beBuf (mapForward F backend) = forwardName F (mapForward F backend) ∧
    ∀ (runStartAnchor : Int) (started : Option Int) (tEnd : Int) (tensors : List (Option Nat))
      (info : Option OperatorInfo),
      ((afterRecord (pickGpuLabel F hasBE beBuf (mapForward F backend)) runStartAnchor started
          tEnd tensors info).backend = forwardName F (mapForward F backend)
        ↔ ∃ d rest, tensors = some d :: rest ∧ d % 2 ^ 64 ≠ 0) ∧
      ((tensors = [] ∨ (∃ rest, tensors = none :: rest)
          ∨ (∃ d rest, tensors = some d :: rest ∧ d % 2 ^ 64 = 0)) →
        (afterRecord (pickGpuLabel F hasBE beBuf (mapForward F backend)) runStartAnchor started
          tEnd tensors info).backend = "CPU") := by
  obtain ⟨⟨-, h2, h3, h4, h5, h6, h7, -⟩, ⟨a1, a2, a3, a4, a5, a6, -⟩, -⟩ := hF.ne
  obtain ⟨-, -, n3, n4, n5, n6, n7, n8, -⟩ := forwardName_enumerators hF
  have hne : ¬ (mapForward F backend = F.auto ∨ mapForward F backend = F.cpu) := by
    rcases (isGpu_iff F _).mp hg with h | h | h | h | h | h <;> rw [h] <;>
      simp [*, Ne.symm]
  have hcpu : forwardName F (mapForward F backend) ≠ "CPU" := by
    rcases (isGpu_iff F _).mp hg with h | h | h | h | h | h <;> rw [h] <;> simp [*]
  have hp : pickGpuLabel F hasBE beBuf (mapForward F backend)
      = forwardName F (mapForward F backend) := by
    simp only [pickGpuLabel, hne, if_false, hg, if_true]
  have key : ∀ n : Nat,
      ((if n ≠ 0 then forwardName F (mapForward F backend) else "CPU")
        = forwardName F (mapForward F backend) ↔ n ≠ 0) := by
    intro n
    by_cases h : n = 0
    · simp [h, Ne.symm hcpu]
    · simp [h]
  refine ⟨hp, ?_⟩
  intro a st e ts info
  rw [afterRecord_backend, afterRecord_deviceId, hp]
  constructor
  · cases ts with
    | nil => rw [key]; simp
    | cons o rest =>
      cases o with
      | none => rw [key]; simp
      | some d =>
        rw [key]
        constructor
        · intro h; exact ⟨d, rest, rfl, h⟩
        · rintro ⟨d1, rest1, heq, hd⟩
          cases heq
          exact hd
  · rintro (rfl | ⟨rest, rfl⟩ | ⟨d, rest, rfl, hd⟩)
    · rfl
    · rfl
    · exact if_neg (not_not.mpr hd)

theorem pickGpuLabel_gpu_primary_witness :
    pickGpuLabel mnnIds false [] (mapForward mnnIds "VULKAN")
      = forwardName mnnIds (mapForward mnnIds "VULKAN") :=
  (pickGpuLabel_gpu_primary mnnIds (by decide) "VULKAN" false [] (by decide)).1

/-! ## Backend resolver: from identifier to name and back -/

/-- C17 as stated fails: `forwardName` names the identifier `MNN_FORWARD_ALL` "ALL", a
label other than "UNKNOWN", but `mapForward` does not know the name "ALL" and resolves
it to CPU. -/
theorem forwardName_all_counterexample :
    forwardName mnnIds mnnIds.all = "ALL" ∧ forwardName mnnIds mnnIds.all ≠ "UNKNOWN" ∧
    mapForward mnnIds (forwardName mnnIds mnnIds.all) = mnnIds.cpu ∧
    mapForward mnnIds (forwardName mnnIds mnnIds.all) ≠ mnnIds.all := by
  decide

/-- C17, amended: for every backend identifier to which `forwardName` gives a label
other than "UNKNOWN", except `MNN_FORWARD_ALL` (that is for CPU, AUTO, METAL, CUDA,
OPENCL, OPENGL, VULKAN, NN), `mapForward (forwardName id) = id`; for `MNN_FORWARD_ALL`
the label is "ALL", which `mapForward` resolves to CPU; and `forwardName` returns
"UNKNOWN" exactly for the identifiers that are none of the nine. -/
theorem mapForward_forwardName (F : ForwardIds) (hF : F.Distinct) (id : Int) :
    (forwardName F id ≠ "UNKNOWN" → id ≠ F.all → mapForward F (forwardName F id) = id) ∧
    (id = F.all → forwardName F id = "ALL" ∧ mapForward F (forwardName F id) = F.cpu) ∧
    (forwardName F id = "UNKNOWN" ↔ id ∉ namedIds F) := by
  obtain ⟨n1, n2, n3, n4, n5, n6, n7, n8, n9⟩ := forwardName_enumerators hF
  by_cases hm : id ∈ namedIds F
  · simp only [namedIds, List.mem_cons, List.mem_singleton, List.not_mem_nil, or_false] at hm
    obtain ⟨⟨-, -, -, -, -, -, -, e1⟩, ⟨-, -, -, -, -, -, e2⟩, ⟨-, -, -, -, -, e3⟩,
      ⟨-, -, -, -, e4⟩, ⟨-, -, -, e5⟩, ⟨-, -, e6⟩, ⟨-, e7⟩, e8⟩ := hF.ne
    rcases hm with h | h | h | h | h | h | h | h | h <;> subst h <;>
      simp [mapForward, namedIds, *]
  · have hu : forwardName F id = "UNKNOWN" := by
      simp only [namedIds, List.mem_cons, List.mem_singleton, List.not_mem_nil, or_false,
        not_or] at hm
      obtain ⟨h1, h2, h3, h4, h5, h6, h7, h8, h9⟩ := hm
      simp [forwardName, *]
    refine ⟨fun h => absurd hu h, ?_, ⟨fun _ => hm, fun _ => hu⟩⟩
    intro h
    exact absurd (by simp [namedIds, h]) hm

theorem mapForward_forwardName_witness :
    mapForward mnnIds (forwardName mnnIds mnnIds.vulkan) = mnnIds.vulkan :=
  (mapForward_forwardName mnnIds (by decide) mnnIds.vulkan).1 (by decide) (by decide)

/-! ## The build without the engine -/

/-- C18 as stated fails: in the build without the engine the two profile entry points
return a text that differs from the one of `runModelMulti`, and it does not contain the
sentence that says where the headers and the library go. -/
theorem stub_texts_differ_counterexample :
    runModelMultiStub matchedArgs = (Except.ok notBundledText, ⟨[], notBundledText⟩) ∧
    runModelProfileStub someRunArgs = (Except.ok cannotProfileText, ⟨[], cannotProfileText⟩) ∧
    runModelMultiProfileStub matchedArgs
      = (Except.ok cannotProfileText, ⟨[], cannotProfileText⟩) ∧
    notBundledText ≠ cannotProfileText ∧
    containsText placementGuidance notBundledText = true ∧
    containsText placementGuidance cannotProfileText = false ∧
    containsText "third_party" cannotProfileText = false ∧
    containsText "jniLibs" cannotProfileText = false :=
  ⟨rfl, rfl, rfl, by decide, by decide, by decide, by decide, by decide⟩

/-- The stub of `runModel` writes the guidance text and then releases the characters of
`backupType`, which it released as its first statement, a second time. -/
theorem runModelStub_second_release (a : RunArgs) :
    runModelStub a = (Except.error Fault.undefined, ⟨[], notBundledText⟩) := by
  unfold runModelStub
  cases a.cacheFile <;> rfl

/-- C18, amended: in the build without the engine, for every argument tuple, the stubs
of `runModelProfile`, `runModelMulti`, `runModelMultiProfile` and `getModelInfo` return a
non-empty string that contains "MNN not bundled.", release the characters of every
string argument they got exactly once, and raise no fault.  `runModelMulti` and
`getModelInfo` (inside its `error` member) give the sentence about where to place the
headers and the library; `runModelProfile` and `runModelMultiProfile` both return the
other text, "MNN not bundled. Cannot profile. Place headers and libMNN.so as
documented.", which names no place.  The stub of `runModel` writes the same text as the
stub of `runModelMulti`; what follows its second release of the characters of
`backupType` is not stated here. -/
theorem stubs_return_guidance (a : RunArgs) (b : MultiArgs) (modelPath : String) :
    (runModelProfileStub a = (Except.ok cannotProfileText, ⟨[], cannotProfileText⟩) ∧
      runModelMultiStub b = (Except.ok notBundledText, ⟨[], notBundledText⟩) ∧
      runModelMultiProfileStub b = (Except.ok cannotProfileText, ⟨[], cannotProfileText⟩) ∧
      (∃ text, getModelInfoStub modelPath = (Except.ok text, ⟨[], text⟩) ∧ text ≠ "" ∧
        containsText "MNN not bundled." text = true ∧
        containsText placementGuidance text = true)) ∧
    (runModelStub a).2.msg = notBundledText ∧
    (notBundledText ≠ "" ∧ containsText "MNN not bundled." notBundledText = true ∧
      containsText placementGuidance notBundledText = true) ∧
    (cannotProfileText ≠ "" ∧ containsText "MNN not bundled." cannotProfileText = true ∧
      containsText placementGuidance cannotProfileText = false) := by
  refine ⟨⟨rfl, ?_, ?_, ⟨_, rfl, ?_, ?_, ?_⟩⟩, ?_, ?_, ?_⟩
  · unfold runModelMultiStub
    cases b.cacheFile <;> rfl
  · unfold runModelMultiProfileStub
    cases b.cacheFile <;> rfl
  · decide
  · decide
  · decide
  · unfold runModelStub
    cases a.cacheFile <;> rfl
  · decide
  · decide

/-! ## Bytes the fill step leaves unwritten -/

/-- C11 fails on the code: the branches for "ONE", "UNIFORM" and "NORMAL" test only the
type code and store `elementSize()` values of 4 bytes.  For a floating-point input of two
elements of 64 bits (a host buffer of 16 bytes) they write the first 8 bytes; the other 8
are as allocated when the buffer is handed to `copyFromHostTensor`, in `runModel` with
the fill mode "ONE" and also in the modes "UNIFORM" and "NORMAL".  For two elements of
16 bits (a host buffer of 4 bytes) the second store is outside the allocation.  The
branch with `memset` writes all `size()` bytes. -/
theorem fill_leaves_bytes_unwritten :
    (fillHost counterSampler "ONE" ⟨16, 2, HalideTypeCode.halide_type_float, [2]⟩ 42
        = some (f32Cells [1, 1] ++ List.replicate 8 Cell.uninit, 42) ∧
      fillHost counterSampler "UNIFORM" ⟨16, 2, HalideTypeCode.halide_type_float, [2]⟩ 42
        = some (f32Cells [42, 43] ++ List.replicate 8 Cell.uninit, 44) ∧
      fillHost counterSampler "NORMAL" ⟨16, 2, HalideTypeCode.halide_type_float, [2]⟩ 42
        = some (f32Cells [142, 143] ++ List.replicate 8 Cell.uninit, 44)) ∧
    (outcomeText (runModel mnnIds counterSampler wideEnv someRunArgs World.init)
        = some "MNN 3.1.0 OK backend=CPU outputs=y[1x2]" ∧
      Event.copyFromHostTensor "x" (f32Cells [1, 1] ++ List.replicate 8 Cell.uninit)
        ∈ (runModel mnnIds counterSampler wideEnv someRunArgs World.init).2.trace) ∧
    fillHost counterSampler "ONE" ⟨4, 2, HalideTypeCode.halide_type_float, [2]⟩ 42 = none ∧
    fillHost counterSampler "ZERO" ⟨16, 2, HalideTypeCode.halide_type_float, [2]⟩ 42
      = some (List.replicate 16 (Cell.byte 0), 42) := by
  decide

/-! ## Elements the fill step does not write -/

/-- C9 fails on the code: the branch for "ONE" tests only the type code and stores
`elementSize()` values of type `float`, 4 bytes each.  For a floating-point input of two
elements of 64 bits (a host buffer of 16 bytes) the 8 bytes of element 0 hold two stored
`float` values and the 8 bytes of element 1 are never written: this is the buffer
`runModelMulti` hands to `copyFromHostTensor` and runs the session on.  For two elements
of 16 bits (a host buffer of 4 bytes) the second store is outside the allocation, and
`runModelMulti` does not get beyond it.  For elements of 32 bits each element holds
`1.0f`, and for an element type that is not floating-point the buffer is `size()` zero
bytes. -/
theorem fill_one_wide_elements :
    (fillHost counterSampler "ONE" ⟨16, 2, HalideTypeCode.halide_type_float, [2]⟩ 42
        = some (f32Cells [1, 1] ++ List.replicate 8 Cell.uninit, 42) ∧
      elementCells 8 0 (f32Cells [1, 1] ++ List.replicate 8 (Cell.uninit : Cell Nat))
        = f32Cells [1, 1] ∧
      elementCells 8 1 (f32Cells [1, 1] ++ List.replicate 8 (Cell.uninit : Cell Nat))
        = List.replicate 8 Cell.uninit) ∧
    (outcomeText (runModelMulti mnnIds counterSampler wideEnv oneMultiArgs World.init)
        = some "MNN 3.1.0 OK backend=CPU outputs=y[1x2]" ∧
      Event.copyFromHostTensor "x" (f32Cells [1, 1] ++ List.replicate 8 Cell.uninit)
        ∈ (runModelMulti mnnIds counterSampler wideEnv oneMultiArgs World.init).2.trace) ∧
    (fillHost counterSampler "ONE" ⟨4, 2, HalideTypeCode.halide_type_float, [2]⟩ 42 = none ∧
      (runModelMulti mnnIds counterSampler halfEnv oneMultiArgs World.init).1
        = Except.error Fault.undefined) ∧
    (fillHost counterSampler "ONE" ⟨8, 2, HalideTypeCode.halide_type_float, [2]⟩ 42
        = some (f32Cells [1, 1], 42) ∧
      elementCells 4 0 (f32Cells [1, 1] : Buffer Nat) = f32Cells [1] ∧
      elementCells 4 1 (f32Cells [1, 1] : Buffer Nat) = f32Cells [1] ∧
      fillHost counterSampler "ONE" ⟨8, 2, HalideTypeCode.halide_type_int, [2]⟩ 42
        = some (List.replicate 8 (Cell.byte 0), 42)) :=
  ⟨⟨by decide, by decide, by decide⟩, ⟨by decide!, by decide!⟩, ⟨by decide, by rfl⟩,
    ⟨by decide, by decide, by decide, by decide⟩⟩

/-- C10 fails on the code: the branches for "UNIFORM" and "NORMAL" test only the type
code and store `elementSize()` values of type `float`.  For a floating-point input of
two elements of 64 bits (a host buffer of 16 bytes) `runModel` hands to
`copyFromHostTensor` a buffer whose first 8 bytes hold the first two samples of the
stream and whose other 8 bytes were never written: what is read from them is what the
memory held before, so two runs with the same configuration stage different bytes when
the memory held different bytes.  For two elements of 16 bits the second store is
outside the allocation and `runModel` does not get beyond it.  For inputs whose elements
have 32 bits the buffers `runModel` stages are the consecutive segments of the one
stream that starts from the seed 42, an input of another element type between them holds
zero bytes and takes no sample, and nothing of them depends on what the memory held. -/
theorem uniform_fill_wide_not_reproducible :
    (Event.copyFromHostTensor "x" (f32Cells [42, 43] ++ List.replicate 8 Cell.uninit)
        ∈ (runModel mnnIds counterSampler wideEnv uniformRunArgs World.init).2.trace ∧
      Event.copyFromHostTensor "x" (f32Cells [142, 143] ++ List.replicate 8 Cell.uninit)
        ∈ (runModel mnnIds counterSampler wideEnv normalRunArgs World.init).2.trace) ∧
    (bytesRead (fun _ => 0) (f32Cells [42, 43] ++ List.replicate 8 (Cell.uninit : Cell Nat)) 0
        = f32Cells [42, 43] ++ List.replicate 8 (Cell.byte 0) ∧
      bytesRead (fun _ => 255) (f32Cells [42, 43] ++ List.replicate 8 (Cell.uninit : Cell Nat)) 0
        = f32Cells [42, 43] ++ List.replicate 8 (Cell.byte 255) ∧
      bytesRead (fun _ => 0) (f32Cells [42, 43] ++ List.replicate 8 (Cell.uninit : Cell Nat)) 0
        ≠ bytesRead (fun _ => 255)
            (f32Cells [42, 43] ++ List.replicate 8 (Cell.uninit : Cell Nat)) 0) ∧
    ((runModel mnnIds counterSampler halfEnv uniformRunArgs World.init).1
        = Except.error Fault.undefined ∧
      (runModel mnnIds counterSampler halfEnv normalRunArgs World.init).1
        = Except.error Fault.undefined) ∧
    (stagedBuffers (runModel mnnIds counterSampler mixedEnv uniformRunArgs World.init).2.trace
        = [("a", f32Cells [42, 43]), ("b", List.replicate 4 (Cell.byte 0)),
            ("c", f32Cells [44])] ∧
      stagedBuffers (runModel mnnIds counterSampler mixedEnv normalRunArgs World.init).2.trace
        = [("a", f32Cells [142, 143]), ("b", List.replicate 4 (Cell.byte 0)),
            ("c", f32Cells [144])] ∧
      bytesRead (fun _ => 0) (f32Cells [42, 43] : Buffer Nat) 0
        = bytesRead (fun _ => 255) (f32Cells [42, 43]) 0) :=
  ⟨⟨by decide!, by decide!⟩, ⟨by decide, by decide, by decide⟩, ⟨by rfl, by rfl⟩,
    ⟨by decide!, by decide!, by decide⟩⟩

/-! ## Runs in which nothing fails -/

theorem engineCall_mk {V : Type} (E : Env) (hE : ∀ k, E.fault k = none) (ev : Event V)
    (tr : List (Event V)) (c t : Nat) :
    engineCall E ev ⟨tr, c, t⟩ = (Except.ok (), ⟨tr ++ [ev], c + 1, t⟩) := by
  simp [engineCall, hE]

theorem now_mk {V : Type} (E : Env) (tr : List (Event V)) (c t : Nat) :
    (now E : Run V Int) ⟨tr, c, t⟩ = (Except.ok (E.clock t), ⟨tr, c, t + 1⟩) := rfl

theorem setCache_mk {V : Type} (E : Env) (hE : ∀ k, E.fault k = none)
    (cacheFile : Option String) (tr : List (Event V)) (c t : Nat) :
    setCache E cacheFile ⟨tr, c, t⟩
      = (Except.ok (), ⟨tr ++ setCacheEvents cacheFile,
          c + (setCacheEvents cacheFile : List (Event V)).length, t⟩) := by
  cases cacheFile with
  | none => simp [setCache, setCacheEvents, run_pure_apply]
  | some s =>
    by_cases h : s.length > 0
    · simp [setCache, setCacheEvents, h, engineCall_mk E hE]
    · simp [setCache, setCacheEvents, h, run_pure_apply]

theorem resizeAll_mk {V : Type} (E : Env) (hE : ∀ k, E.fault k = none) (shape : List Int)
    (inputs : List (String × Option InputTensor)) (tr : List (Event V)) (c t : Nat) :
    resizeAll E shape inputs ⟨tr, c, t⟩
      = (Except.ok (), ⟨tr ++ resizeAllEvents shape inputs,
          c + (resizeAllEvents shape inputs : List (Event V)).length, t⟩) := by
  induction inputs generalizing tr c with
  | nil => simp [resizeAll, resizeAllEvents, run_pure_apply]
  | cons kv rest ih =>
    obtain ⟨name, ot⟩ := kv
    cases ot with
    | none => simpa [resizeAll, resizeAllEvents] using ih tr c
    | some x =>
      simp only [resizeAll, resizeAllEvents, run_bind_apply, engineCall_mk E hE, ih,
        List.length_cons]
      simp [Nat.add_assoc, Nat.add_comm 1]

theorem resizeNamed_mk {V : Type} (E : Env) (hE : ∀ k, E.fault k = none)
    (pairs : List (String × List Int)) (tr : List (Event V)) (c t : Nat) :
    resizeNamed E pairs ⟨tr, c, t⟩
      = (Except.ok (), ⟨tr ++ resizeNamedEvents E pairs,
          c + (resizeNamedEvents E pairs : List (Event V)).length, t⟩) := by
  induction pairs generalizing tr c with
  | nil => simp [resizeNamed, resizeNamedEvents, run_pure_apply]
  | cons kv rest ih =>
    obtain ⟨cname, shape⟩ := kv
    by_cases hk : E.knows cname = true
    · simp only [resizeNamed, resizeNamedEvents, run_bind_apply, engineCall_mk E hE, ih, hk,
        if_true, List.length_cons]
      simp [Nat.add_assoc]
      omega
    · simp only [resizeNamed, resizeNamedEvents, run_bind_apply, engineCall_mk E hE, ih, hk,
        if_false, run_pure_apply, List.length_cons, Bool.false_eq_true]
      simp [Nat.add_assoc, Nat.add_comm 1]

theorem stageLoop_mk {σ V : Type} (E : Env) (R : Sampler σ V) (fill : String)
    (hE : ∀ k, E.fault k = none) (inputs : List (String × Option InputTensor)) (st : σ)
    (bufs : List (String × Buffer V)) (h : stageInputs R fill inputs st = some bufs)
    (tr : List (Event V)) (c t : Nat) :
    stageLoop E R fill inputs st ⟨tr, c, t⟩
      = (Except.ok (), ⟨tr ++ stagingEvents bufs, c + 2 * bufs.length, t⟩) :=
  stageLoop_eq E R fill hE inputs st bufs h ⟨tr, c, t⟩

/-- The run of `runModel` when the engine does not fail. -/
theorem runModel_run {σ V : Type} (F : ForwardIds) (R : Sampler σ V) (E : Env) (a : RunArgs)
    (hE : ∀ k, E.fault k = none) (hi : E.interpreter = true) (hs : E.session = true)
    (bufs : List (String × Buffer V))
    (hb : stageInputs R (fillMode a.inputFill) E.inputs (R.seed 42) = some bufs)
    (out : String) (ho : summaryUnchecked E.outputs true = some out) :
    (runModel F R E a World.init).1
        = Except.ok ("MNN 3.1.0 OK backend=" ++ a.backend ++ " outputs=" ++ out) ∧
    (runModel F R E a World.init).2.trace
      = Event.createFromFile a.modelPath :: (setCacheEvents a.cacheFile
        ++ Event.createSession
            (buildScheduleConfig F a.backend a.backupType a.threads a.precisionMode)
          :: Event.getSessionInputAll :: (resizeAllEvents a.inputShape E.inputs
        ++ Event.resizeSession :: (stagingEvents bufs
        ++ [Event.runSession, Event.getSessionOutputAll, Event.releaseSession,
            Event.destroyInterpreter]))) := by
  simp only [runModel, runBody, tryCatch, withInterpreter, run_bind_apply, createFromFile,
    createSession, getSessionInputAll, getSessionOutputAll, World.init, engineCall_mk E hE,
    setCache_mk E hE, resizeAll_mk E hE, stageLoop_mk E R _ hE _ _ bufs hb, run_pure_apply,
    hi, hs, ho, Bool.not_true, Bool.false_eq_true, if_false]
  simp

/-- The run of `runModelMulti` when the engine does not fail and the two arrays have
the same length. -/
theorem runModelMulti_run {σ V : Type} (F : ForwardIds) (R : Sampler σ V) (E : Env)
    (a : MultiArgs) (hE : ∀ k, E.fault k = none) (hi : E.interpreter = true)
    (hs : E.session = true) (hl : a.inputNames.length = a.inputShapes.length)
    (bufs : List (String × Buffer V))
    (hb : stageInputs R (fillMode a.inputFill) E.inputs (R.seed 42) = some bufs) :
    (runModelMulti F R E a World.init).1
        = Except.ok ("MNN 3.1.0 OK backend=" ++ a.backend ++ " outputs="
            ++ summaryChecked E.outputs true) ∧
    (runModelMulti F R E a World.init).2.trace
      = Event.createFromFile a.modelPath :: (setCacheEvents a.cacheFile
        ++ Event.createSession
            (buildScheduleConfig F a.backend a.backupType a.threads a.precisionMode)
          :: (resizeNamedEvents E (a.inputNames.zip a.inputShapes)
        ++ Event.resizeSession :: Event.getSessionInputAll :: (stagingEvents bufs
        ++ [Event.runSession, Event.getSessionOutputAll, Event.releaseSession,
            Event.destroyInterpreter]))) := by
  simp only [runModelMulti, multiBody, tryCatch, withInterpreter, run_bind_apply,
    createFromFile, createSession, getSessionInputAll, getSessionOutputAll, World.init,
    engineCall_mk E hE, setCache_mk E hE, resizeNamed_mk E hE,
    stageLoop_mk E R _ hE _ _ bufs hb, run_pure_apply, hi, hs, hl, ne_eq, not_true_eq_false,
    Bool.not_true, Bool.false_eq_true, if_false]
  simp

/-- The part the profile entry points share, when the engine does not fail. -/
theorem profileFinish_mk {σ V : Type} (F : ForwardIds) (R : Sampler σ V) (E : Env)
    (hE : ∀ k, E.fault k = none) (cBackend : String) (cBackup : Option String)
    (inputFill : Option String) (cfg : ScheduleConfig) (t0 t1 t2_before t2 t3_before t3 : Int)
    (inputs : List (String × Option InputTensor)) (bufs : List (String × Buffer V))
    (hb : stageInputs R (fillMode inputFill) inputs (R.seed 42) = some bufs)
    (tr : List (Event V)) (c t : Nat) :
    profileFinish F R E cBackend cBackup inputFill cfg t0 t1 t2_before t2 t3_before t3 inputs
        ⟨tr, c, t⟩
      = (Except.ok (profileJson F E.showMs cBackend cBackup
            (threadsInfoOf E cfg)
            { createInterpreter := dur_ms t0 t1, createSession := dur_ms t2_before t2,
              resizeSession := dur_ms t3_before t3,
              runSession := dur_ms (E.clock t) (E.clock (t + 1)) }
            E.outputs []),
          ⟨tr ++ (stagingEvents bufs ++ [Event.getSessionInfoThreads,
              Event.getSessionInfoBackends, Event.runSession, Event.getSessionOutputAll,
              Event.releaseSession]),
            c + 2 * bufs.length + 1 + 1 + 1 + 1 + 1, t + 1 + 1⟩) := by
  simp only [profileFinish, run_bind_apply, getSessionOutputAll, engineCall_mk E hE,
    stageLoop_mk E R _ hE _ _ bufs hb, run_pure_apply, now_mk]
  simp
  rfl

/-- The run of `runModelProfile` when the engine does not fail. -/
theorem runModelProfile_run {σ V : Type} (F : ForwardIds) (R : Sampler σ V) (E : Env)
    (a : RunArgs) (hE : ∀ k, E.fault k = none) (hi : E.interpreter = true)
    (hs : E.session = true) (bufs : List (String × Buffer V))
    (hb : stageInputs R (fillMode a.inputFill) E.inputs (R.seed 42) = some bufs) :
    (runModelProfile F R E a World.init).1
        = Except.ok (profileJson F E.showMs a.backend a.backupType
            (threadsInfoOf E
              (buildScheduleConfig F a.backend a.backupType a.threads a.precisionMode))
            { createInterpreter := dur_ms (E.clock 0) (E.clock 1),
              createSession := dur_ms (E.clock 2) (E.clock 3),
              resizeSession := dur_ms (E.clock 4) (E.clock 5),
              runSession := dur_ms (E.clock 6) (E.clock 7) }
            E.outputs []) ∧
    (runModelProfile F R E a World.init).2.trace
      = Event.createFromFile a.modelPath :: (setCacheEvents a.cacheFile
        ++ Event.createSession
            (buildScheduleConfig F a.backend a.backupType a.threads a.precisionMode)
          :: Event.getSessionInputAll :: (resizeAllEvents a.inputShape E.inputs
        ++ Event.resizeSession :: (stagingEvents bufs
        ++ [Event.getSessionInfoThreads, Event.getSessionInfoBackends, Event.runSession,
            Event.getSessionOutputAll, Event.releaseSession, Event.destroyInterpreter]))) := by
  simp only [runModelProfile, profileBody, tryCatch, withInterpreter, run_bind_apply,
    createFromFile, createSession, getSessionInputAll, World.init, engineCall_mk E hE,
    setCache_mk E hE, resizeAll_mk E hE, profileFinish_mk F R E hE _ _ _ _ _ _ _ _ _ _ _ bufs hb,
    run_pure_apply, now_mk, hi, hs, Bool.not_true, Bool.false_eq_true, if_false]
  simp

/-- The run of `runModelMultiProfile` when the engine does not fail and the two arrays
have the same length. -/
theorem runModelMultiProfile_run {σ V : Type} (F : ForwardIds) (R : Sampler σ V) (E : Env)
    (a : MultiArgs) (hE : ∀ k, E.fault k = none) (hi : E.interpreter = true)
    (hs : E.session = true) (hl : a.inputNames.length = a.inputShapes.length)
    (bufs : List (String × Buffer V))
    (hb : stageInputs R (fillMode a.inputFill) E.inputs (R.seed 42) = some bufs) :
    (runModelMultiProfile F R E a World.init).1
        = Except.ok (profileJson F E.showMs a.backend a.backupType
            (threadsInfoOf E
              (buildScheduleConfig F a.backend a.backupType a.threads a.precisionMode))
            { createInterpreter := dur_ms (E.clock 0) (E.clock 1),
              createSession := dur_ms (E.clock 2) (E.clock 3),
              resizeSession := dur_ms (E.clock 4) (E.clock 5),
              runSession := dur_ms (E.clock 6) (E.clock 7) }
            E.outputs []) ∧
    (runModelMultiProfile F R E a World.init).2.trace
      = Event.createFromFile a.modelPath :: (setCacheEvents a.cacheFile
        ++ Event.createSession
            (buildScheduleConfig F a.backend a.backupType a.threads a.precisionMode)
          :: (resizeNamedEvents E (a.inputNames.zip a.inputShapes)
        ++ Event.resizeSession :: Event.getSessionInputAll :: (stagingEvents bufs
        ++ [Event.getSessionInfoThreads, Event.getSessionInfoBackends, Event.runSession,
            Event.getSessionOutputAll, Event.releaseSession, Event.destroyInterpreter]))) := by
  simp only [runModelMultiProfile, multiProfileBody, tryCatch, withInterpreter,
    run_bind_apply, createFromFile, createSession, getSessionInputAll, World.init,
    engineCall_mk E hE, setCache_mk E hE, resizeNamed_mk E hE,
    profileFinish_mk F R E hE _ _ _ _ _ _ _ _ _ _ _ bufs hb, run_pure_apply, now_mk, hi, hs, hl,
    ne_eq, not_true_eq_false, Bool.not_true, Bool.false_eq_true, if_false]
  simp

/-- The run of `getModelInfo` when the engine does not fail. -/
theorem getModelInfo_run {V : Type} (F : ForwardIds) (dflt : ScheduleConfig) (E : Env)
    (modelPath : String) (hE : ∀ k, E.fault k = none) (hi : E.interpreter = true)
    (hs : E.session = true) :
    (getModelInfo F dflt E modelPath (World.init : World V)).1
        = Except.ok ("\x7b\"inputs\":[" ++ inputsJson E.inputs true ++ "]\x7d") ∧
    (getModelInfo F dflt E modelPath (World.init : World V)).2.trace
      = [Event.createFromFile modelPath, Event.createSession { dflt with type := F.cpu },
          Event.getSessionInputAll, Event.releaseSession, Event.destroyInterpreter] := by
  simp only [getModelInfo, tryCatch, withInterpreter, run_bind_apply, createFromFile,
    createSession, getSessionInputAll, World.init, engineCall_mk E hE, run_pure_apply, hi, hs,
    Bool.not_true, Bool.false_eq_true, if_false]
  simp

/-! ## Joined texts -/

theorem intercalate_go_append (s acc x : String) (l : List String) :
    String.intercalate.go (acc ++ x) s l = acc ++ String.intercalate.go x s l := by
  induction l generalizing x with
  | nil => rfl
  | cons a l ih =>
    simp only [String.intercalate.go]
    rw [String.append_assoc, String.append_assoc, ← String.append_assoc x, ih]

theorem intercalate_cons_cons (s a b : String) (l : List String) :
    s.intercalate (a :: b :: l) = a ++ s ++ s.intercalate (b :: l) := by
  simp only [String.intercalate, String.intercalate.go]
  rw [intercalate_go_append]

theorem dimsTrail_eq (sep : String) (dims : List Int) :
    dimsTrail sep dims = sep.intercalate (dims.map showInt) := by
  induction dims with
  | nil => rfl
  | cons d rest ih =>
    cases rest with
    | nil => rfl
    | cons e rest =>
      simp only [dimsTrail, List.map_cons, intercalate_cons_cons] at ih ⊢
      rw [ih]

theorem summaryChecked_false (outputs : List (String × Option OutputTensor)) :
    summaryChecked outputs false
      = match (present outputs).map summaryEntry with
        | [] => ""
        | e :: l => ", " ++ ", ".intercalate (e :: l) := by
  induction outputs with
  | nil => rfl
  | cons kv rest ih =>
    obtain ⟨name, ot⟩ := kv
    cases ot with
    | none => simpa [summaryChecked, present] using ih
    | some t =>
      simp only [summaryChecked, present, List.map_cons, ih, Bool.false_eq_true, if_false,
        dimsTrail_eq]
      cases h : (present rest).map summaryEntry with
      | nil => simp [summaryEntry, String.intercalate, String.intercalate.go, String.append_assoc]
      | cons e l =>
        simp only [intercalate_cons_cons, summaryEntry, String.append_assoc]

theorem summaryChecked_true (outputs : List (String × Option OutputTensor)) :
    summaryChecked outputs true = ", ".intercalate ((present outputs).map summaryEntry) := by
  induction outputs with
  | nil => rfl
  | cons kv rest ih =>
    obtain ⟨name, ot⟩ := kv
    cases ot with
    | none => simpa [summaryChecked, present] using ih
    | some t =>
      simp only [summaryChecked, present, List.map_cons, summaryChecked_false, if_true,
        dimsTrail_eq]
      cases h : (present rest).map summaryEntry with
      | nil => simp [summaryEntry, String.intercalate, String.intercalate.go, String.append_assoc]
      | cons e l =>
        simp only [intercalate_cons_cons, summaryEntry, String.append_assoc]
        simp

theorem summaryUnchecked_eq (outputs : List (String × Option OutputTensor)) (first : Bool)
    (h : ∀ kv ∈ outputs, kv.2 ≠ none) :
    summaryUnchecked outputs first = some (summaryChecked outputs first) := by
  induction outputs generalizing first with
  | nil => rfl
  | cons kv rest ih =>
    obtain ⟨name, ot⟩ := kv
    cases ot with
    | none => exact absurd rfl (h (name, none) (List.mem_cons_self _ _))
    | some t =>
      simp only [summaryUnchecked, summaryChecked,
        ih false (fun kv hm => h kv (List.mem_cons_of_mem _ hm))]

theorem summaryUnchecked_none (outputs : List (String × Option OutputTensor)) (first : Bool)
    (h : ∃ kv ∈ outputs, kv.2 = none) : summaryUnchecked outputs first = none := by
  induction outputs generalizing first with
  | nil => simp at h
  | cons kv rest ih =>
    obtain ⟨name, ot⟩ := kv
    cases ot with
    | none => rfl
    | some t =>
      have h2 : ∃ kv ∈ rest, kv.2 = none := by
        obtain ⟨kv, hm, hn⟩ := h
        rcases List.mem_cons.mp hm with rfl | hm
        · simp at hn
        · exact ⟨kv, hm, hn⟩
      simp only [summaryUnchecked, ih false h2]

/-! ## The summary line -/

/-- C14: when the engine does not fail (the model loads, the session is created, no
call throws, the staging stays inside its buffers), `runModel` and `runModelMulti` return
exactly "MNN 3.1.0 OK backend=" followed by the backend string of the caller,
" outputs=", and the entries `name[d1x...xdr]` of the output tensors joined by ", ":
the dimensions of an entry are joined by "x", so there is no "x" behind the last one,
no separator behind the last entry, and `name[]` for a tensor of rank 0.  (`runModel` reads
every output tensor pointer without a test, so its outputs are taken to be non-null;
`runModelMulti` skips null pointers.) -/
theorem summary_line_format {σ V : Type} (F : ForwardIds) (R : Sampler σ V) (E : Env)
    (a : RunArgs) (b : MultiArgs) (hE : ∀ k, E.fault k = none) (hi : E.interpreter = true)
    (hs : E.session = true) (bufsA bufsB : List (String × Buffer V))
    (hA : stageInputs R (fillMode a.inputFill) E.inputs (R.seed 42) = some bufsA)
    (hB : stageInputs R (fillMode b.inputFill) E.inputs (R.seed 42) = some bufsB)
    (hl : b.inputNames.length = b.inputShapes.length) :
    ((∀ kv ∈ E.outputs, kv.2 ≠ none) →
      (runModel F R E a World.init).1
        = Except.ok ("MNN 3.1.0 OK backend=" ++ a.backend ++ " outputs="
            ++ ", ".intercalate ((present E.outputs).map summaryEntry))) ∧
    (runModelMulti F R E b World.init).1
      = Except.ok ("MNN 3.1.0 OK backend=" ++ b.backend ++ " outputs="
          ++ ", ".intercalate ((present E.outputs).map summaryEntry)) ∧
    (∀ name : String, summaryEntry (name, { dims := [] }) = name ++ "[" ++ "" ++ "]") ∧
    (∀ (name : String) (d : Int), summaryEntry (name, { dims := [d] })
      = name ++ "[" ++ showInt d ++ "]") ∧
    (∀ (name : String) (d e : Int) (rest : List Int),
      summaryEntry (name, { dims := d :: e :: rest })
        = name ++ "[" ++ (showInt d ++ "x" ++ "x".intercalate ((e :: rest).map showInt))
          ++ "]") := by
  refine ⟨?_, ?_, fun _ => rfl, fun _ _ => rfl, ?_⟩
  · intro hn
    have ho := summaryUnchecked_eq E.outputs true hn
    rw [(runModel_run F R E a hE hi hs bufsA hA _ ho).1, summaryChecked_true]
  · rw [(runModelMulti_run F R E b hE hi hs hl bufsB hB).1, summaryChecked_true]
  · intro name d e rest
    simp only [summaryEntry, List.map_cons, intercalate_cons_cons]

theorem summary_line_format_witness :
    (runModel mnnIds counterSampler plainEnv someRunArgs World.init).1
        = Except.ok ("MNN 3.1.0 OK backend=" ++ someRunArgs.backend ++ " outputs="
            ++ ", ".intercalate ((present plainEnv.outputs).map summaryEntry)) ∧
    outcomeText (runModel mnnIds counterSampler plainEnv someRunArgs World.init)
      = some "MNN 3.1.0 OK backend=CPU outputs=y[1x2]" :=
  ⟨(summary_line_format mnnIds counterSampler plainEnv someRunArgs matchedArgs (fun _ => rfl)
      rfl rfl [("x", f32Cells [1, 1, 1, 1])] [("x", List.replicate 16 (Cell.byte 0))]
      (by decide) (by decide) rfl).1 (by decide),
    by decide⟩

/-! ## `getModelInfo` -/

theorem inputsJson_false (inputs : List (String × Option InputTensor)) :
    inputsJson inputs false
      = match (present inputs).map inputEntry with
        | [] => ""
        | e :: l => "," ++ ",".intercalate (e :: l) := by
  induction inputs with
  | nil => rfl
  | cons kv rest ih =>
    obtain ⟨name, ot⟩ := kv
    cases ot with
    | none => simpa [inputsJson, present] using ih
    | some t =>
      simp only [inputsJson, present, List.map_cons, ih, Bool.false_eq_true, if_false,
        dimsTrail_eq]
      cases h : (present rest).map inputEntry with
      | nil =>
        simp only [inputEntry, String.intercalate, String.intercalate.go, String.append_assoc,
          String.append_empty]
      | cons e l =>
        simp only [intercalate_cons_cons, inputEntry, String.append_assoc]

theorem inputsJson_true (inputs : List (String × Option InputTensor)) :
    inputsJson inputs true = ",".intercalate ((present inputs).map inputEntry) := by
  induction inputs with
  | nil => rfl
  | cons kv rest ih =>
    obtain ⟨name, ot⟩ := kv
    cases ot with
    | none => simpa [inputsJson, present] using ih
    | some t =>
      simp only [inputsJson, present, List.map_cons, inputsJson_false, if_true, dimsTrail_eq]
      cases h : (present rest).map inputEntry with
      | nil =>
        simp only [inputEntry, String.intercalate, String.intercalate.go, String.append_assoc,
          String.append_empty, String.empty_append]
      | cons e l =>
        simp only [intercalate_cons_cons, inputEntry, String.append_assoc, String.empty_append]

theorem traceAll_snoc {V : Type} (P : Event V → Prop) (w : World V) (ev : Event V) (c t : Nat)
    (hw : TraceAll P w) (hev : P ev) :
    TraceAll P { trace := w.trace ++ [ev], calls := c, ticks := t } := by
  intro e he
  rcases List.mem_append.mp he with h | h
  · exact hw e h
  · rw [List.mem_singleton.mp h]; exact hev

theorem keepsAll_engineCall {V : Type} (P : Event V → Prop) (E : Env) (ev : Event V)
    (hev : P ev) : Keeps (TraceAll P) (engineCall E ev) := by
  intro w hw
  unfold engineCall
  cases E.fault w.calls <;> exact traceAll_snoc P w ev _ _ hw hev

theorem keepsAll_withInterpreter {V α : Type} (P : Event V → Prop) {body : Run V α}
    (hd : P Event.destroyInterpreter) (hb : Keeps (TraceAll P) body) :
    Keeps (TraceAll P) (withInterpreter body) := by
  intro w hw
  have h1 := hb w hw
  unfold withInterpreter
  rcases hbw : body w with ⟨r, w1⟩
  rw [hbw] at h1
  match r with
  | Except.ok a => exact traceAll_snoc P w1 _ _ _ h1 hd
  | Except.error Fault.undefined => exact h1
  | Except.error (Fault.exn what) => exact traceAll_snoc P w1 _ _ _ h1 hd

/-- C15: for every model path and whatever the engine answers, the engine calls of
`getModelInfo` are only: loading the model, creating a session whose backend type is CPU,
enumerating the inputs, releasing the session (and the interpreter is destroyed); there
is no resize, no staging or copy of an input and no `runSession` among them.  When the
engine does not fail it returns `{"inputs":[...]}` with one entry
`{"name":..,"dims":[..],"dtype":..}` per non-null input, joined by ",", where `dtype` is
"float", "int", "uint" or "unknown" according to the element type code. -/
theorem getModelInfo_inspects_only {V : Type} (F : ForwardIds) (dflt : ScheduleConfig)
    (E : Env) (modelPath : String) :
    TraceAll (fun e => e.isInfoCall F = true)
      (getModelInfo F dflt E modelPath (World.init : World V)).2 ∧
    NoExecution (getModelInfo F dflt E modelPath (World.init : World V)).2 ∧
    ((∀ k, E.fault k = none) → E.interpreter = true → E.session = true →
      (getModelInfo F dflt E modelPath (World.init : World V)).1
          = Except.ok ("\x7b\"inputs\":[" ++ ",".intercalate ((present E.inputs).map inputEntry)
              ++ "]\x7d") ∧
      (getModelInfo F dflt E modelPath (World.init : World V)).2.trace
        = [Event.createFromFile modelPath, Event.createSession { dflt with type := F.cpu },
            Event.getSessionInputAll, Event.releaseSession, Event.destroyInterpreter]) ∧
    (dtypeName HalideTypeCode.halide_type_float = "float" ∧
      dtypeName HalideTypeCode.halide_type_int = "int" ∧
      dtypeName HalideTypeCode.halide_type_uint = "uint" ∧
      ∀ code, dtypeName (HalideTypeCode.other code) = "unknown") := by
  have hall : TraceAll (fun e => e.isInfoCall F = true)
      (getModelInfo F dflt E modelPath (World.init : World V)).2 := by
    have hinit : TraceAll (fun e : Event V => e.isInfoCall F = true) World.init :=
      fun e he => by cases he
    have call : ∀ ev : Event V, ev.isInfoCall F = true →
        Keeps (TraceAll (fun e : Event V => e.isInfoCall F = true)) (engineCall E ev) :=
      fun ev h => keepsAll_engineCall _ E ev h
    refine keeps_tryCatch (keeps_bind (keeps_bind (call _ (by rfl))
        fun _ => keeps_pure _ _) fun net =>
      keeps_ite _ (keeps_throw _ _) (keepsAll_withInterpreter _ rfl
        (keeps_bind (keeps_bind (call _ ?_) fun _ => keeps_pure _ _)
          fun session => keeps_ite _ (keeps_throw _ _)
            (keeps_bind (keeps_bind (call _ (by rfl)) fun _ => keeps_pure _ _)
              fun inputs => keeps_bind (call _ (by rfl))
                fun _ => keeps_pure _ _))))
      (fun _ => keeps_pure _ _) _ hinit
    simp [Event.isInfoCall]
  refine ⟨hall, ?_, ?_, ⟨rfl, rfl, rfl, fun _ => rfl⟩⟩
  · intro e he
    have h := hall e he
    cases e <;> simp_all [Event.isInfoCall, Event.isExecution]
  · intro hE hi hs
    obtain ⟨h1, h2⟩ := @getModelInfo_run V F dflt E modelPath hE hi hs
    exact ⟨by rw [h1, inputsJson_true], h2⟩

theorem getModelInfo_inspects_only_witness :
    (getModelInfo mnnIds ⟨0, 0, 4, Precision.Precision_Normal⟩ plainEnv "m.mnn"
        (World.init : World Nat)).1
      = Except.ok ("\x7b\"inputs\":["
          ++ ",".intercalate ((present plainEnv.inputs).map inputEntry) ++ "]\x7d") ∧
    outcomeText (getModelInfo mnnIds ⟨0, 0, 4, Precision.Precision_Normal⟩ plainEnv "m.mnn"
        (World.init : World Nat))
      = some "\x7b\"inputs\":[\x7b\"name\":\"x\",\"dims\":[1,4],\"dtype\":\"float\"\x7d]\x7d" :=
  ⟨((getModelInfo_inspects_only mnnIds ⟨0, 0, 4, Precision.Precision_Normal⟩ plainEnv
      "m.mnn").2.2.1 (fun _ => rfl) rfl rfl).1, by decide⟩

/-! ## The profile report -/

theorem resultIn_pure {V : Type} (Q : String → Prop) (s : String) (h : Q s) :
    ResultIn Q (pure s : Run V String) := by
  intro w t ht
  simp only [run_pure_apply, Except.ok.injEq] at ht
  exact ht ▸ h

theorem resultIn_throw {V : Type} (Q : String → Prop) (what : String) :
    ResultIn Q (throwRuntimeError what : Run V String) := by
  intro w t ht
  simp [throwRuntimeError] at ht

theorem resultIn_bind {V α : Type} {Q : String → Prop} (m : Run V α) {f : α → Run V String}
    (hf : ∀ a, ResultIn Q (f a)) : ResultIn Q (m >>= f) := by
  intro w t ht
  rw [run_bind_apply] at ht
  rcases hmw : m w with ⟨r, w1⟩
  rw [hmw] at ht
  cases r with
  | error e => simp at ht
  | ok a => exact hf a w1 t ht

theorem resultIn_ite {V : Type} {Q : String → Prop} (c : Prop) [Decidable c]
    {m n : Run V String} (hm : ResultIn Q m) (hn : ResultIn Q n) :
    ResultIn Q (if c then m else n) := by
  split_ifs
  · exact hm
  · exact hn

theorem resultIn_withInterpreter {V : Type} {Q : String → Prop} {body : Run V String}
    (hb : ResultIn Q body) : ResultIn Q (withInterpreter body) := by
  intro w t ht
  unfold withInterpreter at ht
  rcases hbw : body w with ⟨r, w1⟩
  rw [hbw] at ht
  match r, ht with
  | Except.ok a, ht => exact hb w t (by rw [hbw]; exact ht)
  | Except.error Fault.undefined, ht => simp at ht
  | Except.error (Fault.exn what), ht => simp at ht

theorem resultIn_tryCatch {V : Type} (Q : String → Prop) (marker : String)
    {body : Run V String} (hb : ResultIn Q body) :
    ResultIn (fun s => Q s ∨ ∃ what, s = marker ++ what)
      (tryCatch body (fun what => pure (marker ++ what))) := by
  intro w t ht
  unfold tryCatch at ht
  rcases hbw : body w with ⟨r, w1⟩
  rw [hbw] at ht
  match r, ht with
  | Except.ok a, ht => exact Or.inl (hb w t (by rw [hbw]; exact ht))
  | Except.error Fault.undefined, ht => simp at ht
  | Except.error (Fault.exn what), ht =>
    simp only [run_pure_apply, Except.ok.injEq] at ht
    exact Or.inr ⟨what, ht.symm⟩

/-- The shared part of the profile entry points can only return a report without
operator records. -/
theorem resultIn_profileFinish {σ V : Type} (F : ForwardIds) (R : Sampler σ V) (E : Env)
    (cBackend : String) (cBackup : Option String) (inputFill : Option String)
    (cfg : ScheduleConfig) (t0 t1 t2_before t2 t3_before t3 : Int)
    (inputs : List (String × Option InputTensor)) :
    ResultIn (fun s => ∃ threads m outputs,
        s = profileJson F E.showMs cBackend cBackup threads m outputs [])
      (profileFinish F R E cBackend cBackup inputFill cfg t0 t1 t2_before t2 t3_before t3
        inputs : Run V String) := by
  unfold profileFinish
  refine resultIn_bind _ fun _ => resultIn_bind _ fun _ => resultIn_bind _ fun _ =>
    resultIn_bind _ fun anchor => resultIn_bind _ fun _ => resultIn_bind _ fun t4 =>
      resultIn_bind _ fun outputs => resultIn_bind _ fun _ => resultIn_pure _ _ ⟨_, _, _, rfl⟩

theorem profileJson_eq (F : ForwardIds) (showMs : Int → String) (cBackend : String)
    (cBackup : Option String) (threads : Int) (m : Metrics)
    (outputs : List (String × Option OutputTensor)) (ops : List OpPerf) :
    profileJson F showMs cBackend cBackup threads m outputs ops
      = reportHead F showMs cBackend cBackup threads m outputs
        ++ ("\"ops\":[" ++ (opsJson showMs ops 0 ++ "]\x7d")) := by
  simp only [profileJson, reportHead, String.append_assoc]

theorem profileJson_nil (F : ForwardIds) (showMs : Int → String) (cBackend : String)
    (cBackup : Option String) (threads : Int) (m : Metrics)
    (outputs : List (String × Option OutputTensor)) :
    profileJson F showMs cBackend cBackup threads m outputs []
      = reportHead F showMs cBackend cBackup threads m outputs ++ "\"ops\":[]\x7d" := by
  rw [profileJson_eq]
  rfl

/-- C19: every report that `runModelProfile` or `runModelMultiProfile` returns has an
empty operator list: the session is executed by the plain `runSession`, the lambdas
`before` and `after` are never handed to the engine, so no operator record is appended.
Whatever the model, the configuration and the answers of the engine, a returned string is
either an error string or a report that ends with `"ops":[]` behind the four durations
and the outputs; and when the engine does not fail such a report is returned. -/
theorem profile_ops_empty {σ V : Type} (F : ForwardIds) (R : Sampler σ V) (E : Env)
    (a : RunArgs) (b : MultiArgs) :
    (∀ s, (runModelProfile F R E a World.init).1 = Except.ok s →
      (∃ threads m outputs, s = profileJson F E.showMs a.backend a.backupType threads m
        outputs []) ∨ ∃ what, s = "MNN PROFILE ERROR: " ++ what) ∧
    (∀ s, (runModelMultiProfile F R E b World.init).1 = Except.ok s →
      (∃ threads m outputs, s = profileJson F E.showMs b.backend b.backupType threads m
        outputs []) ∨ ∃ what, s = "MNN PROFILE ERROR: " ++ what) ∧
    (∀ (showMs : Int → String) (cBackend : String) (cBackup : Option String) (threads : Int)
      (m : Metrics) (outputs : List (String × Option OutputTensor)),
      profileJson F showMs cBackend cBackup threads m outputs []
        = reportHead F showMs cBackend cBackup threads m outputs ++ "\"ops\":[]\x7d") ∧
    ((∀ k, E.fault k = none) → E.interpreter = true → E.session = true →
      (∃ bufs, stageInputs R (fillMode a.inputFill) E.inputs (R.seed 42) = some bufs) →
      ∃ threads m, (runModelProfile F R E a World.init).1
        = Except.ok (profileJson F E.showMs a.backend a.backupType threads m E.outputs [])) ∧
    ((∀ k, E.fault k = none) → E.interpreter = true → E.session = true →
      b.inputNames.length = b.inputShapes.length →
      (∃ bufs, stageInputs R (fillMode b.inputFill) E.inputs (R.seed 42) = some bufs) →
      ∃ threads m, (runModelMultiProfile F R E b World.init).1
        = Except.ok (profileJson F E.showMs b.backend b.backupType threads m E.outputs [])) := by
  refine ⟨?_, ?_, fun _ _ _ _ _ _ => profileJson_nil F _ _ _ _ _ _,
    fun hE hi hs ⟨bufs, hb⟩ => ⟨_, _, (runModelProfile_run F R E a hE hi hs bufs hb).1⟩,
    fun hE hi hs hl ⟨bufs, hb⟩ =>
      ⟨_, _, (runModelMultiProfile_run F R E b hE hi hs hl bufs hb).1⟩⟩
  · intro s hs
    have key : ResultIn (fun s => (∃ threads m outputs,
        s = profileJson F E.showMs a.backend a.backupType threads m outputs [])
          ∨ ∃ what, s = "MNN PROFILE ERROR: " ++ what) (runModelProfile F R E a) :=
      resultIn_bind (now E) (fun t0 => resultIn_tryCatch _ "MNN PROFILE ERROR: "
        (resultIn_bind _ fun net => resultIn_ite _ (resultIn_throw _ _)
          (resultIn_withInterpreter (resultIn_bind _ fun t1 => resultIn_bind _ fun _ =>
            resultIn_bind _ fun t2b => resultIn_bind _ fun session =>
              resultIn_ite _ (resultIn_throw _ _)
                (resultIn_bind _ fun t2 => resultIn_bind _ fun inputs =>
                  resultIn_bind _ fun _ => resultIn_bind _ fun t3b => resultIn_bind _ fun _ =>
                    resultIn_bind _ fun t3 =>
                      resultIn_profileFinish F R E _ _ _ _ _ _ _ _ _ _ _)))))
    exact key World.init s hs
  · intro s hs
    have key : ResultIn (fun s => (∃ threads m outputs,
        s = profileJson F E.showMs b.backend b.backupType threads m outputs [])
          ∨ ∃ what, s = "MNN PROFILE ERROR: " ++ what) (runModelMultiProfile F R E b) :=
      resultIn_bind (now E) (fun t0 => resultIn_tryCatch _ "MNN PROFILE ERROR: "
        (resultIn_bind _ fun net => resultIn_ite _ (resultIn_throw _ _)
          (resultIn_withInterpreter (resultIn_bind _ fun t1 => resultIn_bind _ fun _ =>
            resultIn_bind _ fun t2b => resultIn_bind _ fun session =>
              resultIn_ite _ (resultIn_throw _ _) (resultIn_bind _ fun t2 =>
                resultIn_ite _ (resultIn_throw _ _)
                  (resultIn_bind _ fun _ => resultIn_bind _ fun t3b =>
                    resultIn_bind _ fun _ => resultIn_bind _ fun t3 =>
                      resultIn_bind _ fun inputs =>
                        resultIn_profileFinish F R E _ _ _ _ _ _ _ _ _ _ _))))))
    exact key World.init s hs

theorem profile_ops_empty_witness :
    ((∃ threads m outputs,
        "\x7b\"profile\":true,\"backend\":\"CPU\",\"backup\":\"CPU\",\"threads\":4,\"metrics\":\x7b\"createInterpreter_ms\":1,\"createSession_ms\":1,\"resizeSession_ms\":1,\"runSession_ms\":1\x7d,\"outputs\":[\x7b\"name\":\"y\",\"shape\":[1,2]\x7d],\"ops\":[]\x7d"
          = profileJson mnnIds plainEnv.showMs someRunArgs.backend someRunArgs.backupType
              threads m outputs [])
      ∨ ∃ what,
        "\x7b\"profile\":true,\"backend\":\"CPU\",\"backup\":\"CPU\",\"threads\":4,\"metrics\":\x7b\"createInterpreter_ms\":1,\"createSession_ms\":1,\"resizeSession_ms\":1,\"runSession_ms\":1\x7d,\"outputs\":[\x7b\"name\":\"y\",\"shape\":[1,2]\x7d],\"ops\":[]\x7d"
          = "MNN PROFILE ERROR: " ++ what) ∧
    ∃ threads m, (runModelProfile mnnIds counterSampler plainEnv someRunArgs World.init).1
      = Except.ok (profileJson mnnIds plainEnv.showMs someRunArgs.backend
          someRunArgs.backupType threads m plainEnv.outputs []) :=
  ⟨(profile_ops_empty mnnIds counterSampler plainEnv someRunArgs matchedArgs).1 _ (by rfl),
    (profile_ops_empty mnnIds counterSampler plainEnv someRunArgs matchedArgs).2.2.2.1
      (fun _ => rfl) rfl rfl ⟨_, by rfl⟩⟩

/-! ## Durations -/

/-- C16: with a clock that never goes back, when the engine does not fail, the four
durations of the report of `runModelProfile` and of `runModelMultiProfile` (the
differences of the clock readings 0 and 1, 2 and 3, 4 and 5, 6 and 7 of the call) are all
at least 0; and an operator record made by `after` from readings taken in the order run
start, start of the operator, end of the operator, end of the run has
`0 <= start <= end <= runSession` and a duration of at least 0 (a record without a start
entry has all three at 0).  The durations are stated in ticks of the clock, before their
conversion to milliseconds. -/
theorem profile_durations_nonneg {σ V : Type} (F : ForwardIds) (R : Sampler σ V) (E : Env)
    (a : RunArgs) (b : MultiArgs) (hmono : MonotoneClock E) (hE : ∀ k, E.fault k = none)
    (hi : E.interpreter = true) (hs : E.session = true) (bufsA bufsB : List (String × Buffer V))
    (hA : stageInputs R (fillMode a.inputFill) E.inputs (R.seed 42) = some bufsA)
    (hB : stageInputs R (fillMode b.inputFill) E.inputs (R.seed 42) = some bufsB)
    (hl : b.inputNames.length = b.inputShapes.length) :
    (∃ threads m, (runModelProfile F R E a World.init).1
        = Except.ok (profileJson F E.showMs a.backend a.backupType threads m E.outputs []) ∧
      0 ≤ m.createInterpreter ∧ 0 ≤ m.createSession ∧ 0 ≤ m.resizeSession ∧
      0 ≤ m.runSession) ∧
    (∃ threads m, (runModelMultiProfile F R E b World.init).1
        = Except.ok (profileJson F E.showMs b.backend b.backupType threads m E.outputs []) ∧
      0 ≤ m.createInterpreter ∧ 0 ≤ m.createSession ∧ 0 ≤ m.resizeSession ∧
      0 ≤ m.runSession) ∧
    (∀ (gpuLabel : String) (runStartAnchor tStart tEnd t4 : Int) (tensors : List (Option Nat))
      (info : Option OperatorInfo),
      runStartAnchor ≤ tStart → tStart ≤ tEnd → tEnd ≤ t4 →
      0 ≤ (afterRecord gpuLabel runStartAnchor (some tStart) tEnd tensors info).start ∧
      (afterRecord gpuLabel runStartAnchor (some tStart) tEnd tensors info).start
        ≤ (afterRecord gpuLabel runStartAnchor (some tStart) tEnd tensors info).end_ ∧
      (afterRecord gpuLabel runStartAnchor (some tStart) tEnd tensors info).end_
        ≤ dur_ms runStartAnchor t4 ∧
      0 ≤ (afterRecord gpuLabel runStartAnchor (some tStart) tEnd tensors info).ms) ∧
    (∀ (gpuLabel : String) (runStartAnchor tEnd t4 : Int) (tensors : List (Option Nat))
      (info : Option OperatorInfo), runStartAnchor ≤ t4 →
      (afterRecord gpuLabel runStartAnchor none tEnd tensors info).start = 0 ∧
      (afterRecord gpuLabel runStartAnchor none tEnd tensors info).end_ = 0 ∧
      (afterRecord gpuLabel runStartAnchor none tEnd tensors info).ms = 0 ∧
      0 ≤ dur_ms runStartAnchor t4) := by
  have h01 := hmono 0 1 (by omega)
  have h23 := hmono 2 3 (by omega)
  have h45 := hmono 4 5 (by omega)
  have h67 := hmono 6 7 (by omega)
  refine ⟨⟨_, _, (runModelProfile_run F R E a hE hi hs bufsA hA).1, ?_, ?_, ?_, ?_⟩,
    ⟨_, _, (runModelMultiProfile_run F R E b hE hi hs hl bufsB hB).1, ?_, ?_, ?_, ?_⟩, ?_, ?_⟩
  any_goals (simp only [dur_ms]; omega)
  · intro g an ts te t4 tensors info h1 h2 h3
    simp only [afterRecord, dur_ms]
    omega
  · intro g an te t4 tensors info h1
    refine ⟨rfl, rfl, rfl, ?_⟩
    simp only [dur_ms]
    omega

theorem profile_durations_nonneg_witness :
    ∃ threads m, (runModelProfile mnnIds counterSampler plainEnv someRunArgs World.init).1
        = Except.ok (profileJson mnnIds plainEnv.showMs someRunArgs.backend
            someRunArgs.backupType threads m plainEnv.outputs []) ∧
      0 ≤ m.createInterpreter ∧ 0 ≤ m.createSession ∧ 0 ≤ m.resizeSession ∧
      0 ≤ m.runSession :=
  (profile_durations_nonneg mnnIds counterSampler plainEnv someRunArgs matchedArgs
    (fun i j h => by simpa [plainEnv] using h) (fun _ => rfl) rfl rfl
    [("x", f32Cells [1, 1, 1, 1])] [("x", List.replicate 16 (Cell.byte 0))]
    (by decide) (by decide) rfl).1

/-! ## Names the session does not know -/

theorem resizeTensor_mem_resizeNamedEvents {V : Type} (E : Env)
    (pairs : List (String × List Int)) (name : String) (shape : List Int) :
    (Event.resizeTensor name shape : Event V) ∈ resizeNamedEvents E pairs
      ↔ (name, shape) ∈ pairs ∧ E.knows name = true := by
  induction pairs with
  | nil => simp [resizeNamedEvents]
  | cons kv rest ih =>
    obtain ⟨n, sh⟩ := kv
    by_cases hk : E.knows n = true
    · simp only [resizeNamedEvents, hk, if_true, List.mem_cons, ih, Event.resizeTensor.injEq,
        Prod.mk.injEq, reduceCtorEq, false_or]
      constructor
      · rintro (⟨rfl, rfl⟩ | ⟨h1, h2⟩)
        · exact ⟨Or.inl ⟨rfl, rfl⟩, hk⟩
        · exact ⟨Or.inr h1, h2⟩
      · rintro ⟨⟨rfl, rfl⟩ | h1, h2⟩
        · exact Or.inl ⟨rfl, rfl⟩
        · exact Or.inr ⟨h1, h2⟩
    · simp only [resizeNamedEvents, hk, if_false, List.mem_cons, ih, Prod.mk.injEq,
        reduceCtorEq, false_or, Bool.false_eq_true]
      constructor
      · rintro ⟨h1, h2⟩
        exact ⟨Or.inr h1, h2⟩
      · rintro ⟨⟨rfl, rfl⟩ | h1, h2⟩
        · exact absurd h2 hk
        · exact ⟨h1, h2⟩

theorem getSessionInput_mem_resizeNamedEvents {V : Type} (E : Env)
    (pairs : List (String × List Int)) (name : String) :
    (Event.getSessionInput name : Event V) ∈ resizeNamedEvents E pairs
      ↔ name ∈ pairs.map Prod.fst := by
  induction pairs with
  | nil => simp [resizeNamedEvents]
  | cons kv rest ih =>
    obtain ⟨n, sh⟩ := kv
    by_cases hk : E.knows n = true
    · simp only [resizeNamedEvents, hk, if_true, List.mem_cons, ih, Event.getSessionInput.injEq,
        reduceCtorEq, false_or, List.map_cons]
    · simp only [resizeNamedEvents, hk, if_false, List.mem_cons, ih,
        Event.getSessionInput.injEq, List.map_cons, Bool.false_eq_true]

theorem stageInputs_names {σ V : Type} (R : Sampler σ V) (fill : String)
    (inputs : List (String × Option InputTensor)) (st : σ) (bufs : List (String × Buffer V))
    (h : stageInputs R fill inputs st = some bufs) :
    bufs.map Prod.fst = (present inputs).map Prod.fst := by
  induction inputs generalizing st bufs with
  | nil =>
    simp only [stageInputs, Option.some.injEq] at h
    subst h
    rfl
  | cons kv rest ih =>
    obtain ⟨name, ot⟩ := kv
    cases ot with
    | none => exact ih st bufs h
    | some t =>
      simp only [stageInputs] at h
      cases hfh : fillHost R fill t st with
      | none => simp [hfh] at h
      | some p =>
        obtain ⟨buf, st1⟩ := p
        simp only [hfh] at h
        cases hr : stageInputs R fill rest st1 with
        | none => simp [hr] at h
        | some bufs1 =>
          simp only [hr, Option.some.injEq] at h
          subst h
          simp [present, ih st1 bufs1 hr]

/-- C20: in `runModelMulti` and `runModelMultiProfile` with equally long name and shape
arrays, when the engine does not fail, every supplied name is looked up once per
occurrence, a resize is requested exactly for the supplied names the session knows (with
their shapes), a name the session does not know gets no resize request and produces no
error, and the run proceeds to the normal result; the fill loop stages and copies every
non-null input tensor of the session, in the order of their enumeration, whether or not a
supplied name refers to it. -/
theorem multi_unknown_names_skipped {σ V : Type} (F : ForwardIds) (R : Sampler σ V) (E : Env)
    (b : MultiArgs) (hE : ∀ k, E.fault k = none) (hi : E.interpreter = true)
    (hs : E.session = true) (hl : b.inputNames.length = b.inputShapes.length)
    (bufs : List (String × Buffer V))
    (hB : stageInputs R (fillMode b.inputFill) E.inputs (R.seed 42) = some bufs) :
    ((runModelMulti F R E b World.init).1
        = Except.ok ("MNN 3.1.0 OK backend=" ++ b.backend ++ " outputs="
            ++ summaryChecked E.outputs true) ∧
      (runModelMulti F R E b World.init).2.trace
        = Event.createFromFile b.modelPath :: (setCacheEvents b.cacheFile
          ++ Event.createSession
              (buildScheduleConfig F b.backend b.backupType b.threads b.precisionMode)
            :: (resizeNamedEvents E (b.inputNames.zip b.inputShapes)
          ++ Event.resizeSession :: Event.getSessionInputAll :: (stagingEvents bufs
          ++ [Event.runSession, Event.getSessionOutputAll, Event.releaseSession,
              Event.destroyInterpreter])))) ∧
    ((∃ threads m, (runModelMultiProfile F R E b World.init).1
        = Except.ok (profileJson F E.showMs b.backend b.backupType threads m E.outputs [])) ∧
      (runModelMultiProfile F R E b World.init).2.trace
        = Event.createFromFile b.modelPath :: (setCacheEvents b.cacheFile
          ++ Event.createSession
              (buildScheduleConfig F b.backend b.backupType b.threads b.precisionMode)
            :: (resizeNamedEvents E (b.inputNames.zip b.inputShapes)
          ++ Event.resizeSession :: Event.getSessionInputAll :: (stagingEvents bufs
          ++ [Event.getSessionInfoThreads, Event.getSessionInfoBackends, Event.runSession,
              Event.getSessionOutputAll, Event.releaseSession,
              Event.destroyInterpreter])))) ∧
    (∀ name shape, E.knows name = false →
      (Event.resizeTensor name shape : Event V)
        ∉ resizeNamedEvents E (b.inputNames.zip b.inputShapes)) ∧
    (∀ name shape, (Event.resizeTensor name shape : Event V)
        ∈ resizeNamedEvents E (b.inputNames.zip b.inputShapes)
      ↔ (name, shape) ∈ b.inputNames.zip b.inputShapes ∧ E.knows name = true) ∧
    (∀ name, (Event.getSessionInput name : Event V)
        ∈ resizeNamedEvents E (b.inputNames.zip b.inputShapes) ↔ name ∈ b.inputNames) ∧
    bufs.map Prod.fst = (present E.inputs).map Prod.fst := by
  refine ⟨runModelMulti_run F R E b hE hi hs hl bufs hB,
    ⟨⟨_, _, (runModelMultiProfile_run F R E b hE hi hs hl bufs hB).1⟩,
      (runModelMultiProfile_run F R E b hE hi hs hl bufs hB).2⟩, ?_,
    fun name shape => resizeTensor_mem_resizeNamedEvents E _ name shape, ?_,
    stageInputs_names R _ _ _ _ hB⟩
  · intro name shape hk hm
    have := ((resizeTensor_mem_resizeNamedEvents E _ name shape).mp hm).2
    rw [hk] at this
    cases this
  · intro name
    rw [getSessionInput_mem_resizeNamedEvents, List.map_fst_zip _ _ (le_of_eq hl)]

/-- An engine that knows the input `x` only and has a second input `z`, of four bytes of
integer type, that no supplied name refers to. -/
theorem multi_unknown_names_skipped_witness :
    (runModelMulti mnnIds counterSampler
        { plainEnv with inputs := plainEnv.inputs
            ++ [("z", some ⟨4, 1, HalideTypeCode.halide_type_int, [1]⟩)] }
        { matchedArgs with inputNames := ["ghost", "x"], inputShapes := [[7], [1, 4]] }
        World.init).2.trace
      = [Event.createFromFile "m.mnn",
          Event.createSession (buildScheduleConfig mnnIds "CPU" (some "CPU") 1 (some "NORMAL")),
          Event.getSessionInput "ghost", Event.getSessionInput "x",
          Event.resizeTensor "x" [1, 4], Event.resizeSession, Event.getSessionInputAll,
          Event.hostTensor "x", Event.copyFromHostTensor "x" (List.replicate 16 (Cell.byte 0)),
          Event.hostTensor "z", Event.copyFromHostTensor "z" (List.replicate 4 (Cell.byte 0)),
          Event.runSession, Event.getSessionOutputAll, Event.releaseSession,
          Event.destroyInterpreter] :=
  ((multi_unknown_names_skipped mnnIds counterSampler
      { plainEnv with inputs := plainEnv.inputs
          ++ [("z", some ⟨4, 1, HalideTypeCode.halide_type_int, [1]⟩)] }
      { matchedArgs with inputNames := ["ghost", "x"], inputShapes := [[7], [1, 4]] }
      (fun _ => rfl) rfl rfl rfl
      [("x", List.replicate 16 (Cell.byte 0)), ("z", List.replicate 4 (Cell.byte 0))]
      (by decide)).1.2).trans (by decide)

/-! ## Faults and the strings they become -/

theorem noFaultIn_trans {E : Env} {a b c : Nat} (h1 : NoFaultIn E a b) (h2 : NoFaultIn E b c) :
    NoFaultIn E a c := by
  intro k hk1 hk2
  by_cases h : k < b
  · exact h1 k hk1 h
  · exact h2 k (by omega) hk2

theorem firstFaultIn_mono {E : Env} {a b c : Nat} {what : String} (h : FirstFaultIn E a b what)
    (hbc : b ≤ c) : FirstFaultIn E a c what := by
  obtain ⟨k, h1, h2, h3, h4⟩ := h
  exact ⟨k, h1, by omega, h3, h4⟩

theorem firstFaultIn_shift {E : Env} {a b c : Nat} {what : String} (h1 : NoFaultIn E a b)
    (hab : a ≤ b) (h : FirstFaultIn E b c what) : FirstFaultIn E a c what := by
  obtain ⟨k, k1, k2, k3, k4⟩ := h
  exact ⟨k, by omega, k2, k3, noFaultIn_trans h1 k4⟩

theorem accounted_pure {V α : Type} (E : Env) (a : α) : Accounted E (pure a : Run V α) := by
  intro w
  refine ⟨le_refl _, ?_, ?_⟩
  · intro what h
    simp [run_pure_apply] at h
  · intro _ k h1 h2
    simp only [run_pure_apply] at h2
    omega

theorem accounted_now {V : Type} (E : Env) : Accounted E (now E : Run V Int) := by
  intro w
  refine ⟨le_refl _, ?_, ?_⟩
  · intro what h
    simp [now] at h
  · intro _ k h1 h2
    simp only [now] at h2
    omega

theorem accounted_throw {V α : Type} (E : Env) (what : String) (h : what ∈ bridgeMessages) :
    Accounted E (throwRuntimeError what : Run V α) := by
  intro w
  refine ⟨le_refl _, ?_, ?_⟩
  · intro what1 h1
    simp only [throwRuntimeError, Except.error.injEq, Fault.exn.injEq] at h1
    subst h1
    refine Or.inr ⟨h, ?_⟩
    intro k h1 h2
    simp only [throwRuntimeError] at h2
    omega
  · intro _ k h1 h2
    simp only [throwRuntimeError] at h2
    omega

theorem accounted_undefined {V α : Type} (E : Env) :
    Accounted E (undefinedBehaviour : Run V α) := by
  intro w
  refine ⟨le_refl _, ?_, ?_⟩
  · intro what h
    simp [undefinedBehaviour] at h
  · intro _ k h1 h2
    simp only [undefinedBehaviour] at h2
    omega

theorem accounted_engineCall {V : Type} (E : Env) (ev : Event V) :
    Accounted E (engineCall E ev) := by
  intro w
  unfold engineCall
  cases hf : E.fault w.calls with
  | none =>
    refine ⟨by simp, ?_, ?_⟩
    · intro what h
      simp at h
    · intro _ k h1 h2
      have : k = w.calls := by simp at h2; omega
      rw [this, hf]
  | some what =>
    refine ⟨by simp, ?_, ?_⟩
    · intro what1 h
      simp only [Except.error.injEq, Fault.exn.injEq] at h
      subst h
      exact Or.inl ⟨w.calls, le_refl _, by simp, hf, fun k h1 h2 => by omega⟩
    · intro h
      exact absurd rfl (h what)

theorem accounted_bind {V α β : Type} {E : Env} {m : Run V α} {f : α → Run V β}
    (hm : Accounted E m) (hf : ∀ a, Accounted E (f a)) : Accounted E (m >>= f) := by
  intro w
  obtain ⟨m1, m2, m3⟩ := hm w
  rw [run_bind_apply]
  rcases hmw : m w with ⟨r, w1⟩
  rw [hmw] at m1 m2 m3
  cases r with
  | error e =>
    dsimp only
    refine ⟨m1, ?_, ?_⟩
    · intro what h
      cases h
      exact m2 what rfl
    · intro h
      exact m3 (fun what h2 => h what (by cases h2; rfl))
  | ok a =>
    dsimp only
    obtain ⟨f1, f2, f3⟩ := hf a w1
    have hno : NoFaultIn E w.calls w1.calls := m3 (fun what h => by cases h)
    refine ⟨le_trans m1 f1, ?_, ?_⟩
    · intro what h
      rcases f2 what h with h1 | ⟨h1, h2⟩
      · exact Or.inl (firstFaultIn_shift hno m1 h1)
      · exact Or.inr ⟨h1, noFaultIn_trans hno h2⟩
    · intro h
      exact noFaultIn_trans hno (f3 h)

theorem accounted_ite {V α : Type} {E : Env} (c : Prop) [Decidable c] {m n : Run V α}
    (hm : Accounted E m) (hn : Accounted E n) : Accounted E (if c then m else n) := by
  split_ifs
  · exact hm
  · exact hn

theorem accounted_withInterpreter {V α : Type} {E : Env} {body : Run V α}
    (hb : Accounted E body) : Accounted E (withInterpreter body) := by
  intro w
  obtain ⟨b1, b2, b3⟩ := hb w
  unfold withInterpreter
  rcases hbw : body w with ⟨r, w1⟩
  rw [hbw] at b1 b2 b3
  match r, b2, b3 with
  | Except.ok a, b2, b3 => exact ⟨b1, b2, b3⟩
  | Except.error Fault.undefined, b2, b3 => exact ⟨b1, b2, b3⟩
  | Except.error (Fault.exn what), b2, b3 => exact ⟨b1, b2, b3⟩

theorem accounted_createFromFile {V : Type} (E : Env) (p : String) :
    Accounted E (createFromFile E p : Run V Bool) :=
  accounted_bind (accounted_engineCall E _) (fun _ => accounted_pure E _)

theorem accounted_createSession {V : Type} (E : Env) (cfg : ScheduleConfig) :
    Accounted E (createSession E cfg : Run V Bool) :=
  accounted_bind (accounted_engineCall E _) (fun _ => accounted_pure E _)

theorem accounted_getSessionInputAll {V : Type} (E : Env) :
    Accounted E (getSessionInputAll E : Run V (List (String × Option InputTensor))) :=
  accounted_bind (accounted_engineCall E _) (fun _ => accounted_pure E _)

theorem accounted_getSessionOutputAll {V : Type} (E : Env) :
    Accounted E (getSessionOutputAll E : Run V (List (String × Option OutputTensor))) :=
  accounted_bind (accounted_engineCall E _) (fun _ => accounted_pure E _)

theorem accounted_setCache {V : Type} (E : Env) (c : Option String) :
    Accounted E (setCache E c : Run V Unit) := by
  cases c with
  | none => exact accounted_pure E _
  | some s =>
    show Accounted E (if s.length > 0 then engineCall E (Event.setCacheFile s) else pure ())
    exact accounted_ite _ (accounted_engineCall E _) (accounted_pure E _)

theorem accounted_resizeAll {V : Type} (E : Env) (shape : List Int)
    (inputs : List (String × Option InputTensor)) :
    Accounted E (resizeAll E shape inputs : Run V Unit) := by
  induction inputs with
  | nil => exact accounted_pure E _
  | cons kv rest ih =>
    obtain ⟨name, ot⟩ := kv
    cases ot with
    | none => exact ih
    | some t => exact accounted_bind (accounted_engineCall E _) (fun _ => ih)

theorem accounted_resizeNamed {V : Type} (E : Env) (pairs : List (String × List Int)) :
    Accounted E (resizeNamed E pairs : Run V Unit) := by
  induction pairs with
  | nil => exact accounted_pure E _
  | cons kv rest ih =>
    obtain ⟨cname, shape⟩ := kv
    exact accounted_bind (accounted_engineCall E _) (fun _ =>
      accounted_ite _ (accounted_bind (accounted_engineCall E _) (fun _ => ih))
        (accounted_bind (accounted_pure E _) (fun _ => ih)))

theorem accounted_stageLoop {σ V : Type} (E : Env) (R : Sampler σ V) (fill : String)
    (inputs : List (String × Option InputTensor)) (st : σ) :
    Accounted E (stageLoop E R fill inputs st : Run V Unit) := by
  induction inputs generalizing st with
  | nil => exact accounted_pure E _
  | cons kv rest ih =>
    obtain ⟨name, ot⟩ := kv
    cases ot with
    | none => exact ih st
    | some t =>
      refine accounted_bind (accounted_engineCall E _) (fun _ => ?_)
      cases hfh : fillHost R fill t st with
      | none => exact accounted_undefined E
      | some p => exact accounted_bind (accounted_engineCall E _) (fun _ => ih p.2)

theorem accounted_runBody {σ V : Type} (R : Sampler σ V) (E : Env) (a : RunArgs) :
    Accounted E (runBody R E a : Run V String) := by
  unfold runBody
  refine accounted_bind (accounted_getSessionInputAll E) fun inputs =>
    accounted_bind (accounted_resizeAll E _ _) fun _ =>
      accounted_bind (accounted_engineCall E _) fun _ =>
        accounted_bind (accounted_stageLoop E R _ _ _) fun _ =>
          accounted_bind (accounted_engineCall E _) fun _ =>
            accounted_bind (accounted_getSessionOutputAll E) fun outputs => ?_
  cases summaryUnchecked outputs true with
  | none => exact accounted_undefined E
  | some out => exact accounted_bind (accounted_engineCall E _) fun _ => accounted_pure E _

theorem accounted_profileFinish {σ V : Type} (F : ForwardIds) (R : Sampler σ V) (E : Env)
    (cBackend : String) (cBackup : Option String) (inputFill : Option String)
    (cfg : ScheduleConfig) (t0 t1 t2_before t2 t3_before t3 : Int)
    (inputs : List (String × Option InputTensor)) :
    Accounted E (profileFinish F R E cBackend cBackup inputFill cfg t0 t1 t2_before t2
      t3_before t3 inputs : Run V String) := by
  unfold profileFinish
  exact accounted_bind (accounted_stageLoop E R _ _ _) fun _ =>
    accounted_bind (accounted_engineCall E _) fun _ =>
      accounted_bind (accounted_engineCall E _) fun _ =>
        accounted_bind (accounted_now E) fun _ =>
          accounted_bind (accounted_engineCall E _) fun _ =>
            accounted_bind (accounted_now E) fun _ =>
              accounted_bind (accounted_getSessionOutputAll E) fun _ =>
                accounted_bind (accounted_engineCall E _) fun _ => accounted_pure E _

theorem accounted_profileBody {σ V : Type} (F : ForwardIds) (R : Sampler σ V) (E : Env)
    (a : RunArgs) (cfg : ScheduleConfig) (t0 t1 t2_before : Int) :
    Accounted E (profileBody F R E a cfg t0 t1 t2_before : Run V String) := by
  unfold profileBody
  exact accounted_bind (accounted_now E) fun _ =>
    accounted_bind (accounted_getSessionInputAll E) fun _ =>
      accounted_bind (accounted_resizeAll E _ _) fun _ =>
        accounted_bind (accounted_now E) fun _ =>
          accounted_bind (accounted_engineCall E _) fun _ =>
            accounted_bind (accounted_now E) fun _ =>
              accounted_profileFinish F R E _ _ _ _ _ _ _ _ _ _ _

theorem accounted_multiBody {σ V : Type} (R : Sampler σ V) (E : Env) (a : MultiArgs) :
    Accounted E (multiBody R E a : Run V String) := by
  unfold multiBody
  exact accounted_bind (accounted_resizeNamed E _) fun _ =>
    accounted_bind (accounted_engineCall E _) fun _ =>
      accounted_bind (accounted_getSessionInputAll E) fun _ =>
        accounted_bind (accounted_stageLoop E R _ _ _) fun _ =>
          accounted_bind (accounted_engineCall E _) fun _ =>
            accounted_bind (accounted_getSessionOutputAll E) fun _ =>
              accounted_bind (accounted_engineCall E _) fun _ => accounted_pure E _

theorem accounted_multiProfileBody {σ V : Type} (F : ForwardIds) (R : Sampler σ V) (E : Env)
    (a : MultiArgs) (cfg : ScheduleConfig) (t0 t1 t2_before t2 : Int) :
    Accounted E (multiProfileBody F R E a cfg t0 t1 t2_before t2 : Run V String) := by
  unfold multiProfileBody
  exact accounted_bind (accounted_resizeNamed E _) fun _ =>
    accounted_bind (accounted_now E) fun _ =>
      accounted_bind (accounted_engineCall E _) fun _ =>
        accounted_bind (accounted_now E) fun _ =>
          accounted_bind (accounted_getSessionInputAll E) fun _ =>
            accounted_profileFinish F R E _ _ _ _ _ _ _ _ _ _ _

/-- A `try` block that accounts for the faults of the engine, with a handler that
returns the marker and the message, settles them. -/
theorem settled_tryCatch {V : Type} {E : Env} (marker : String) {body : Run V String}
    (hb : Accounted E body) :
    Settled E marker (tryCatch body (fun what => pure (marker ++ what))) := by
  intro w
  obtain ⟨b1, b2, b3⟩ := hb w
  unfold tryCatch
  rcases hbw : body w with ⟨r, w1⟩
  rw [hbw] at b1 b2 b3
  have clash : ∀ k what, w.calls ≤ k → E.fault k = some what → k < w1.calls →
      ¬ NoFaultIn E w.calls w1.calls := by
    intro k what h1 h2 h3 h4
    rw [h4 k h1 h3] at h2
    cases h2
  match r, b2, b3 with
  | Except.ok a, b2, b3 =>
    refine ⟨fun what h => (by cases h), ?_⟩
    intro k what h1 h2 _ h4
    exact absurd (b3 (fun what h => by cases h)) (clash k what h1 h2 h4)
  | Except.error Fault.undefined, b2, b3 =>
    refine ⟨fun what h => (by cases h), ?_⟩
    intro k what h1 h2 _ h4
    exact absurd (b3 (fun what h => by cases h)) (clash k what h1 h2 h4)
  | Except.error (Fault.exn what0), b2, b3 =>
    refine ⟨fun what h => (by cases h), ?_⟩
    intro k what h1 h2 h3 h4
    simp only [run_pure_apply] at h4 ⊢
    rcases b2 what0 rfl with ⟨k0, c1, c2, c3, c4⟩ | ⟨_, c⟩
    · have hk : k = k0 := by
        by_contra hne
        rcases Nat.lt_or_gt_of_ne hne with hlt | hgt
        · rw [c4 k h1 hlt] at h2
          cases h2
        · rw [h3 k0 c1 hgt] at c3
          cases c3
      subst hk
      rw [h2] at c3
      cases c3
      rfl
    · exact absurd c (clash k what h1 h2 h4)

theorem settled_now {V : Type} {E : Env} (marker : String) {f : Int → Run V String}
    (hf : ∀ t, Settled E marker (f t)) : Settled E marker (now E >>= f) := by
  intro w
  exact hf (E.clock w.ticks) { w with ticks := w.ticks + 1 }

theorem settled_runModel {σ V : Type} (F : ForwardIds) (R : Sampler σ V) (E : Env)
    (a : RunArgs) : Settled E "MNN ERROR: " (runModel F R E a : Run V String) :=
  settled_tryCatch _ (accounted_bind (accounted_createFromFile E _) fun _ =>
    accounted_ite _ (accounted_throw E _ (by decide)) (accounted_withInterpreter
      (accounted_bind (accounted_setCache E _) fun _ =>
        accounted_bind (accounted_createSession E _) fun _ =>
          accounted_ite _ (accounted_throw E _ (by decide)) (accounted_runBody R E a))))

theorem settled_runModelProfile {σ V : Type} (F : ForwardIds) (R : Sampler σ V) (E : Env)
    (a : RunArgs) : Settled E "MNN PROFILE ERROR: " (runModelProfile F R E a : Run V String) :=
  settled_now _ fun t0 =>
    settled_tryCatch _ (accounted_bind (accounted_createFromFile E _) fun _ =>
      accounted_ite _ (accounted_throw E _ (by decide)) (accounted_withInterpreter
        (accounted_bind (accounted_now E) fun _ =>
          accounted_bind (accounted_setCache E _) fun _ =>
            accounted_bind (accounted_now E) fun _ =>
              accounted_bind (accounted_createSession E _) fun _ =>
                accounted_ite _ (accounted_throw E _ (by decide))
                  (accounted_profileBody F R E a _ _ _ _))))

theorem settled_runModelMulti {σ V : Type} (F : ForwardIds) (R : Sampler σ V) (E : Env)
    (a : MultiArgs) : Settled E "MNN ERROR: " (runModelMulti F R E a : Run V String) :=
  settled_tryCatch _ (accounted_bind (accounted_createFromFile E _) fun _ =>
    accounted_ite _ (accounted_throw E _ (by decide)) (accounted_withInterpreter
      (accounted_bind (accounted_setCache E _) fun _ =>
        accounted_bind (accounted_createSession E _) fun _ =>
          accounted_ite _ (accounted_throw E _ (by decide))
            (accounted_ite _ (accounted_throw E _ (by decide)) (accounted_multiBody R E a)))))

theorem settled_runModelMultiProfile {σ V : Type} (F : ForwardIds) (R : Sampler σ V) (E : Env)
    (a : MultiArgs) :
    Settled E "MNN PROFILE ERROR: " (runModelMultiProfile F R E a : Run V String) :=
  settled_now _ fun t0 =>
    settled_tryCatch _ (accounted_bind (accounted_createFromFile E _) fun _ =>
      accounted_ite _ (accounted_throw E _ (by decide)) (accounted_withInterpreter
        (accounted_bind (accounted_now E) fun _ =>
          accounted_bind (accounted_setCache E _) fun _ =>
            accounted_bind (accounted_now E) fun _ =>
              accounted_bind (accounted_createSession E _) fun _ =>
                accounted_ite _ (accounted_throw E _ (by decide))
                  (accounted_bind (accounted_now E) fun _ =>
                    accounted_ite _ (accounted_throw E _ (by decide))
                      (accounted_multiProfileBody F R E a _ _ _ _ _)))))

theorem runModel_no_interpreter {σ V : Type} (F : ForwardIds) (R : Sampler σ V) (E : Env)
    (a : RunArgs) (h0 : E.fault 0 = none) (hi : E.interpreter = false) :
    ((runModel F R E a : Run V String) World.init).1
      = Except.ok ("MNN ERROR: " ++ "Failed to create interpreter") := by
  simp only [runModel, runModelProfile, runModelMulti, runModelMultiProfile, tryCatch,
      withInterpreter, run_bind_apply, createFromFile, createSession, setCache, engineCall,
      throwRuntimeError, run_pure_apply, World.init, now, h0, hi, ne_eq, not_false_eq_true,
      if_true, Bool.not_true, Bool.not_false, Bool.false_eq_true, if_false, Nat.zero_add]

theorem runModel_no_session {σ V : Type} (F : ForwardIds) (R : Sampler σ V) (E : Env)
    (a : RunArgs) (hi : E.interpreter = true) (hs : E.session = false)
    (hf : ∀ k, k < 3 → E.fault k = none) :
    ((runModel F R E a : Run V String) World.init).1
      = Except.ok ("MNN ERROR: " ++ "Failed to create session") := by
  have h0 := hf 0 (by omega)
  have h1 := hf 1 (by omega)
  have h2 := hf 2 (by omega)
  rcases hc : a.cacheFile with _ | c
  · simp only [runModel, runModelProfile, runModelMulti, runModelMultiProfile, tryCatch,
      withInterpreter, run_bind_apply, createFromFile, createSession, setCache, engineCall,
      throwRuntimeError, run_pure_apply, World.init, now, hc, hi, hs, h0, h1, h2, ne_eq, not_false_eq_true,
      if_true, Bool.not_true, Bool.not_false, Bool.false_eq_true, if_false, Nat.zero_add]
  · by_cases hl : c.length > 0
    · simp only [runModel, runModelProfile, runModelMulti, runModelMultiProfile, tryCatch,
      withInterpreter, run_bind_apply, createFromFile, createSession, setCache, engineCall,
      throwRuntimeError, run_pure_apply, World.init, now, hc, hi, hs, h0, h1, h2, hl, ne_eq, not_false_eq_true,
      if_true, Bool.not_true, Bool.not_false, Bool.false_eq_true, if_false, Nat.zero_add]
    · simp only [runModel, runModelProfile, runModelMulti, runModelMultiProfile, tryCatch,
      withInterpreter, run_bind_apply, createFromFile, createSession, setCache, engineCall,
      throwRuntimeError, run_pure_apply, World.init, now, hc, hi, hs, h0, h1, h2, hl, ne_eq, not_false_eq_true,
      if_true, Bool.not_true, Bool.not_false, Bool.false_eq_true, if_false, Nat.zero_add]

theorem convertsFaults_runModel {σ V : Type} (F : ForwardIds) (R : Sampler σ V) (E : Env)
    (a : RunArgs) : ConvertsFaults E "MNN ERROR: " (runModel F R E a : Run V String) :=
  ⟨(settled_runModel F R E a World.init).1,
    fun k what h1 h2 h3 => (settled_runModel F R E a World.init).2 k what (Nat.zero_le k) h1 h2 h3,
    runModel_no_interpreter F R E a, runModel_no_session F R E a⟩

theorem runModelProfile_no_interpreter {σ V : Type} (F : ForwardIds) (R : Sampler σ V) (E : Env)
    (a : RunArgs) (h0 : E.fault 0 = none) (hi : E.interpreter = false) :
    ((runModelProfile F R E a : Run V String) World.init).1
      = Except.ok ("MNN PROFILE ERROR: " ++ "Failed to create interpreter") := by
  simp only [runModel, runModelProfile, runModelMulti, runModelMultiProfile, tryCatch,
      withInterpreter, run_bind_apply, createFromFile, createSession, setCache, engineCall,
      throwRuntimeError, run_pure_apply, World.init, now, h0, hi, ne_eq, not_false_eq_true,
      if_true, Bool.not_true, Bool.not_false, Bool.false_eq_true, if_false, Nat.zero_add]

theorem runModelProfile_no_session {σ V : Type} (F : ForwardIds) (R : Sampler σ V) (E : Env)
    (a : RunArgs) (hi : E.interpreter = true) (hs : E.session = false)
    (hf : ∀ k, k < 3 → E.fault k = none) :
    ((runModelProfile F R E a : Run V String) World.init).1
      = Except.ok ("MNN PROFILE ERROR: " ++ "Failed to create session") := by
  have h0 := hf 0 (by omega)
  have h1 := hf 1 (by omega)
  have h2 := hf 2 (by omega)
  rcases hc : a.cacheFile with _ | c
  · simp only [runModel, runModelProfile, runModelMulti, runModelMultiProfile, tryCatch,
      withInterpreter, run_bind_apply, createFromFile, createSession, setCache, engineCall,
      throwRuntimeError, run_pure_apply, World.init, now, hc, hi, hs, h0, h1, h2, ne_eq, not_false_eq_true,
      if_true, Bool.not_true, Bool.not_false, Bool.false_eq_true, if_false, Nat.zero_add]
  · by_cases hl : c.length > 0
    · simp only [runModel, runModelProfile, runModelMulti, runModelMultiProfile, tryCatch,
      withInterpreter, run_bind_apply, createFromFile, createSession, setCache, engineCall,
      throwRuntimeError, run_pure_apply, World.init, now, hc, hi, hs, h0, h1, h2, hl, ne_eq, not_false_eq_true,
      if_true, Bool.not_true, Bool.not_false, Bool.false_eq_true, if_false, Nat.zero_add]
    · simp only [runModel, runModelProfile, runModelMulti, runModelMultiProfile, tryCatch,
      withInterpreter, run_bind_apply, createFromFile, createSession, setCache, engineCall,
      throwRuntimeError, run_pure_apply, World.init, now, hc, hi, hs, h0, h1, h2, hl, ne_eq, not_false_eq_true,
      if_true, Bool.not_true, Bool.not_false, Bool.false_eq_true, if_false, Nat.zero_add]

theorem convertsFaults_runModelProfile {σ V : Type} (F : ForwardIds) (R : Sampler σ V) (E : Env)
    (a : RunArgs) : ConvertsFaults E "MNN PROFILE ERROR: " (runModelProfile F R E a : Run V String) :=
  ⟨(settled_runModelProfile F R E a World.init).1,
    fun k what h1 h2 h3 => (settled_runModelProfile F R E a World.init).2 k what (Nat.zero_le k) h1 h2 h3,
    runModelProfile_no_interpreter F R E a, runModelProfile_no_session F R E a⟩

theorem runModelMulti_no_interpreter {σ V : Type} (F : ForwardIds) (R : Sampler σ V) (E : Env)
    (a : MultiArgs) (h0 : E.fault 0 = none) (hi : E.interpreter = false) :
    ((runModelMulti F R E a : Run V String) World.init).1
      = Except.ok ("MNN ERROR: " ++ "Failed to create interpreter") := by
  simp only [runModel, runModelProfile, runModelMulti, runModelMultiProfile, tryCatch,
      withInterpreter, run_bind_apply, createFromFile, createSession, setCache, engineCall,
      throwRuntimeError, run_pure_apply, World.init, now, h0, hi, ne_eq, not_false_eq_true,
      if_true, Bool.not_true, Bool.not_false, Bool.false_eq_true, if_false, Nat.zero_add]

theorem runModelMulti_no_session {σ V : Type} (F : ForwardIds) (R : Sampler σ V) (E : Env)
    (a : MultiArgs) (hi : E.interpreter = true) (hs : E.session = false)
    (hf : ∀ k, k < 3 → E.fault k = none) :
    ((runModelMulti F R E a : Run V String) World.init).1
      = Except.ok ("MNN ERROR: " ++ "Failed to create session") := by
  have h0 := hf 0 (by omega)
  have h1 := hf 1 (by omega)
  have h2 := hf 2 (by omega)
  rcases hc : a.cacheFile with _ | c
  · simp only [runModel, runModelProfile, runModelMulti, runModelMultiProfile, tryCatch,
      withInterpreter, run_bind_apply, createFromFile, createSession, setCache, engineCall,
      throwRuntimeError, run_pure_apply, World.init, now, hc, hi, hs, h0, h1, h2, ne_eq, not_false_eq_true,
      if_true, Bool.not_true, Bool.not_false, Bool.false_eq_true, if_false, Nat.zero_add]
  · by_cases hl : c.length > 0
    · simp only [runModel, runModelProfile, runModelMulti, runModelMultiProfile, tryCatch,
      withInterpreter, run_bind_apply, createFromFile, createSession, setCache, engineCall,
      throwRuntimeError, run_pure_apply, World.init, now, hc, hi, hs, h0, h1, h2, hl, ne_eq, not_false_eq_true,
      if_true, Bool.not_true, Bool.not_false, Bool.false_eq_true, if_false, Nat.zero_add]
    · simp only [runModel, runModelProfile, runModelMulti, runModelMultiProfile, tryCatch,
      withInterpreter, run_bind_apply, createFromFile, createSession, setCache, engineCall,
      throwRuntimeError, run_pure_apply, World.init, now, hc, hi, hs, h0, h1, h2, hl, ne_eq, not_false_eq_true,
      if_true, Bool.not_true, Bool.not_false, Bool.false_eq_true, if_false, Nat.zero_add]

theorem convertsFaults_runModelMulti {σ V : Type} (F : ForwardIds) (R : Sampler σ V) (E : Env)
    (a : MultiArgs) : ConvertsFaults E "MNN ERROR: " (runModelMulti F R E a : Run V String) :=
  ⟨(settled_runModelMulti F R E a World.init).1,
    fun k what h1 h2 h3 => (settled_runModelMulti F R E a World.init).2 k what (Nat.zero_le k) h1 h2 h3,
    runModelMulti_no_interpreter F R E a, runModelMulti_no_session F R E a⟩

theorem runModelMultiProfile_no_interpreter {σ V : Type} (F : ForwardIds) (R : Sampler σ V) (E : Env)
    (a : MultiArgs) (h0 : E.fault 0 = none) (hi : E.interpreter = false) :
    ((runModelMultiProfile F R E a : Run V String) World.init).1
      = Except.ok ("MNN PROFILE ERROR: " ++ "Failed to create interpreter") := by
  simp only [runModel, runModelProfile, runModelMulti, runModelMultiProfile, tryCatch,
      withInterpreter, run_bind_apply, createFromFile, createSession, setCache, engineCall,
      throwRuntimeError, run_pure_apply, World.init, now, h0, hi, ne_eq, not_false_eq_true,
      if_true, Bool.not_true, Bool.not_false, Bool.false_eq_true, if_false, Nat.zero_add]

theorem runModelMultiProfile_no_session {σ V : Type} (F : ForwardIds) (R : Sampler σ V) (E : Env)
    (a : MultiArgs) (hi : E.interpreter = true) (hs : E.session = false)
    (hf : ∀ k, k < 3 → E.fault k = none) :
    ((runModelMultiProfile F R E a : Run V String) World.init).1
      = Except.ok ("MNN PROFILE ERROR: " ++ "Failed to create session") := by
  have h0 := hf 0 (by omega)
  have h1 := hf 1 (by omega)
  have h2 := hf 2 (by omega)
  rcases hc : a.cacheFile with _ | c
  · simp only [runModel, runModelProfile, runModelMulti, runModelMultiProfile, tryCatch,
      withInterpreter, run_bind_apply, createFromFile, createSession, setCache, engineCall,
      throwRuntimeError, run_pure_apply, World.init, now, hc, hi, hs, h0, h1, h2, ne_eq, not_false_eq_true,
      if_true, Bool.not_true, Bool.not_false, Bool.false_eq_true, if_false, Nat.zero_add]
  · by_cases hl : c.length > 0
    · simp only [runModel, runModelProfile, runModelMulti, runModelMultiProfile, tryCatch,
      withInterpreter, run_bind_apply, createFromFile, createSession, setCache, engineCall,
      throwRuntimeError, run_pure_apply, World.init, now, hc, hi, hs, h0, h1, h2, hl, ne_eq, not_false_eq_true,
      if_true, Bool.not_true, Bool.not_false, Bool.false_eq_true, if_false, Nat.zero_add]
    · simp only [runModel, runModelProfile, runModelMulti, runModelMultiProfile, tryCatch,
      withInterpreter, run_bind_apply, createFromFile, createSession, setCache, engineCall,
      throwRuntimeError, run_pure_apply, World.init, now, hc, hi, hs, h0, h1, h2, hl, ne_eq, not_false_eq_true,
      if_true, Bool.not_true, Bool.not_false, Bool.false_eq_true, if_false, Nat.zero_add]

theorem convertsFaults_runModelMultiProfile {σ V : Type} (F : ForwardIds) (R : Sampler σ V) (E : Env)
    (a : MultiArgs) : ConvertsFaults E "MNN PROFILE ERROR: " (runModelMultiProfile F R E a : Run V String) :=
  ⟨(settled_runModelMultiProfile F R E a World.init).1,
    fun k what h1 h2 h3 => (settled_runModelMultiProfile F R E a World.init).2 k what (Nat.zero_le k) h1 h2 h3,
    runModelMultiProfile_no_interpreter F R E a, runModelMultiProfile_no_session F R E a⟩

/-- C12: each of the four run entry points converts the faults raised inside it into its
return value.  It never lets an exception out; when a call it makes to the engine is the
first one to throw, with message `what`, it returns its marker followed by `what`; when
the model cannot be loaded it returns the marker followed by
"Failed to create interpreter", and when the session cannot be created the marker
followed by "Failed to create session".  The marker is "MNN ERROR: " for `runModel` and
`runModelMulti` and "MNN PROFILE ERROR: " for `runModelProfile` and
`runModelMultiProfile`.  The multi-input entry points return the marker followed by
"names/shapes length mismatch" when the two lists differ in length. -/
theorem faults_become_error_strings {σ V : Type} (F : ForwardIds) (R : Sampler σ V) (E : Env)
    (a : RunArgs) (b : MultiArgs) :
    ConvertsFaults E "MNN ERROR: " (runModel F R E a : Run V String) ∧
    ConvertsFaults E "MNN PROFILE ERROR: " (runModelProfile F R E a : Run V String) ∧
    ConvertsFaults E "MNN ERROR: " (runModelMulti F R E b : Run V String) ∧
    ConvertsFaults E "MNN PROFILE ERROR: " (runModelMultiProfile F R E b : Run V String) ∧
    (b.inputNames.length ≠ b.inputShapes.length → E.interpreter = true → E.session = true →
      (∀ k, k < 3 → E.fault k = none) →
      ((runModelMulti F R E b : Run V String) World.init).1
          = Except.ok ("MNN ERROR: " ++ "names/shapes length mismatch") ∧
        ((runModelMultiProfile F R E b : Run V String) World.init).1
          = Except.ok ("MNN PROFILE ERROR: " ++ "names/shapes length mismatch")) :=
  ⟨convertsFaults_runModel F R E a, convertsFaults_runModelProfile F R E a,
    convertsFaults_runModelMulti F R E b, convertsFaults_runModelMultiProfile F R E b,
    fun h hi hs hf =>
      ⟨multi_mismatch_exact F R E b h hi hs hf, multiProfile_mismatch_exact F R E b h hi hs hf⟩⟩

/-- The engine throws "boom" in `createSession`, the second call of `runModel`: the entry
point returns "MNN ERROR: boom"; and a call with one name and no shape returns the
mismatch message under both markers. -/
theorem faults_become_error_strings_witness :
    ((runModel mnnIds counterSampler (faultyEnv 1 "boom") someRunArgs : Run Nat String)
        World.init).1 = Except.ok ("MNN ERROR: " ++ "boom") ∧
    ((runModelMulti mnnIds counterSampler plainEnv mismatchArgs : Run Nat String)
        World.init).1 = Except.ok ("MNN ERROR: " ++ "names/shapes length mismatch") ∧
    ((runModelMultiProfile mnnIds counterSampler plainEnv mismatchArgs : Run Nat String)
        World.init).1
      = Except.ok ("MNN PROFILE ERROR: " ++ "names/shapes length mismatch") :=
  ⟨(faults_become_error_strings mnnIds counterSampler (faultyEnv 1 "boom") someRunArgs
      mismatchArgs).1.2.1 1 "boom" rfl
      (fun k _ hk => by
        have : k = 0 := by omega
        subst this
        rfl)
      (by decide),
    (faults_become_error_strings mnnIds counterSampler plainEnv someRunArgs mismatchArgs).2.2.2.2
      (by decide) rfl rfl (fun _ _ => rfl)⟩

/-! ## The profile report read as a JSON text -/

theorem readFrom_append (st : JsonState) (l1 l2 : List Char) :
    readFrom st (l1 ++ l2) = (readFrom st l1).bind fun st1 => readFrom st1 l2 := by
  induction l1 generalizing st with
  | nil => rfl
  | cons c cs ih =>
    simp only [List.cons_append, readFrom]
    cases step st c with
    | none => rfl
    | some st1 => exact ih st1

/-- Safe characters inside a string are taken over as they are. -/
theorem readFrom_safe (stack : List Frame) (isKey : Bool) (acc s rest : List Char)
    (hs : ∀ c ∈ s, SafeChar c) :
    readFrom ⟨stack, Mode.str isKey acc Esc.plain⟩ (s ++ rest)
      = readFrom ⟨stack, Mode.str isKey (acc ++ s) Esc.plain⟩ rest := by
  induction s generalizing acc with
  | nil => simp
  | cons c cs ih =>
    obtain ⟨h1, h2, h3⟩ := hs c (List.mem_cons_self _ _)
    have h4 : ¬ c.toNat < 32 := by omega
    have key := ih (acc ++ [c]) fun d hd => hs d (List.mem_cons_of_mem _ hd)
    simp only [List.append_assoc, List.singleton_append] at key
    simp only [List.cons_append, readFrom, step, stepString, h1, h2, h4, if_false]
    exact key

/-- A string value: the opening quote, safe characters, the closing quote. -/
theorem readFrom_str (stack : List Frame) (s : String) (rest : List Char) (hs : SafeText s) :
    readFrom ⟨stack, Mode.value⟩ ('"' :: (s.data ++ '"' :: rest))
      = readFrom (complete stack (Json.str s)) rest := by
  have h : step ⟨stack, Mode.value⟩ '"' = some ⟨stack, Mode.str false [] Esc.plain⟩ := rfl
  rw [readFrom, h]
  simp only
  rw [readFrom_safe stack false [] s.data _ hs]
  simp only [List.nil_append, readFrom, step, stepString, closeString, if_true]
  rfl

/-- A member name behind a comma: the opening quote, safe characters, the closing quote,
the colon. -/
theorem readFrom_key (done : List (String × Json)) (old : String) (stack : List Frame)
    (s : String) (rest : List Char) (hs : SafeText s) :
    readFrom ⟨Frame.obj done old :: stack, Mode.key⟩ ('"' :: (s.data ++ '"' :: ':' :: rest))
      = readFrom ⟨Frame.obj done s :: stack, Mode.value⟩ rest := by
  have h : step ⟨Frame.obj done old :: stack, Mode.key⟩ '"'
      = some ⟨Frame.obj done old :: stack, Mode.str true [] Esc.plain⟩ := rfl
  rw [readFrom, h]
  simp only
  rw [readFrom_safe _ true [] s.data _ hs]
  simp only [List.nil_append, readFrom, step, stepString, closeString, if_true]
  rfl


theorem readFrom_numRun (stack : List Frame) (acc cs rest : List Char) (s s1 : NumState)
    (h : numRun s cs = some s1) :
    readFrom ⟨stack, Mode.num acc s⟩ (cs ++ rest)
      = readFrom ⟨stack, Mode.num (acc ++ cs) s1⟩ rest := by
  induction cs generalizing acc s with
  | nil =>
    simp only [numRun, Option.some.injEq] at h
    subst h
    simp
  | cons c cs ih =>
    simp only [numRun] at h
    cases hc : numStep s c with
    | none => simp [hc] at h
    | some s2 =>
      rw [hc] at h
      have key := ih (acc ++ [c]) s2 h
      simp only [List.append_assoc, List.singleton_append] at key
      simp only [List.cons_append, readFrom, step, hc]
      exact key

/-- The characters a number can start with. -/
theorem numStep_start (c : Char) (s : NumState) (h : numStep NumState.start c = some s) :
    c = '-' ∨ c.isDigit = true := by
  simp only [numStep] at h
  by_cases h1 : c = '-'
  · exact Or.inl h1
  · by_cases h2 : c = '0'
    · subst h2
      exact Or.inr (by decide)
    · by_cases h3 : c.isDigit = true
      · exact Or.inr h3
      · simp [h1, h2, h3] at h

theorem digit_bounds (c : Char) (h : c.isDigit = true) : 48 ≤ c.toNat ∧ c.toNat ≤ 57 := by
  simp only [Char.isDigit, Bool.and_eq_true, decide_eq_true_eq] at h
  exact ⟨h.1, h.2⟩

/-- The first character of a number, where a value is expected. -/
theorem step_value_num (stack : List Frame) (c : Char) (s : NumState)
    (h : numStep NumState.start c = some s) :
    step ⟨stack, Mode.value⟩ c = some ⟨stack, Mode.num [c] s⟩ ∧
    step ⟨stack, Mode.valueOrEnd⟩ c = some ⟨stack, Mode.num [c] s⟩ := by
  have hne : ∀ d : Char, d ≠ '-' → (d.toNat < 48 ∨ 57 < d.toNat) → c ≠ d := by
    intro d h1 h2 hcd
    subst hcd
    rcases numStep_start c s h with h3 | h3
    · exact h1 h3
    · have := digit_bounds c h3
      omega
  have e1 := hne ' ' (by decide) (by decide)
  have e2 := hne '\t' (by decide) (by decide)
  have e3 := hne '\n' (by decide) (by decide)
  have e4 := hne '\r' (by decide) (by decide)
  have e5 := hne '\x7b' (by decide) (by decide)
  have e6 := hne '[' (by decide) (by decide)
  have e7 := hne '"' (by decide) (by decide)
  have e8 := hne 't' (by decide) (by decide)
  have e9 := hne 'f' (by decide) (by decide)
  have e10 := hne 'n' (by decide) (by decide)
  have e11 := hne ']' (by decide) (by decide)
  constructor <;>
    simp only [step, isWs, startValue, e1, e2, e3, e4, e5, e6, e7, e8, e9, e10, e11, h,
      decide_False, Bool.or_self, Bool.false_eq_true, if_false]

/-- A number cannot go on with a comma or a closing bracket or brace. -/
theorem numStep_delimiter (s : NumState) (c : Char) (hc : c = ',' ∨ c = ']' ∨ c = '\x7d') :
    numStep s c = none := by
  rcases hc with rfl | rfl | rfl <;> cases s <;> rfl

/-- A number and the delimiter behind it, where a value is expected. -/
theorem readFrom_num (stack : List Frame) (t : String) (c : Char) (rest : List Char)
    (ht : isNumber t = true) (hc : c = ',' ∨ c = ']' ∨ c = '\x7d') :
    readFrom ⟨stack, Mode.value⟩ (t.data ++ c :: rest)
        = (stepAfter (complete stack (Json.num t)) c).bind (fun st => readFrom st rest) ∧
    readFrom ⟨stack, Mode.valueOrEnd⟩ (t.data ++ c :: rest)
        = (stepAfter (complete stack (Json.num t)) c).bind (fun st => readFrom st rest) := by
  unfold isNumber at ht
  rcases hd : t.data with _ | ⟨c0, cs⟩
  · rw [hd] at ht
    simp [numRun, numFinal] at ht
  · rw [hd] at ht
    simp only [numRun] at ht
    cases h0 : numStep NumState.start c0 with
    | none => simp [h0] at ht
    | some s0 =>
      rw [h0] at ht
      simp only at ht
      cases h1 : numRun s0 cs with
      | none => simp [h1] at ht
      | some s1 =>
        rw [h1] at ht
        simp only at ht
        have e : t = String.mk (c0 :: cs) := by
          rw [← hd]
        have tail : readFrom ⟨stack, Mode.num [c0] s0⟩ (cs ++ c :: rest)
            = (stepAfter (complete stack (Json.num t)) c).bind (fun st => readFrom st rest) := by
          rw [readFrom_numRun stack [c0] cs (c :: rest) s0 s1 h1]
          simp only [readFrom, step, numStep_delimiter s1 c hc, ht, if_true,
            List.singleton_append, e]
          cases stepAfter (complete stack (Json.num (String.mk (c0 :: cs)))) c <;> rfl
        constructor
        · simp only [List.cons_append, readFrom, (step_value_num stack c0 s0 h0).1]
          exact tail
        · simp only [List.cons_append, readFrom, (step_value_num stack c0 s0 h0).2]
          exact tail


theorem digitChar_facts : ∀ m, m < 10 →
    (Nat.digitChar m).isDigit = true ∧ (m ≠ 0 → Nat.digitChar m ≠ '0') := by
  decide

/-- The decimal digits `Nat.toDigitsCore` puts in front of `ds`: digits only, and no
leading zero except for the number zero itself. -/
theorem toDigitsCore_spec (fuel n : Nat) (ds : List Char) (h : n < fuel) :
    ∃ l, Nat.toDigitsCore 10 fuel n ds = l ++ ds ∧ (∀ c ∈ l, c.isDigit = true) ∧
      ((n = 0 ∧ l = ['0']) ∨ (n ≠ 0 ∧ ∃ c cs, l = c :: cs ∧ c ≠ '0')) := by
  induction fuel generalizing n ds with
  | zero => omega
  | succ fuel ih =>
    have hd := digitChar_facts (n % 10) (Nat.mod_lt _ (by decide))
    unfold Nat.toDigitsCore
    by_cases h0 : n / 10 = 0
    · simp only [h0, if_true]
      refine ⟨[Nat.digitChar (n % 10)], rfl, ?_, ?_⟩
      · intro c hc
        simp only [List.mem_singleton] at hc
        subst hc
        exact hd.1
      · have hlt : n < 10 := by omega
        by_cases hn : n = 0
        · subst hn
          exact Or.inl ⟨rfl, rfl⟩
        · refine Or.inr ⟨hn, _, [], rfl, ?_⟩
          have : n % 10 = n := Nat.mod_eq_of_lt hlt
          exact hd.2 (by omega)
    · simp only [h0, if_false]
      have hlt : n / 10 < fuel := by omega
      obtain ⟨l, e, hall, hshape⟩ := ih (n / 10) (Nat.digitChar (n % 10) :: ds) hlt
      refine ⟨l ++ [Nat.digitChar (n % 10)], ?_, ?_, ?_⟩
      · rw [e]
        simp
      · intro c hc
        rcases List.mem_append.1 hc with hc | hc
        · exact hall c hc
        · simp only [List.mem_singleton] at hc
          subst hc
          exact hd.1
      · rcases hshape with ⟨hz, _⟩ | ⟨_, c, cs, hl, hc⟩
        · exact absurd hz h0
        · refine Or.inr ⟨by omega, c, cs ++ [Nat.digitChar (n % 10)], ?_, hc⟩
          rw [hl]
          rfl

theorem natRepr_spec (n : Nat) :
    ∃ l, (Nat.repr n).data = l ∧ (∀ c ∈ l, c.isDigit = true) ∧
      ((n = 0 ∧ l = ['0']) ∨ (n ≠ 0 ∧ ∃ c cs, l = c :: cs ∧ c ≠ '0')) := by
  obtain ⟨l, e, h1, h2⟩ := toDigitsCore_spec (n + 1) n [] (Nat.lt_succ_self n)
  refine ⟨l, ?_, h1, h2⟩
  simp only [Nat.repr, Nat.toDigits, e, List.append_nil, List.asString]

theorem numRun_digits (l : List Char) (h : ∀ c ∈ l, c.isDigit = true) :
    numRun NumState.int l = some NumState.int := by
  induction l with
  | nil => rfl
  | cons c cs ih =>
    have hc := h c (List.mem_cons_self _ _)
    simp only [numRun, numStep, hc, if_true]
    exact ih fun d hd => h d (List.mem_cons_of_mem _ hd)

/-- Digits without a leading zero, behind an optional minus sign, are a number. -/
theorem numRun_canonical (c : Char) (cs : List Char) (hc : c ≠ '0')
    (h : ∀ d ∈ c :: cs, d.isDigit = true) :
    numRun NumState.start (c :: cs) = some NumState.int ∧
    numRun NumState.minus (c :: cs) = some NumState.int := by
  have hd := h c (List.mem_cons_self _ _)
  have hm : c ≠ '-' := by
    rintro rfl
    exact absurd hd (by decide)
  have tail := numRun_digits cs fun d hd => h d (List.mem_cons_of_mem _ hd)
  constructor <;> simp only [numRun, numStep, hc, hm, hd, if_true, if_false, tail]

/-- The decimal text of a natural number is a JSON number. -/
theorem isNumber_natRepr (n : Nat) : isNumber (Nat.repr n) = true := by
  obtain ⟨l, e, h1, h2⟩ := natRepr_spec n
  unfold isNumber
  rw [e]
  rcases h2 with ⟨_, rfl⟩ | ⟨_, c, cs, rfl, hc⟩
  · rfl
  · rw [(numRun_canonical c cs hc h1).1]
    rfl

/-- The text the stream prints for an `int` is a JSON number. -/
theorem isNumber_showInt (n : Int) : isNumber (showInt n) = true := by
  cases n with
  | ofNat m => exact isNumber_natRepr m
  | negSucc m =>
    obtain ⟨l, e, h1, h2⟩ := natRepr_spec (m + 1)
    have e2 : (showInt (Int.negSucc m)).data = '-' :: l := by
      rw [← e]
      rfl
    unfold isNumber
    rw [e2]
    rcases h2 with ⟨h0, _⟩ | ⟨_, c, cs, rfl, hc⟩
    · omega
    · have key := (numRun_canonical c cs hc h1).2
      have first : numRun NumState.start ('-' :: c :: cs) = numRun NumState.minus (c :: cs) := rfl
      rw [first, key]
      rfl

/-- The characters that can stand behind a number inside an array or an object. -/
theorem readFrom_number (stack : List Frame) (t : String) (c : Char) (rest : List Char)
    (ht : isNumber t = true) (hc : c = ',' ∨ c = ']' ∨ c = '\x7d') :
    readFrom ⟨stack, Mode.value⟩ (t.data ++ c :: rest)
        = readFrom (complete stack (Json.num t)) (c :: rest) ∧
    readFrom ⟨stack, Mode.valueOrEnd⟩ (t.data ++ c :: rest)
        = readFrom (complete stack (Json.num t)) (c :: rest) := by
  have e : readFrom (complete stack (Json.num t)) (c :: rest)
      = (stepAfter (complete stack (Json.num t)) c).bind (fun st => readFrom st rest) := by
    have hs : step (complete stack (Json.num t)) c = stepAfter (complete stack (Json.num t)) c := by
      rcases stack with _ | ⟨f, stack⟩
      · rfl
      · cases f <;> rfl
    rw [readFrom, hs]
    cases stepAfter (complete stack (Json.num t)) c <;> rfl
  rw [e]
  exact readFrom_num stack t c rest ht hc

/-- The text of the shape loop starts, behind its first entry, with a comma, and is
followed by the closing bracket. -/
theorem dimsLead_head (ds : List Int) (i : Nat) (hi : i ≠ 0) (rest : List Char) :
    ∃ c tail, (c = ',' ∨ c = ']' ∨ c = '\x7d') ∧
      (dimsLead ds i).data ++ ']' :: rest = c :: tail := by
  cases ds with
  | nil => exact ⟨']', rest, Or.inr (Or.inl rfl), rfl⟩
  | cons d ds =>
    refine ⟨',', (showInt d).data ++ (dimsLead ds (i + 1)).data ++ ']' :: rest, Or.inl rfl, ?_⟩
    simp only [dimsLead, hi, ne_eq, not_false_eq_true, if_true, String.data_append,
      List.append_assoc]
    rfl

theorem readFrom_dims_tail (stk : List Frame) (done : List Json) (ds : List Int) (i : Nat)
    (hi : i ≠ 0) (rest : List Char) :
    readFrom ⟨Frame.arr done :: stk, Mode.afterValue⟩ ((dimsLead ds i).data ++ ']' :: rest)
      = readFrom (complete stk (Json.arr (done ++ ds.map fun d => Json.num (showInt d))))
          rest := by
  induction ds generalizing done i with
  | nil =>
    simp only [List.map_nil, List.append_nil]
    rfl
  | cons d ds ih =>
    obtain ⟨c, tail, hc, e⟩ := dimsLead_head ds (i + 1) (Nat.succ_ne_zero i) rest
    have e1 : (dimsLead (d :: ds) i).data ++ ']' :: rest
        = ',' :: ((showInt d).data ++ ((dimsLead ds (i + 1)).data ++ ']' :: rest)) := by
      simp only [dimsLead, hi, ne_eq, not_false_eq_true, if_true, String.data_append,
        List.append_assoc]
      rfl
    have s1 : readFrom ⟨Frame.arr done :: stk, Mode.afterValue⟩
        (',' :: ((showInt d).data ++ ((dimsLead ds (i + 1)).data ++ ']' :: rest)))
        = readFrom ⟨Frame.arr done :: stk, Mode.value⟩
          ((showInt d).data ++ ((dimsLead ds (i + 1)).data ++ ']' :: rest)) := rfl
    rw [e1, s1, e, (readFrom_number _ _ c tail (isNumber_showInt d) hc).1, ← e]
    have s2 : complete (Frame.arr done :: stk) (Json.num (showInt d))
        = ⟨Frame.arr (done ++ [Json.num (showInt d)]) :: stk, Mode.afterValue⟩ := rfl
    rw [s2, ih (done ++ [Json.num (showInt d)]) (i + 1) (Nat.succ_ne_zero i)]
    simp

/-- The shape of a tensor, `[d0,d1,...]`, is read as the array of its lengths. -/
theorem readFrom_dims (stk : List Frame) (dims : List Int) (rest : List Char) :
    readFrom ⟨stk, Mode.value⟩ ('[' :: ((dimsLead dims 0).data ++ ']' :: rest))
      = readFrom (complete stk (Json.arr (dims.map fun d => Json.num (showInt d)))) rest := by
  have s0 : readFrom ⟨stk, Mode.value⟩ ('[' :: ((dimsLead dims 0).data ++ ']' :: rest))
      = readFrom ⟨Frame.arr [] :: stk, Mode.valueOrEnd⟩ ((dimsLead dims 0).data ++ ']' :: rest) :=
    rfl
  rw [s0]
  cases dims with
  | nil => rfl
  | cons d ds =>
    obtain ⟨c, tail, hc, e⟩ := dimsLead_head ds 1 (Nat.succ_ne_zero 0) rest
    have e1 : (dimsLead (d :: ds) 0).data ++ ']' :: rest
        = (showInt d).data ++ ((dimsLead ds 1).data ++ ']' :: rest) := by
      simp only [dimsLead, ne_eq, not_true_eq_false, if_false, String.data_append,
        List.append_assoc]
      rfl
    rw [e1, e, (readFrom_number _ _ c tail (isNumber_showInt d) hc).2, ← e]
    have s2 : complete (Frame.arr [] :: stk) (Json.num (showInt d))
        = ⟨Frame.arr ([] ++ [Json.num (showInt d)]) :: stk, Mode.afterValue⟩ := rfl
    rw [s2, readFrom_dims_tail stk _ ds 1 (Nat.succ_ne_zero 0)]
    simp

/-- One entry of `outputs`, where a value is expected. -/
theorem readFrom_outputEntry (stk : List Frame) (name : String) (t : OutputTensor)
    (rest : List Char) (hn : SafeText name) :
    readFrom ⟨stk, Mode.value⟩ ("\x7b\"name\":\"".data ++ (name.data ++ ("\",\"shape\":[".data
        ++ ((dimsLead t.dims 0).data ++ ("]\x7d".data ++ rest)))))
      = readFrom (complete stk (outputTree (name, t))) rest ∧
    readFrom ⟨stk, Mode.valueOrEnd⟩ ("\x7b\"name\":\"".data ++ (name.data
        ++ ("\",\"shape\":[".data ++ ((dimsLead t.dims 0).data ++ ("]\x7d".data ++ rest)))))
      = readFrom (complete stk (outputTree (name, t))) rest := by
  have tail : readFrom ⟨Frame.obj [] "name" :: stk, Mode.str false [] Esc.plain⟩
      (name.data ++ ("\",\"shape\":[".data ++ ((dimsLead t.dims 0).data ++ ("]\x7d".data ++ rest))))
      = readFrom (complete stk (outputTree (name, t))) rest := by
    rw [readFrom_safe _ false [] name.data _ hn]
    have s1 : readFrom ⟨Frame.obj [] "name" :: stk, Mode.str false ([] ++ name.data) Esc.plain⟩
        ("\",\"shape\":[".data ++ ((dimsLead t.dims 0).data ++ ("]\x7d".data ++ rest)))
        = readFrom ⟨Frame.obj [("name", Json.str name)] "shape" :: stk, Mode.value⟩
          ('[' :: ((dimsLead t.dims 0).data ++ ']' :: ('\x7d' :: rest))) := rfl
    rw [s1, readFrom_dims]
    rfl
  exact ⟨tail, tail⟩

/-- The entries of `outputs` behind the first one. -/
theorem readFrom_outputs_tail (stk : List Frame) (done : List Json)
    (outs : List (String × Option OutputTensor)) (rest : List Char)
    (hn : ∀ kv ∈ present outs, SafeText kv.1) :
    readFrom ⟨Frame.arr done :: stk, Mode.afterValue⟩
        ((outputsJson outs false).data ++ ']' :: rest)
      = readFrom (complete stk (Json.arr (done ++ (present outs).map outputTree))) rest := by
  induction outs generalizing done with
  | nil =>
    simp only [present, List.map_nil, List.append_nil]
    rfl
  | cons kv outs ih =>
    obtain ⟨name, t⟩ := kv
    cases t with
    | none => exact ih done hn
    | some t =>
      have e1 : (outputsJson ((name, some t) :: outs) false).data ++ ']' :: rest
          = ',' :: ("\x7b\"name\":\"".data ++ (name.data ++ ("\",\"shape\":[".data
            ++ ((dimsLead t.dims 0).data ++ ("]\x7d".data
            ++ ((outputsJson outs false).data ++ ']' :: rest)))))) := by
        simp only [outputsJson, Bool.false_eq_true, if_false, String.data_append,
          List.append_assoc]
        rfl
      have s1 : ∀ X, readFrom ⟨Frame.arr done :: stk, Mode.afterValue⟩ (',' :: X)
          = readFrom ⟨Frame.arr done :: stk, Mode.value⟩ X := fun _ => rfl
      rw [e1, s1, (readFrom_outputEntry _ name t _ (hn (name, t) (List.mem_cons_self _ _))).1]
      have s2 : complete (Frame.arr done :: stk) (outputTree (name, t))
          = ⟨Frame.arr (done ++ [outputTree (name, t)]) :: stk, Mode.afterValue⟩ := rfl
      rw [s2, ih _ fun kv hkv => hn kv (List.mem_cons_of_mem _ hkv)]
      simp [present]

/-- The member `outputs`: the entries of the tensors that are there, in their order. -/
theorem readFrom_outputs (stk : List Frame) (outs : List (String × Option OutputTensor))
    (rest : List Char) (hn : ∀ kv ∈ present outs, SafeText kv.1) :
    readFrom ⟨Frame.arr [] :: stk, Mode.valueOrEnd⟩
        ((outputsJson outs true).data ++ ']' :: rest)
      = readFrom (complete stk (Json.arr ((present outs).map outputTree))) rest := by
  induction outs with
  | nil => rfl
  | cons kv outs ih =>
    obtain ⟨name, t⟩ := kv
    cases t with
    | none => exact ih hn
    | some t =>
      have e1 : (outputsJson ((name, some t) :: outs) true).data ++ ']' :: rest
          = "\x7b\"name\":\"".data ++ (name.data ++ ("\",\"shape\":[".data
            ++ ((dimsLead t.dims 0).data ++ ("]\x7d".data
            ++ ((outputsJson outs false).data ++ ']' :: rest))))) := by
        simp only [outputsJson, if_true, String.data_append, List.append_assoc]
        rfl
      rw [e1, (readFrom_outputEntry _ name t _ (hn (name, t) (List.mem_cons_self _ _))).2]
      have s2 : complete (Frame.arr [] :: stk) (outputTree (name, t))
          = ⟨Frame.arr [outputTree (name, t)] :: stk, Mode.afterValue⟩ := rfl
      rw [s2, readFrom_outputs_tail _ _ _ _ fun kv hkv => hn kv (List.mem_cons_of_mem _ hkv)]
      simp [present]

/-- The value of one entry of `ops`. -/
theorem opTrees_cons (showMs : Int → String) (op : OpPerf) (ops : List OpPerf) (i : Nat) :
    opTrees showMs (op :: ops) i
      = Json.obj [("index", Json.num (toString (i + 1))), ("type", Json.str op.type),
          ("name", Json.str op.name), ("backend", Json.str op.backend),
          ("start_ms", Json.num (showMs op.start)), ("end_ms", Json.num (showMs op.end_)),
          ("duration_ms", Json.num (showMs op.ms))] :: opTrees showMs ops (i + 1) := rfl

/-- One entry of `ops`, where a value is expected. -/
theorem readFrom_opEntry (showMs : Int → String) (stk : List Frame) (op : OpPerf) (i : Nat)
    (rest : List Char) (hMs : ∀ d, isNumber (showMs d) = true)
    (ht : SafeText op.type) (hn : SafeText op.name) (hb : SafeText op.backend) :
    ∀ m, (m = Mode.value ∨ m = Mode.valueOrEnd) →
      readFrom ⟨stk, m⟩ ("\x7b\"index\":".data ++ ((toString (i + 1)).data
        ++ (",\"type\":\"".data ++ (op.type.data ++ ("\"".data
        ++ (",\"name\":\"".data ++ (op.name.data ++ ("\"".data
        ++ (",\"backend\":\"".data ++ (op.backend.data ++ ("\"".data
        ++ (",\"start_ms\":".data ++ ((showMs op.start).data
        ++ (",\"end_ms\":".data ++ ((showMs op.end_).data
        ++ (",\"duration_ms\":".data ++ ((showMs op.ms).data
        ++ ("\x7d".data ++ rest))))))))))))))))))
      = readFrom (complete stk (Json.obj [("index", Json.num (toString (i + 1))),
          ("type", Json.str op.type), ("name", Json.str op.name),
          ("backend", Json.str op.backend), ("start_ms", Json.num (showMs op.start)),
          ("end_ms", Json.num (showMs op.end_)), ("duration_ms", Json.num (showMs op.ms))]))
          rest := by
  intro m hm
  have h1 : ∀ X, readFrom ⟨stk, m⟩ ("\x7b\"index\":".data ++ X)
      = readFrom ⟨Frame.obj [] "index" :: stk, Mode.value⟩ X := by
    intro X
    rcases hm with rfl | rfl <;> rfl
  have h2 : ∀ X, readFrom ⟨Frame.obj [] "index" :: stk, Mode.value⟩
      ((toString (i + 1)).data ++ (",\"type\":\"".data ++ X))
      = readFrom ⟨Frame.obj [("index", Json.num (toString (i + 1)))] "type" :: stk,
          Mode.str false [] Esc.plain⟩ X := fun X =>
    ((readFrom_number _ _ ',' _ (isNumber_natRepr (i + 1)) (Or.inl rfl)).1).trans rfl
  have h3 : ∀ (done : List (String × Json)) (k : String) X,
      readFrom ⟨Frame.obj done k :: stk, Mode.str false [] Esc.plain⟩
        (op.type.data ++ ("\"".data ++ (",\"name\":\"".data ++ X)))
      = readFrom ⟨Frame.obj (done ++ [(k, Json.str op.type)]) "name" :: stk,
          Mode.str false [] Esc.plain⟩ X := fun done k X =>
    (readFrom_safe _ false [] op.type.data _ ht).trans rfl
  have h4 : ∀ (done : List (String × Json)) (k : String) X,
      readFrom ⟨Frame.obj done k :: stk, Mode.str false [] Esc.plain⟩
        (op.name.data ++ ("\"".data ++ (",\"backend\":\"".data ++ X)))
      = readFrom ⟨Frame.obj (done ++ [(k, Json.str op.name)]) "backend" :: stk,
          Mode.str false [] Esc.plain⟩ X := fun done k X =>
    (readFrom_safe _ false [] op.name.data _ hn).trans rfl
  have h5 : ∀ (done : List (String × Json)) (k : String) X,
      readFrom ⟨Frame.obj done k :: stk, Mode.str false [] Esc.plain⟩
        (op.backend.data ++ ("\"".data ++ (",\"start_ms\":".data ++ X)))
      = readFrom ⟨Frame.obj (done ++ [(k, Json.str op.backend)]) "start_ms" :: stk,
          Mode.value⟩ X := fun done k X =>
    (readFrom_safe _ false [] op.backend.data _ hb).trans rfl
  have h6 : ∀ (done : List (String × Json)) (k : String) X,
      readFrom ⟨Frame.obj done k :: stk, Mode.value⟩
        ((showMs op.start).data ++ (",\"end_ms\":".data ++ X))
      = readFrom ⟨Frame.obj (done ++ [(k, Json.num (showMs op.start))]) "end_ms" :: stk,
          Mode.value⟩ X := fun done k X =>
    ((readFrom_number _ _ ',' _ (hMs _) (Or.inl rfl)).1).trans rfl
  have h7 : ∀ (done : List (String × Json)) (k : String) X,
      readFrom ⟨Frame.obj done k :: stk, Mode.value⟩
        ((showMs op.end_).data ++ (",\"duration_ms\":".data ++ X))
      = readFrom ⟨Frame.obj (done ++ [(k, Json.num (showMs op.end_))]) "duration_ms" :: stk,
          Mode.value⟩ X := fun done k X =>
    ((readFrom_number _ _ ',' _ (hMs _) (Or.inl rfl)).1).trans rfl
  have h8 : ∀ (done : List (String × Json)) (k : String) X,
      readFrom ⟨Frame.obj done k :: stk, Mode.value⟩
        ((showMs op.ms).data ++ ("\x7d".data ++ X))
      = readFrom (complete stk (Json.obj (done ++ [(k, Json.num (showMs op.ms))]))) X :=
    fun done k X =>
    ((readFrom_number _ _ '\x7d' _ (hMs _) (Or.inr (Or.inr rfl))).1).trans rfl
  rw [h1, h2, h3, h4, h5, h6, h7, h8]
  rfl

theorem opsJson_cons_data (showMs : Int → String) (op : OpPerf) (ops : List OpPerf) (i : Nat)
    (rest : List Char) :
    (opsJson showMs (op :: ops) i).data ++ rest
      = (if i ≠ 0 then ",".data else []) ++ ("\x7b\"index\":".data ++ ((toString (i + 1)).data
        ++ (",\"type\":\"".data ++ (op.type.data ++ ("\"".data
        ++ (",\"name\":\"".data ++ (op.name.data ++ ("\"".data
        ++ (",\"backend\":\"".data ++ (op.backend.data ++ ("\"".data
        ++ (",\"start_ms\":".data ++ ((showMs op.start).data
        ++ (",\"end_ms\":".data ++ ((showMs op.end_).data
        ++ (",\"duration_ms\":".data ++ ((showMs op.ms).data
        ++ ("\x7d".data ++ ((opsJson showMs ops (i + 1)).data ++ rest))))))))))))))))))) := by
  by_cases hi : i = 0
  · simp only [opsJson, hi, ne_eq, not_true_eq_false, if_false, String.data_append,
      List.append_assoc, List.nil_append]
  · simp only [opsJson, hi, ne_eq, not_false_eq_true, if_true, String.data_append,
      List.append_assoc]

/-- The entries of `ops` behind the first one. -/
theorem readFrom_ops_tail (showMs : Int → String) (stk : List Frame) (done : List Json)
    (ops : List OpPerf) (i : Nat) (hi : i ≠ 0) (rest : List Char)
    (hMs : ∀ d, isNumber (showMs d) = true)
    (hs : ∀ op ∈ ops, SafeText op.type ∧ SafeText op.name ∧ SafeText op.backend) :
    readFrom ⟨Frame.arr done :: stk, Mode.afterValue⟩
        ((opsJson showMs ops i).data ++ ']' :: rest)
      = readFrom (complete stk (Json.arr (done ++ opTrees showMs ops i))) rest := by
  induction ops generalizing done i with
  | nil =>
    simp only [opTrees, List.append_nil]
    rfl
  | cons op ops ih =>
    obtain ⟨h1, h2, h3⟩ := hs op (List.mem_cons_self _ _)
    have s1 : ∀ X, readFrom ⟨Frame.arr done :: stk, Mode.afterValue⟩ (",".data ++ X)
        = readFrom ⟨Frame.arr done :: stk, Mode.value⟩ X := fun _ => rfl
    rw [opsJson_cons_data, if_pos hi, s1,
      readFrom_opEntry showMs _ op i _ hMs h1 h2 h3 Mode.value (Or.inl rfl)]
    have s2 : ∀ v, complete (Frame.arr done :: stk) v
        = ⟨Frame.arr (done ++ [v]) :: stk, Mode.afterValue⟩ := fun _ => rfl
    rw [s2, ih _ (i + 1) (Nat.succ_ne_zero i) fun o ho => hs o (List.mem_cons_of_mem _ ho),
      opTrees_cons]
    simp

/-- The member `ops`: one entry for each record, numbered from 1. -/
theorem readFrom_ops (showMs : Int → String) (stk : List Frame) (ops : List OpPerf)
    (rest : List Char) (hMs : ∀ d, isNumber (showMs d) = true)
    (hs : ∀ op ∈ ops, SafeText op.type ∧ SafeText op.name ∧ SafeText op.backend) :
    readFrom ⟨Frame.arr [] :: stk, Mode.valueOrEnd⟩
        ((opsJson showMs ops 0).data ++ ']' :: rest)
      = readFrom (complete stk (Json.arr (opTrees showMs ops 0))) rest := by
  cases ops with
  | nil => rfl
  | cons op ops =>
    obtain ⟨h1, h2, h3⟩ := hs op (List.mem_cons_self _ _)
    rw [opsJson_cons_data, if_neg (by simp), List.nil_append,
      readFrom_opEntry showMs _ op 0 _ hMs h1 h2 h3 Mode.valueOrEnd (Or.inr rfl)]
    have s2 : ∀ v, complete (Frame.arr [] :: stk) v
        = ⟨Frame.arr [v] :: stk, Mode.afterValue⟩ := fun _ => rfl
    rw [s2, readFrom_ops_tail showMs _ _ ops 1 (Nat.succ_ne_zero 0) _ hMs
      fun o ho => hs o (List.mem_cons_of_mem _ ho), opTrees_cons]
    simp

/-- The labels `forwardName` returns can stand in a JSON string as they are. -/
theorem safeText_forwardName (F : ForwardIds) (t : Int) : SafeText (forwardName F t) := by
  have key : ∀ s ∈ ["CPU", "AUTO", "METAL", "CUDA", "OPENCL", "OPENGL", "VULKAN", "NN", "ALL",
      "UNKNOWN"], ∀ c ∈ String.data s, c ≠ '"' ∧ c ≠ '\\' ∧ 32 ≤ c.toNat := by decide
  unfold forwardName
  intro c hc
  split_ifs at hc <;> exact key _ (by simp) c hc

/-- The report of the profile entry points is a JSON text, and its value is the tree
`reportTree`, when the names it prints can stand in a JSON string as they are and the
durations are printed as JSON numbers. -/
theorem readJson_profileJson (F : ForwardIds) (showMs : Int → String) (cBackend : String)
    (cBackup : Option String) (threads : Int) (m : Metrics)
    (outputs : List (String × Option OutputTensor)) (ops : List OpPerf)
    (hMs : ∀ d, isNumber (showMs d) = true)
    (hn : ∀ kv ∈ present outputs, SafeText kv.1)
    (hs : ∀ op ∈ ops, SafeText op.type ∧ SafeText op.name ∧ SafeText op.backend) :
    readJson (profileJson F showMs cBackend cBackup threads m outputs ops)
      = some (reportTree F showMs cBackend cBackup threads m outputs ops) := by
  have g1 : ∀ X, readFrom ⟨[], Mode.value⟩
      ("\x7b".data ++ ("\"profile\":true,".data ++ ("\"backend\":\"".data ++ X)))
      = readFrom ⟨[Frame.obj [("profile", Json.bool true)] "backend"],
          Mode.str false [] Esc.plain⟩ X := fun _ => rfl
  have g2 : ∀ (s : String) (done : List (String × Json)) (k : String) X, SafeText s →
      readFrom ⟨[Frame.obj done k], Mode.str false [] Esc.plain⟩
        (s.data ++ ("\",".data ++ ("\"backup\":\"".data ++ X)))
      = readFrom ⟨[Frame.obj (done ++ [(k, Json.str s)]) "backup"],
          Mode.str false [] Esc.plain⟩ X := fun s done k X h =>
    (readFrom_safe _ false [] s.data _ h).trans rfl
  have g3 : ∀ (s : String) (done : List (String × Json)) (k : String) X, SafeText s →
      readFrom ⟨[Frame.obj done k], Mode.str false [] Esc.plain⟩
        (s.data ++ ("\",".data ++ ("\"threads\":".data ++ X)))
      = readFrom ⟨[Frame.obj (done ++ [(k, Json.str s)]) "threads"], Mode.value⟩ X :=
    fun s done k X h => (readFrom_safe _ false [] s.data _ h).trans rfl
  have g4 : ∀ (done : List (String × Json)) (k : String) X,
      readFrom ⟨[Frame.obj done k], Mode.value⟩
        ((showInt threads).data ++ (",".data ++ ("\"metrics\":\x7b".data
          ++ ("\"createInterpreter_ms\":".data ++ X))))
      = readFrom ⟨[Frame.obj [] "createInterpreter_ms",
          Frame.obj (done ++ [(k, Json.num (showInt threads))]) "metrics"], Mode.value⟩ X :=
    fun done k X =>
    ((readFrom_number _ _ ',' _ (isNumber_showInt threads) (Or.inl rfl)).1).trans rfl
  have g5 : ∀ (d : Int) (key : String) (stk : List Frame) (done : List (String × Json))
      (k : String) X, SafeText key →
      readFrom ⟨Frame.obj done k :: stk, Mode.value⟩
        ((showMs d).data ++ (",".data ++ ('"' :: (key.data ++ ('"' :: ':' :: X)))))
      = readFrom ⟨Frame.obj (done ++ [(k, Json.num (showMs d))]) key :: stk, Mode.value⟩ X :=
    fun d key stk done k X h =>
    ((readFrom_number _ _ ',' _ (hMs d) (Or.inl rfl)).1).trans
      (readFrom_key _ _ _ key X h)
  have g6 : ∀ (d : Int) (outer : List (String × Json)) (ko : String)
      (done : List (String × Json)) (k : String) X,
      readFrom ⟨[Frame.obj done k, Frame.obj outer ko], Mode.value⟩
        ((showMs d).data ++ ("\x7d,".data ++ ("\"outputs\":[".data ++ X)))
      = readFrom ⟨[Frame.arr [], Frame.obj (outer
            ++ [(ko, Json.obj (done ++ [(k, Json.num (showMs d))]))]) "outputs"],
          Mode.valueOrEnd⟩ X :=
    fun d outer ko done k X =>
    ((readFrom_number _ _ '\x7d' _ (hMs d) (Or.inr (Or.inr rfl))).1).trans rfl
  have g7 : ∀ (done : List (String × Json)) (k : String) (v : Json) X,
      readFrom (complete [Frame.obj done k] v) (",".data ++ ("\"ops\":[".data ++ X))
      = readFrom ⟨[Frame.arr [], Frame.obj (done ++ [(k, v)]) "ops"], Mode.valueOrEnd⟩ X :=
    fun _ _ _ _ => rfl
  have k1 : SafeText "createSession_ms" := by
    unfold SafeText SafeChar
    decide
  have k2 : SafeText "resizeSession_ms" := by
    unfold SafeText SafeChar
    decide
  have k3 : SafeText "runSession_ms" := by
    unfold SafeText SafeChar
    decide
  have e1 : ∀ X, ",".data ++ ("\"createSession_ms\":".data ++ X)
      = ",".data ++ ('"' :: ("createSession_ms".data ++ ('"' :: ':' :: X))) := fun _ => rfl
  have e2 : ∀ X, ",".data ++ ("\"resizeSession_ms\":".data ++ X)
      = ",".data ++ ('"' :: ("resizeSession_ms".data ++ ('"' :: ':' :: X))) := fun _ => rfl
  have e3 : ∀ X, ",".data ++ ("\"runSession_ms\":".data ++ X)
      = ",".data ++ ('"' :: ("runSession_ms".data ++ ('"' :: ':' :: X))) := fun _ => rfl
  have e4 : ∀ X Y : List Char, X ++ ("],".data ++ Y) = X ++ ']' :: (",".data ++ Y) :=
    fun _ _ => rfl
  have e5 : ∀ X : List Char, X ++ "]\x7d".data = X ++ ']' :: "\x7d".data := fun _ => rfl
  unfold readJson
  simp only [profileJson, String.data_append, List.append_assoc]
  rw [g1, g2 _ _ _ _ (safeText_forwardName F _), g3 _ _ _ _ (safeText_forwardName F _), g4,
    e1, g5 _ _ _ _ _ _ k1, e2, g5 _ _ _ _ _ _ k2, e3, g5 _ _ _ _ _ _ k3, g6, e4, readFrom_outputs _ _ _ hn, g7, e5,
    readFrom_ops showMs _ _ _ hMs hs]
  rfl

theorem resultIn_getSessionOutputAll {V : Type} {Q : String → Prop} (E : Env)
    {f : List (String × Option OutputTensor) → Run V String} (h : ResultIn Q (f E.outputs)) :
    ResultIn Q (getSessionOutputAll E >>= f) := by
  intro w t ht
  simp only [getSessionOutputAll, run_bind_apply, engineCall] at ht
  cases hf : E.fault w.calls with
  | some what => simp [hf] at ht
  | none =>
    simp only [hf, run_pure_apply] at ht
    exact h _ t ht

/-- The shared part of the profile entry points can only return the report of what the
engine lists as outputs, without operator records. -/
theorem resultIn_profileFinish_outputs {σ V : Type} (F : ForwardIds) (R : Sampler σ V)
    (E : Env) (cBackend : String) (cBackup : Option String) (inputFill : Option String)
    (cfg : ScheduleConfig) (t0 t1 t2_before t2 t3_before t3 : Int)
    (inputs : List (String × Option InputTensor)) :
    ResultIn (fun s => ∃ threads m,
        s = profileJson F E.showMs cBackend cBackup threads m E.outputs [])
      (profileFinish F R E cBackend cBackup inputFill cfg t0 t1 t2_before t2 t3_before t3
        inputs : Run V String) := by
  unfold profileFinish
  refine resultIn_bind _ fun _ => resultIn_bind _ fun _ => resultIn_bind _ fun _ =>
    resultIn_bind _ fun anchor => resultIn_bind _ fun _ => resultIn_bind _ fun t4 =>
      resultIn_getSessionOutputAll E (resultIn_bind _ fun _ => resultIn_pure _ _ ⟨_, _, rfl⟩)

/-- Whatever `runModelProfile` returns is a report of the outputs of the engine or an
error string. -/
theorem runModelProfile_results {σ V : Type} (F : ForwardIds) (R : Sampler σ V) (E : Env)
    (a : RunArgs) :
    ResultIn (fun s => (∃ threads m,
        s = profileJson F E.showMs a.backend a.backupType threads m E.outputs [])
          ∨ ∃ what, s = "MNN PROFILE ERROR: " ++ what)
      (runModelProfile F R E a : Run V String) :=
  resultIn_bind (now E) (fun _ => resultIn_tryCatch _ "MNN PROFILE ERROR: "
    (resultIn_bind _ fun _ => resultIn_ite _ (resultIn_throw _ _)
      (resultIn_withInterpreter (resultIn_bind _ fun _ => resultIn_bind _ fun _ =>
        resultIn_bind _ fun _ => resultIn_bind _ fun _ =>
          resultIn_ite _ (resultIn_throw _ _)
            (resultIn_bind _ fun _ => resultIn_bind _ fun _ =>
              resultIn_bind _ fun _ => resultIn_bind _ fun _ => resultIn_bind _ fun _ =>
                resultIn_bind _ fun _ =>
                  resultIn_profileFinish_outputs F R E _ _ _ _ _ _ _ _ _ _ _)))))

/-- Whatever `runModelMultiProfile` returns is a report of the outputs of the engine or
an error string. -/
theorem runModelMultiProfile_results {σ V : Type} (F : ForwardIds) (R : Sampler σ V)
    (E : Env) (b : MultiArgs) :
    ResultIn (fun s => (∃ threads m,
        s = profileJson F E.showMs b.backend b.backupType threads m E.outputs [])
          ∨ ∃ what, s = "MNN PROFILE ERROR: " ++ what)
      (runModelMultiProfile F R E b : Run V String) :=
  resultIn_bind (now E) (fun _ => resultIn_tryCatch _ "MNN PROFILE ERROR: "
    (resultIn_bind _ fun _ => resultIn_ite _ (resultIn_throw _ _)
      (resultIn_withInterpreter (resultIn_bind _ fun _ => resultIn_bind _ fun _ =>
        resultIn_bind _ fun _ => resultIn_bind _ fun _ =>
          resultIn_ite _ (resultIn_throw _ _) (resultIn_bind _ fun _ =>
            resultIn_ite _ (resultIn_throw _ _)
              (resultIn_bind _ fun _ => resultIn_bind _ fun _ =>
                resultIn_bind _ fun _ => resultIn_bind _ fun _ =>
                  resultIn_bind _ fun _ =>
                    resultIn_profileFinish_outputs F R E _ _ _ _ _ _ _ _ _ _ _))))))

/-- Entry number `k + 1` of `ops` carries the index `i + k + 1` when the first entry
carries `i + 1`. -/
theorem opTrees_getElem (showMs : Int → String) (ops : List OpPerf) (i k : Nat) :
    (opTrees showMs ops i)[k]? = (ops[k]?).map fun op =>
      Json.obj [("index", Json.num (toString (i + k + 1))), ("type", Json.str op.type),
        ("name", Json.str op.name), ("backend", Json.str op.backend),
        ("start_ms", Json.num (showMs op.start)), ("end_ms", Json.num (showMs op.end_)),
        ("duration_ms", Json.num (showMs op.ms))] := by
  induction ops generalizing i k with
  | nil => simp [opTrees]
  | cons op ops ih =>
    cases k with
    | zero => simp [opTrees]
    | succ k =>
      simp only [opTrees, List.getElem?_cons_succ, ih (i + 1) k]
      have e : i + 1 + k + 1 = i + (k + 1) + 1 := by omega
      rw [e]

/-- C13, counterexample: `runModelProfile` on an engine that does not fail and whose
output tensor is named by one double quote returns a string that is not a JSON text; and
`runModelMultiProfile` on an engine whose output tensor has a name with double quotes,
brackets and braces in it returns a JSON object that has a member `injected` between
`outputs` and `ops`. -/
theorem profile_report_quote_counterexample :
    outcomeText ((runModelProfile mnnIds counterSampler quoteEnv someRunArgs :
        Run Nat String) World.init)
      = some "\x7b\"profile\":true,\"backend\":\"CPU\",\"backup\":\"CPU\",\"threads\":4,\"metrics\":\x7b\"createInterpreter_ms\":1,\"createSession_ms\":1,\"resizeSession_ms\":1,\"runSession_ms\":1\x7d,\"outputs\":[\x7b\"name\":\"\"\",\"shape\":[1,2]\x7d],\"ops\":[]\x7d" ∧
    readJson "\x7b\"profile\":true,\"backend\":\"CPU\",\"backup\":\"CPU\",\"threads\":4,\"metrics\":\x7b\"createInterpreter_ms\":1,\"createSession_ms\":1,\"resizeSession_ms\":1,\"runSession_ms\":1\x7d,\"outputs\":[\x7b\"name\":\"\"\",\"shape\":[1,2]\x7d],\"ops\":[]\x7d"
      = none ∧
    outcomeText ((runModelMultiProfile mnnIds counterSampler injectingEnv matchedArgs :
        Run Nat String) World.init)
      = some "\x7b\"profile\":true,\"backend\":\"CPU\",\"backup\":\"CPU\",\"threads\":4,\"metrics\":\x7b\"createInterpreter_ms\":1,\"createSession_ms\":1,\"resizeSession_ms\":1,\"runSession_ms\":1\x7d,\"outputs\":[\x7b\"name\":\"a\",\"shape\":[]\x7d],\"injected\":[\x7b\"name\":\"b\",\"shape\":[1,2]\x7d],\"ops\":[]\x7d" ∧
    (readJson "\x7b\"profile\":true,\"backend\":\"CPU\",\"backup\":\"CPU\",\"threads\":4,\"metrics\":\x7b\"createInterpreter_ms\":1,\"createSession_ms\":1,\"resizeSession_ms\":1,\"runSession_ms\":1\x7d,\"outputs\":[\x7b\"name\":\"a\",\"shape\":[]\x7d],\"injected\":[\x7b\"name\":\"b\",\"shape\":[1,2]\x7d],\"ops\":[]\x7d").bind
        Json.keys
      = some ["profile", "backend", "backup", "threads", "metrics", "outputs", "injected",
          "ops"] :=
  ⟨by decide!, by rfl, by decide!, by decide!⟩

/-- C13, amended: when no output tensor that is there has a double quote, a backslash or
a control character in its name (and the stream prints every duration as a JSON number),
every string `runModelProfile` or `runModelMultiProfile` returns is either an error
string or a JSON text whose value is one object with the members `profile` (the literal
true), `backend`, `backup`, `threads`, `metrics`, `outputs`, `ops`, in this order,
`metrics` being an object with the members `createInterpreter_ms`, `createSession_ms`,
`resizeSession_ms`, `runSession_ms` in this order, every element of `outputs` an object
with the members `name`, `shape` in this order, and `ops` the empty array; when the
engine does not fail, such a report is returned.  The serializer itself, for any list of
operator records whose type, name and backend label have no such character either, writes
a JSON text with that value in which element number `k + 1` of `ops` is an object with the
members `index`, `type`, `name`, `backend`, `start_ms`, `end_ms`, `duration_ms` in this
order, `index` being `k + 1`. -/
theorem profile_report_is_json {σ V : Type} (F : ForwardIds) (R : Sampler σ V) (E : Env)
    (a : RunArgs) (b : MultiArgs) (hMs : ∀ d, isNumber (E.showMs d) = true)
    (hn : ∀ kv ∈ present E.outputs, SafeText kv.1) :
    (∀ s, ((runModelProfile F R E a : Run V String) World.init).1 = Except.ok s →
      (∃ threads m, readJson s
          = some (reportTree F E.showMs a.backend a.backupType threads m E.outputs []))
        ∨ ∃ what, s = "MNN PROFILE ERROR: " ++ what) ∧
    (∀ s, ((runModelMultiProfile F R E b : Run V String) World.init).1 = Except.ok s →
      (∃ threads m, readJson s
          = some (reportTree F E.showMs b.backend b.backupType threads m E.outputs []))
        ∨ ∃ what, s = "MNN PROFILE ERROR: " ++ what) ∧
    ((∀ k, E.fault k = none) → E.interpreter = true → E.session = true →
      (∃ bufs, stageInputs R (fillMode a.inputFill) E.inputs (R.seed 42) = some bufs) →
      ∃ s threads m, ((runModelProfile F R E a : Run V String) World.init).1 = Except.ok s ∧
        readJson s
          = some (reportTree F E.showMs a.backend a.backupType threads m E.outputs [])) ∧
    ((∀ k, E.fault k = none) → E.interpreter = true → E.session = true →
      b.inputNames.length = b.inputShapes.length →
      (∃ bufs, stageInputs R (fillMode b.inputFill) E.inputs (R.seed 42) = some bufs) →
      ∃ s threads m,
        ((runModelMultiProfile F R E b : Run V String) World.init).1 = Except.ok s ∧
        readJson s
          = some (reportTree F E.showMs b.backend b.backupType threads m E.outputs [])) ∧
    (∀ (cBackend : String) (cBackup : Option String) (threads : Int) (m : Metrics)
      (ops : List OpPerf),
      (∀ op ∈ ops, SafeText op.type ∧ SafeText op.name ∧ SafeText op.backend) →
      readJson (profileJson F E.showMs cBackend cBackup threads m E.outputs ops)
          = some (Json.obj [("profile", Json.bool true),
              ("backend", Json.str (forwardName F (mapForward F cBackend))),
              ("backup", Json.str (forwardName F (mapForward F (match cBackup with
                | some c => c
                | none => "CPU")))),
              ("threads", Json.num (showInt threads)),
              ("metrics", Json.obj [
                ("createInterpreter_ms", Json.num (E.showMs m.createInterpreter)),
                ("createSession_ms", Json.num (E.showMs m.createSession)),
                ("resizeSession_ms", Json.num (E.showMs m.resizeSession)),
                ("runSession_ms", Json.num (E.showMs m.runSession))]),
              ("outputs", Json.arr ((present E.outputs).map fun kv =>
                Json.obj [("name", Json.str kv.1),
                  ("shape", Json.arr (kv.2.dims.map fun d => Json.num (showInt d)))])),
              ("ops", Json.arr (opTrees E.showMs ops 0))]) ∧
        ∀ k op, ops[k]? = some op →
          (opTrees E.showMs ops 0)[k]? = some (Json.obj [
            ("index", Json.num (toString (k + 1))), ("type", Json.str op.type),
            ("name", Json.str op.name), ("backend", Json.str op.backend),
            ("start_ms", Json.num (E.showMs op.start)), ("end_ms", Json.num (E.showMs op.end_)),
            ("duration_ms", Json.num (E.showMs op.ms))])) := by
  refine ⟨?_, ?_, ?_, ?_, ?_⟩
  · intro s hs
    rcases runModelProfile_results F R E a World.init s hs with ⟨threads, m, e⟩ | h
    · exact Or.inl ⟨threads, m, e ▸ readJson_profileJson F E.showMs _ _ threads m E.outputs []
        hMs hn (fun _ h => nomatch h)⟩
    · exact Or.inr h
  · intro s hs
    rcases runModelMultiProfile_results F R E b World.init s hs with ⟨threads, m, e⟩ | h
    · exact Or.inl ⟨threads, m, e ▸ readJson_profileJson F E.showMs _ _ threads m E.outputs []
        hMs hn (fun _ h => nomatch h)⟩
    · exact Or.inr h
  · intro hE hi hs ⟨bufs, hb⟩
    exact ⟨_, _, _, (runModelProfile_run F R E a hE hi hs bufs hb).1,
      readJson_profileJson F E.showMs _ _ _ _ E.outputs [] hMs hn (fun _ h => nomatch h)⟩
  · intro hE hi hs hl ⟨bufs, hb⟩
    exact ⟨_, _, _, (runModelMultiProfile_run F R E b hE hi hs hl bufs hb).1,
      readJson_profileJson F E.showMs _ _ _ _ E.outputs [] hMs hn (fun _ h => nomatch h)⟩
  · intro cBackend cBackup threads m ops hs
    refine ⟨readJson_profileJson F E.showMs cBackend cBackup threads m E.outputs ops hMs hn hs,
      ?_⟩
    intro k op hk
    rw [opTrees_getElem, hk]
    simp
/-- On the engine `plainEnv`, whose output tensor is named `y` and whose stream prints a
duration as a decimal integer, `runModelProfile` returns a report that is read as the
object of the seven members. -/
theorem profile_report_is_json_witness :
    (∀ d, isNumber (plainEnv.showMs d) = true) ∧
    (∀ kv ∈ present plainEnv.outputs, SafeText kv.1) ∧
    ∃ s threads m,
      ((runModelProfile mnnIds counterSampler plainEnv someRunArgs : Run Nat String)
        World.init).1 = Except.ok s ∧
      readJson s = some (reportTree mnnIds plainEnv.showMs someRunArgs.backend
        someRunArgs.backupType threads m plainEnv.outputs []) :=
  ⟨fun d => isNumber_showInt d,
    by
      unfold SafeText SafeChar
      decide,
    (profile_report_is_json mnnIds counterSampler plainEnv someRunArgs matchedArgs
      (fun d => isNumber_showInt d)
      (by
        unfold SafeText SafeChar
        decide)).2.2.1 (fun _ => rfl) rfl rfl ⟨_, by rfl⟩⟩

/-! ## The backend label of the summary line and of the report -/


/-- A string that is none of the names `mapForward` compares with resolves to CPU, and
`forwardName` reports it as "CPU". -/
theorem forwardName_mapForward_fallback (F : ForwardIds) (s : String)
    (h : s ∉ recognizedNames) :
    mapForward F s = F.cpu ∧ forwardName F (mapForward F s) = "CPU" ∧ s ≠ "CPU" := by
  have hm : mapForward F s = F.cpu := by
    simp only [recognizedNames, List.mem_cons, List.mem_singleton, List.not_mem_nil, or_false,
      not_or] at h
    obtain ⟨h1, h2, h3, h4, h5, h6, h7, h8, h9, h10, h11⟩ := h
    simp [mapForward, *]
  refine ⟨hm, ?_, ?_⟩
  · rw [hm]
    simp [forwardName]
  · rintro rfl
    exact h (by decide)

/-- The label of the resolved backend is the string of the caller exactly for the
eight names AUTO, CPU, VULKAN, OPENCL, OPENGL, METAL, CUDA, NN. -/
theorem forwardName_mapForward_fixed (F : ForwardIds) (hF : F.Distinct) (s : String) :
    forwardName F (mapForward F s) = s ↔ s ∈ canonicalNames := by
  obtain ⟨h1, h2, h3, h4, h5, h6, h7, h8, -⟩ := forwardName_enumerators hF
  by_cases h : s ∈ recognizedNames
  · simp only [recognizedNames, List.mem_cons, List.mem_singleton, List.not_mem_nil,
      or_false] at h
    rcases h with h | h | h | h | h | h | h | h | h | h | h <;> subst h <;>
      simp [mapForward, canonicalNames, *]
  · obtain ⟨-, e, hne⟩ := forwardName_mapForward_fallback F s h
    rw [e]
    constructor
    · intro hs
      exact absurd hs.symm hne
    · intro hs
      refine absurd ?_ h
      simp only [canonicalNames, List.mem_cons, List.mem_singleton, List.not_mem_nil,
        or_false] at hs
      rcases hs with hs | hs | hs | hs | hs | hs | hs | hs <;> subst hs <;> decide

theorem profileJson_backend (F : ForwardIds) (showMs : Int → String) (cBackend : String)
    (cBackup : Option String) (threads : Int) (m : Metrics)
    (outputs : List (String × Option OutputTensor)) (ops : List OpPerf) :
    ∃ rest, profileJson F showMs cBackend cBackup threads m outputs ops
      = "\x7b" ++ "\"profile\":true," ++ "\"backend\":\""
        ++ forwardName F (mapForward F cBackend) ++ "\"," ++ rest := by
  simp only [profileJson, String.append_assoc]
  exact ⟨_, rfl⟩

/-- C21: when the engine does not fail, the summary line of `runModel` and of
`runModelMulti` has the backend string of the caller, as it was passed, behind
"backend=", while the report of `runModelProfile` and of `runModelMultiProfile` for the
same arguments has `forwardName (mapForward backend)` as its member `backend`.  So for
every backend string that is none of the names `mapForward` compares with (such as "FOO",
"" or "vulkan") the summary line shows that string and the report shows "CPU", which is
another string; and the label of the report is the string of the caller exactly for the
eight names AUTO, CPU, VULKAN, OPENCL, OPENGL, METAL, CUDA, NN.  (`runModel` reads
every output tensor pointer without a test, so its outputs are taken to be non-null.) -/
theorem summary_and_report_backend_labels {σ V : Type} (F : ForwardIds) (hF : F.Distinct)
    (R : Sampler σ V) (E : Env) (a : RunArgs) (b : MultiArgs) (hE : ∀ k, E.fault k = none)
    (hi : E.interpreter = true) (hs : E.session = true)
    (bufsA bufsB : List (String × Buffer V))
    (hA : stageInputs R (fillMode a.inputFill) E.inputs (R.seed 42) = some bufsA)
    (hB : stageInputs R (fillMode b.inputFill) E.inputs (R.seed 42) = some bufsB)
    (hl : b.inputNames.length = b.inputShapes.length) :
    ((∀ kv ∈ E.outputs, kv.2 ≠ none) →
      (runModel F R E a World.init).1
        = Except.ok ("MNN 3.1.0 OK backend=" ++ a.backend ++ " outputs="
            ++ summaryChecked E.outputs true)) ∧
    (runModelMulti F R E b World.init).1
      = Except.ok ("MNN 3.1.0 OK backend=" ++ b.backend ++ " outputs="
          ++ summaryChecked E.outputs true) ∧
    (∃ rest, (runModelProfile F R E a World.init).1
      = Except.ok ("\x7b" ++ "\"profile\":true," ++ "\"backend\":\""
          ++ forwardName F (mapForward F a.backend) ++ "\"," ++ rest)) ∧
    (∃ rest, (runModelMultiProfile F R E b World.init).1
      = Except.ok ("\x7b" ++ "\"profile\":true," ++ "\"backend\":\""
          ++ forwardName F (mapForward F b.backend) ++ "\"," ++ rest)) ∧
    (a.backend ∉ recognizedNames →
      a.backend ≠ "CPU" ∧ ∃ rest, (runModelProfile F R E a World.init).1
        = Except.ok ("\x7b" ++ "\"profile\":true," ++ "\"backend\":\"" ++ "CPU" ++ "\","
            ++ rest)) ∧
    (b.backend ∉ recognizedNames →
      b.backend ≠ "CPU" ∧ ∃ rest, (runModelMultiProfile F R E b World.init).1
        = Except.ok ("\x7b" ++ "\"profile\":true," ++ "\"backend\":\"" ++ "CPU" ++ "\","
            ++ rest)) ∧
    (∀ s, forwardName F (mapForward F s) = s ↔ s ∈ canonicalNames) ∧
    ("FOO" ∉ recognizedNames ∧ "" ∉ recognizedNames ∧ "vulkan" ∉ recognizedNames) := by
  have pa : ∃ rest, (runModelProfile F R E a World.init).1
      = Except.ok ("\x7b" ++ "\"profile\":true," ++ "\"backend\":\""
          ++ forwardName F (mapForward F a.backend) ++ "\"," ++ rest) := by
    obtain ⟨rest, e⟩ := profileJson_backend F E.showMs a.backend a.backupType
      (threadsInfoOf E (buildScheduleConfig F a.backend a.backupType a.threads a.precisionMode))
      ⟨dur_ms (E.clock 0) (E.clock 1), dur_ms (E.clock 2) (E.clock 3),
        dur_ms (E.clock 4) (E.clock 5), dur_ms (E.clock 6) (E.clock 7)⟩ E.outputs []
    exact ⟨rest, by rw [(runModelProfile_run F R E a hE hi hs bufsA hA).1, e]⟩
  have pb : ∃ rest, (runModelMultiProfile F R E b World.init).1
      = Except.ok ("\x7b" ++ "\"profile\":true," ++ "\"backend\":\""
          ++ forwardName F (mapForward F b.backend) ++ "\"," ++ rest) := by
    obtain ⟨rest, e⟩ := profileJson_backend F E.showMs b.backend b.backupType
      (threadsInfoOf E (buildScheduleConfig F b.backend b.backupType b.threads b.precisionMode))
      ⟨dur_ms (E.clock 0) (E.clock 1), dur_ms (E.clock 2) (E.clock 3),
        dur_ms (E.clock 4) (E.clock 5), dur_ms (E.clock 6) (E.clock 7)⟩ E.outputs []
    exact ⟨rest, by rw [(runModelMultiProfile_run F R E b hE hi hs hl bufsB hB).1, e]⟩
  refine ⟨?_, (runModelMulti_run F R E b hE hi hs hl bufsB hB).1, pa, pb, ?_, ?_,
    forwardName_mapForward_fixed F hF, by decide⟩
  · intro hn
    exact (runModel_run F R E a hE hi hs bufsA hA _ (summaryUnchecked_eq E.outputs true hn)).1
  · intro h
    obtain ⟨-, e, hne⟩ := forwardName_mapForward_fallback F a.backend h
    rw [e] at pa
    exact ⟨hne, pa⟩
  · intro h
    obtain ⟨-, e, hne⟩ := forwardName_mapForward_fallback F b.backend h
    rw [e] at pb
    exact ⟨hne, pb⟩

/-- On the engine `plainEnv`, a request for the backend "vulkan" gets the summary line
with `backend=vulkan` and the report with `"backend":"CPU"`, and a request for "FOO"
likewise. -/
theorem summary_and_report_backend_labels_witness :
    (runModel mnnIds counterSampler plainEnv lowerRunArgs World.init).1
      = Except.ok ("MNN 3.1.0 OK backend=" ++ "vulkan" ++ " outputs="
          ++ summaryChecked plainEnv.outputs true) ∧
    ("vulkan" ≠ "CPU" ∧ ∃ rest,
      (runModelProfile mnnIds counterSampler plainEnv lowerRunArgs World.init).1
        = Except.ok ("\x7b" ++ "\"profile\":true," ++ "\"backend\":\"" ++ "CPU" ++ "\","
            ++ rest)) ∧
    (runModelMulti mnnIds counterSampler plainEnv fooMultiArgs World.init).1
      = Except.ok ("MNN 3.1.0 OK backend=" ++ "FOO" ++ " outputs="
          ++ summaryChecked plainEnv.outputs true) ∧
    ("FOO" ≠ "CPU" ∧ ∃ rest,
      (runModelMultiProfile mnnIds counterSampler plainEnv fooMultiArgs World.init).1
        = Except.ok ("\x7b" ++ "\"profile\":true," ++ "\"backend\":\"" ++ "CPU" ++ "\","
            ++ rest)) :=
  have key := summary_and_report_backend_labels mnnIds (by decide) counterSampler plainEnv
    lowerRunArgs fooMultiArgs (fun _ => rfl) rfl rfl _ _ (by rfl) (by rfl) rfl
  ⟨key.1 (by decide), key.2.2.2.2.1 (by decide), key.2.1, key.2.2.2.2.2.1 (by decide)⟩

/-! ## The documents of `getModelInfo` read as JSON texts -/

/-- Behind the first entry the loop with the leading comma and the loop with the
trailing comma print the same text. -/
theorem dimsLead_eq_trail (d : Int) (ds : List Int) (i : Nat) (hi : i ≠ 0) :
    dimsLead (d :: ds) i = "," ++ dimsTrail "," (d :: ds) := by
  induction ds generalizing d i with
  | nil =>
    simp only [dimsLead, dimsTrail, hi, ne_eq, not_false_eq_true, if_true, String.append_empty]
  | cons e es ih =>
    have h1 : dimsLead (d :: e :: es) i = "," ++ showInt d ++ dimsLead (e :: es) (i + 1) := by
      simp only [dimsLead, hi, ne_eq, not_false_eq_true, if_true]
    rw [h1, ih e (i + 1) (Nat.succ_ne_zero i)]
    simp only [dimsTrail, String.append_assoc]

/-- The dimensions as `getModelInfo` prints them are the text of the shape loop of the
report. -/
theorem dimsTrail_eq_lead (ds : List Int) : dimsTrail "," ds = dimsLead ds 0 := by
  cases ds with
  | nil => rfl
  | cons d ds =>
    cases ds with
    | nil =>
      simp only [dimsLead, dimsTrail, ne_eq, not_true_eq_false, if_false, String.append_empty,
        String.empty_append]
    | cons e es =>
      have h1 : dimsLead (d :: e :: es) 0 = showInt d ++ dimsLead (e :: es) 1 := by
        simp only [dimsLead, ne_eq, not_true_eq_false, if_false, String.empty_append]
      rw [h1, dimsLead_eq_trail e es 1 (Nat.succ_ne_zero 0)]
      simp only [dimsTrail, String.append_assoc]

theorem safeText_dtypeName (code : HalideTypeCode) : SafeText (dtypeName code) := by
  have key : ∀ s ∈ ["float", "int", "uint", "unknown"],
      ∀ c ∈ String.data s, c ≠ '"' ∧ c ≠ '\\' ∧ 32 ≤ c.toNat := by decide
  intro c hc
  cases code <;> exact key _ (by simp [dtypeName]) c hc

/-- One entry of `inputs`, where a value is expected. -/
theorem readFrom_inputEntry (stk : List Frame) (name : String) (t : InputTensor)
    (rest : List Char) (hn : SafeText name) :
    ∀ m, (m = Mode.value ∨ m = Mode.valueOrEnd) →
      readFrom ⟨stk, m⟩ ("\x7b\"name\":\"".data ++ (name.data ++ ("\",\"dims\":[".data
        ++ ((dimsTrail "," t.dims).data ++ ("],\"dtype\":\"".data
        ++ ((dtypeName t.code).data ++ ("\"\x7d".data ++ rest)))))))
      = readFrom (complete stk (inputTree (name, t))) rest := by
  intro m hm
  have h1 : ∀ X, readFrom ⟨stk, m⟩ ("\x7b\"name\":\"".data ++ X)
      = readFrom ⟨Frame.obj [] "name" :: stk, Mode.str false [] Esc.plain⟩ X := by
    intro X
    rcases hm with rfl | rfl <;> rfl
  have h2 : ∀ X, readFrom ⟨Frame.obj [] "name" :: stk, Mode.str false [] Esc.plain⟩
      (name.data ++ ("\",\"dims\":[".data ++ X))
      = readFrom ⟨Frame.obj [("name", Json.str name)] "dims" :: stk, Mode.value⟩ ('[' :: X) :=
    fun X => (readFrom_safe _ false [] name.data _ hn).trans rfl
  have h3 : ∀ X, readFrom ⟨Frame.obj [("name", Json.str name)] "dims" :: stk, Mode.value⟩
      ('[' :: ((dimsLead t.dims 0).data ++ ("],\"dtype\":\"".data ++ X)))
      = readFrom ⟨Frame.obj [("name", Json.str name),
          ("dims", Json.arr (t.dims.map fun d => Json.num (showInt d)))] "dtype" :: stk,
          Mode.str false [] Esc.plain⟩ X :=
    fun X => (readFrom_dims _ t.dims (",\"dtype\":\"".data ++ X)).trans rfl
  have h4 : ∀ (done : List (String × Json)) (k : String) X,
      readFrom ⟨Frame.obj done k :: stk, Mode.str false [] Esc.plain⟩
        ((dtypeName t.code).data ++ ("\"\x7d".data ++ X))
      = readFrom (complete stk (Json.obj (done ++ [(k, Json.str (dtypeName t.code))]))) X :=
    fun done k X =>
    (readFrom_safe _ false [] (dtypeName t.code).data _ (safeText_dtypeName t.code)).trans rfl
  rw [h1, h2, dimsTrail_eq_lead, h3, h4]
  rfl

/-- The entries of `inputs` behind the first one. -/
theorem readFrom_inputs_tail (stk : List Frame) (done : List Json)
    (inputs : List (String × Option InputTensor)) (rest : List Char)
    (hn : ∀ kv ∈ present inputs, SafeText kv.1) :
    readFrom ⟨Frame.arr done :: stk, Mode.afterValue⟩
        ((inputsJson inputs false).data ++ ']' :: rest)
      = readFrom (complete stk (Json.arr (done ++ (present inputs).map inputTree))) rest := by
  induction inputs generalizing done with
  | nil =>
    simp only [present, List.map_nil, List.append_nil]
    rfl
  | cons kv inputs ih =>
    obtain ⟨name, t⟩ := kv
    cases t with
    | none => exact ih done hn
    | some t =>
      have e1 : (inputsJson ((name, some t) :: inputs) false).data ++ ']' :: rest
          = ',' :: ("\x7b\"name\":\"".data ++ (name.data ++ ("\",\"dims\":[".data
            ++ ((dimsTrail "," t.dims).data ++ ("],\"dtype\":\"".data
            ++ ((dtypeName t.code).data ++ ("\"\x7d".data
            ++ ((inputsJson inputs false).data ++ ']' :: rest)))))))) := by
        simp only [inputsJson, Bool.false_eq_true, if_false, String.data_append,
          List.append_assoc]
        rfl
      have s1 : ∀ X, readFrom ⟨Frame.arr done :: stk, Mode.afterValue⟩ (',' :: X)
          = readFrom ⟨Frame.arr done :: stk, Mode.value⟩ X := fun _ => rfl
      rw [e1, s1, readFrom_inputEntry _ name t _ (hn (name, t) (List.mem_cons_self _ _))
        Mode.value (Or.inl rfl)]
      have s2 : complete (Frame.arr done :: stk) (inputTree (name, t))
          = ⟨Frame.arr (done ++ [inputTree (name, t)]) :: stk, Mode.afterValue⟩ := rfl
      rw [s2, ih _ fun kv hkv => hn kv (List.mem_cons_of_mem _ hkv)]
      simp [present]

/-- The array `inputs`: the entries of the tensors that are there, in their order. -/
theorem readFrom_inputs (stk : List Frame) (inputs : List (String × Option InputTensor))
    (rest : List Char) (hn : ∀ kv ∈ present inputs, SafeText kv.1) :
    readFrom ⟨Frame.arr [] :: stk, Mode.valueOrEnd⟩
        ((inputsJson inputs true).data ++ ']' :: rest)
      = readFrom (complete stk (Json.arr ((present inputs).map inputTree))) rest := by
  induction inputs with
  | nil => rfl
  | cons kv inputs ih =>
    obtain ⟨name, t⟩ := kv
    cases t with
    | none => exact ih hn
    | some t =>
      have e1 : (inputsJson ((name, some t) :: inputs) true).data ++ ']' :: rest
          = "\x7b\"name\":\"".data ++ (name.data ++ ("\",\"dims\":[".data
            ++ ((dimsTrail "," t.dims).data ++ ("],\"dtype\":\"".data
            ++ ((dtypeName t.code).data ++ ("\"\x7d".data
            ++ ((inputsJson inputs false).data ++ ']' :: rest))))))) := by
        simp only [inputsJson, if_true, String.data_append, List.append_assoc]
        rfl
      rw [e1, readFrom_inputEntry _ name t _ (hn (name, t) (List.mem_cons_self _ _))
        Mode.valueOrEnd (Or.inr rfl)]
      have s2 : complete (Frame.arr [] :: stk) (inputTree (name, t))
          = ⟨Frame.arr [inputTree (name, t)] :: stk, Mode.afterValue⟩ := rfl
      rw [s2, readFrom_inputs_tail _ _ _ _ fun kv hkv => hn kv (List.mem_cons_of_mem _ hkv)]
      simp [present]

/-- The document `getModelInfo` returns when nothing fails is a JSON text: one object
with the member `inputs`. -/
theorem readJson_inputsDocument (inputs : List (String × Option InputTensor))
    (hn : ∀ kv ∈ present inputs, SafeText kv.1) :
    readJson ("\x7b\"inputs\":[" ++ inputsJson inputs true ++ "]\x7d")
      = some (Json.obj [("inputs", Json.arr ((present inputs).map inputTree))]) := by
  have g1 : ∀ X, readFrom ⟨[], Mode.value⟩ ("\x7b\"inputs\":[".data ++ X)
      = readFrom ⟨[Frame.arr [], Frame.obj [] "inputs"], Mode.valueOrEnd⟩ X := fun _ => rfl
  have e1 : ∀ X : List Char, X ++ "]\x7d".data = X ++ ']' :: "\x7d".data := fun _ => rfl
  unfold readJson
  simp only [String.data_append, List.append_assoc]
  rw [g1, e1, readFrom_inputs _ _ _ hn]
  rfl

/-- The document `getModelInfo` returns for a fault is a JSON text when the message can
stand in a JSON string as it is: one object with the member `error`. -/
theorem readJson_errorDocument (what : String) (hw : SafeText what) :
    readJson ("\x7b\"error\":\"" ++ what ++ "\"\x7d")
      = some (Json.obj [("error", Json.str what)]) := by
  have g1 : ∀ X, readFrom ⟨[], Mode.value⟩ ("\x7b\"error\":\"".data ++ X)
      = readFrom ⟨[Frame.obj [] "error"], Mode.str false [] Esc.plain⟩ X := fun _ => rfl
  unfold readJson
  simp only [String.data_append, List.append_assoc]
  rw [g1, readFrom_safe _ false [] what.data _ hw]
  rfl

theorem resultIn_getSessionInputAll {V : Type} {Q : String → Prop} (E : Env)
    {f : List (String × Option InputTensor) → Run V String} (h : ResultIn Q (f E.inputs)) :
    ResultIn Q (getSessionInputAll E >>= f) := by
  intro w t ht
  simp only [getSessionInputAll, run_bind_apply, engineCall] at ht
  cases hf : E.fault w.calls with
  | some what => simp [hf] at ht
  | none =>
    simp only [hf, run_pure_apply] at ht
    exact h _ t ht

/-- What a `try` block with a handler that renders the message can return: a result of
its body, or the rendering of a message, which is then the message of an engine call
that threw or a message of the bridge. -/
theorem resultIn_tryCatch_render {V : Type} {E : Env} {Q : String → Prop}
    (render : String → String) {body : Run V String} (ha : Accounted E body)
    (hq : ResultIn Q body) :
    ResultIn (fun s => Q s ∨ ∃ what, s = render what ∧
        ((∃ k, E.fault k = some what) ∨ what ∈ bridgeMessages))
      (tryCatch body (fun what => pure (render what))) := by
  intro w t ht
  obtain ⟨-, a2, -⟩ := ha w
  unfold tryCatch at ht
  rcases hbw : body w with ⟨r, w1⟩
  rw [hbw] at ht a2
  match r, ht, a2 with
  | Except.ok s, ht, _ => exact Or.inl (hq w t (by rw [hbw]; exact ht))
  | Except.error Fault.undefined, ht, _ => simp at ht
  | Except.error (Fault.exn what), ht, a2 =>
    simp only [run_pure_apply, Except.ok.injEq] at ht
    refine Or.inr ⟨what, ht.symm, ?_⟩
    rcases a2 what rfl with ⟨k, -, -, hk, -⟩ | ⟨hb, -⟩
    · exact Or.inl ⟨k, hk⟩
    · exact Or.inr hb

/-- Whatever `getModelInfo` returns is the document with the inputs the engine lists or
the document with the message of a fault. -/
theorem getModelInfo_results {V : Type} (F : ForwardIds) (dflt : ScheduleConfig) (E : Env)
    (modelPath : String) :
    ResultIn (fun s => s = "\x7b\"inputs\":[" ++ inputsJson E.inputs true ++ "]\x7d"
        ∨ ∃ what, s = "\x7b\"error\":\"" ++ what ++ "\"\x7d" ∧
          ((∃ k, E.fault k = some what) ∨ what ∈ bridgeMessages))
      (getModelInfo F dflt E modelPath : Run V String) :=
  resultIn_tryCatch_render (fun what => "\x7b\"error\":\"" ++ what ++ "\"\x7d")
    (accounted_bind (accounted_createFromFile E _) fun _ =>
      accounted_ite _ (accounted_throw E _ (by decide)) (accounted_withInterpreter
        (accounted_bind (accounted_createSession E _) fun _ =>
          accounted_ite _ (accounted_throw E _ (by decide))
            (accounted_bind (accounted_getSessionInputAll E) fun _ =>
              accounted_bind (accounted_engineCall E _) fun _ => accounted_pure E _))))
    (resultIn_bind _ fun _ => resultIn_ite _ (resultIn_throw _ _)
      (resultIn_withInterpreter (resultIn_bind _ fun _ =>
        resultIn_ite _ (resultIn_throw _ _)
          (resultIn_getSessionInputAll E (resultIn_bind _ fun _ => resultIn_pure _ _ rfl)))))

theorem safeText_bridgeMessages (what : String) (h : what ∈ bridgeMessages) :
    SafeText what := by
  have key : ∀ s ∈ bridgeMessages, ∀ c ∈ String.data s, c ≠ '"' ∧ c ≠ '\\' ∧ 32 ≤ c.toNat := by
    decide
  exact fun c hc => key what h c hc

/-! ## Strings printed into the documents without escaping -/

/-- C22, counterexample: the documents can be well-formed JSON although a name has a
backslash or double quotes in it.  The report of `runModelProfile` for an output tensor
named `a\nb` (with the backslash) is a JSON text, because the backslash and the `n` are
read as an escape; and the document of `getModelInfo` for an input tensor whose name has
four double quotes in it is a JSON text, because the quotes of the name pair up with
the quotes around it. -/
theorem wellFormed_unsafe_name_counterexample :
    (escapeEnv.outputs.map fun kv => kv.1) = ["a\\nb"] ∧ '\\' ∈ "a\\nb".data ∧
    outcomeText ((runModelProfile mnnIds counterSampler escapeEnv someRunArgs :
        Run Nat String) World.init)
      = some "\x7b\"profile\":true,\"backend\":\"CPU\",\"backup\":\"CPU\",\"threads\":4,\"metrics\":\x7b\"createInterpreter_ms\":1,\"createSession_ms\":1,\"resizeSession_ms\":1,\"runSession_ms\":1\x7d,\"outputs\":[\x7b\"name\":\"a\\nb\",\"shape\":[1,2]\x7d],\"ops\":[]\x7d" ∧
    wellFormed "\x7b\"profile\":true,\"backend\":\"CPU\",\"backup\":\"CPU\",\"threads\":4,\"metrics\":\x7b\"createInterpreter_ms\":1,\"createSession_ms\":1,\"resizeSession_ms\":1,\"runSession_ms\":1\x7d,\"outputs\":[\x7b\"name\":\"a\\nb\",\"shape\":[1,2]\x7d],\"ops\":[]\x7d"
      = true ∧
    (quotedInputEnv.inputs.map fun kv => kv.1) = ["x\",\"y\":\"z"] ∧
    '"' ∈ "x\",\"y\":\"z".data ∧
    outcomeText ((getModelInfo mnnIds ⟨0, 0, 4, Precision.Precision_Normal⟩ quotedInputEnv
        "m.mnn" : Run Nat String) World.init)
      = some "\x7b\"inputs\":[\x7b\"name\":\"x\",\"y\":\"z\",\"dims\":[1,4],\"dtype\":\"float\"\x7d]\x7d" ∧
    wellFormed "\x7b\"inputs\":[\x7b\"name\":\"x\",\"y\":\"z\",\"dims\":[1,4],\"dtype\":\"float\"\x7d]\x7d"
      = true :=
  ⟨by decide, by decide, by decide!, by decide!, by decide, by decide, by decide!,
    by decide!⟩

/-- C22, amended: the report of the profile entry points and the documents of
`getModelInfo` hold the tensor names, the type, name and backend label of an operator
record and (in `getModelInfo`) the message of a fault as they are, between double quotes,
without escaping.  When none of these strings has a double quote, a backslash or a
control character in it (and the stream prints every duration as a JSON number), the
document is a JSON text: every string the profile entry points return is a JSON text or
an error string, the serializer writes a JSON text for every list of operator records,
and every string `getModelInfo` returns is one JSON object, with the member `inputs` or
with the member `error`.  This is not an equivalence (a name with such a character can
still give a JSON text).  For an output tensor, an input tensor or a fault message with
a double quote in it the returned string is not a JSON text. -/
theorem documents_wellFormed_when_safe {σ V : Type} (F : ForwardIds) (R : Sampler σ V)
    (E : Env) (a : RunArgs) (b : MultiArgs) (dflt : ScheduleConfig) (modelPath : String) :
    ((∀ d, isNumber (E.showMs d) = true) → (∀ kv ∈ present E.outputs, SafeText kv.1) →
      (∀ s, ((runModelProfile F R E a : Run V String) World.init).1 = Except.ok s →
        wellFormed s = true ∨ ∃ what, s = "MNN PROFILE ERROR: " ++ what) ∧
      (∀ s, ((runModelMultiProfile F R E b : Run V String) World.init).1 = Except.ok s →
        wellFormed s = true ∨ ∃ what, s = "MNN PROFILE ERROR: " ++ what) ∧
      ∀ (cBackend : String) (cBackup : Option String) (threads : Int) (m : Metrics)
        (ops : List OpPerf),
        (∀ op ∈ ops, SafeText op.type ∧ SafeText op.name ∧ SafeText op.backend) →
        wellFormed (profileJson F E.showMs cBackend cBackup threads m E.outputs ops)
          = true) ∧
    ((∀ kv ∈ present E.inputs, SafeText kv.1) →
      (∀ k what, E.fault k = some what → SafeText what) →
      ∀ s, ((getModelInfo F dflt E modelPath : Run V String) World.init).1 = Except.ok s →
        readJson s = some (Json.obj [("inputs", Json.arr ((present E.inputs).map inputTree))])
          ∨ ∃ what, s = "\x7b\"error\":\"" ++ what ++ "\"\x7d" ∧
            readJson s = some (Json.obj [("error", Json.str what)])) ∧
    (∀ what, E.fault 0 = some what →
      ((getModelInfo F dflt E modelPath : Run V String) World.init).1
        = Except.ok ("\x7b\"error\":\"" ++ what ++ "\"\x7d")) ∧
    (∀ (name : String) (t : OutputTensor) (rest : List (String × Option OutputTensor)),
      outputsJson ((name, some t) :: rest) true
        = "\x7b\"name\":\"" ++ name ++ "\",\"shape\":[" ++ dimsLead t.dims 0 ++ "]\x7d"
          ++ outputsJson rest false) ∧
    (∀ (name : String) (t : InputTensor) (rest : List (String × Option InputTensor)),
      inputsJson ((name, some t) :: rest) true
        = "\x7b\"name\":\"" ++ name ++ "\",\"dims\":[" ++ dimsTrail "," t.dims
          ++ "],\"dtype\":\"" ++ dtypeName t.code ++ "\"\x7d" ++ inputsJson rest false) ∧
    (∀ (op : OpPerf) (rest : List OpPerf),
      opsJson E.showMs (op :: rest) 0
        = "\x7b\"index\":" ++ toString 1 ++ ",\"type\":\"" ++ op.type ++ "\""
          ++ ",\"name\":\"" ++ op.name ++ "\"" ++ ",\"backend\":\"" ++ op.backend ++ "\""
          ++ ",\"start_ms\":" ++ E.showMs op.start ++ ",\"end_ms\":" ++ E.showMs op.end_
          ++ ",\"duration_ms\":" ++ E.showMs op.ms ++ "\x7d" ++ opsJson E.showMs rest 1) ∧
    ((quoteEnv.outputs.map fun kv => kv.1) = ["\""] ∧
      (outcomeText ((runModelProfile mnnIds counterSampler quoteEnv someRunArgs :
        Run Nat String) World.init)).map wellFormed = some false ∧
      (quoteInputEnv.inputs.map fun kv => kv.1) = ["\""] ∧
      outcomeText ((getModelInfo mnnIds ⟨0, 0, 4, Precision.Precision_Normal⟩ quoteInputEnv
          "m.mnn" : Run Nat String) World.init)
        = some "\x7b\"inputs\":[\x7b\"name\":\"\"\",\"dims\":[1,4],\"dtype\":\"float\"\x7d]\x7d" ∧
      wellFormed "\x7b\"inputs\":[\x7b\"name\":\"\"\",\"dims\":[1,4],\"dtype\":\"float\"\x7d]\x7d"
        = false ∧
      outcomeText ((getModelInfo mnnIds ⟨0, 0, 4, Precision.Precision_Normal⟩
          (faultyEnv 0 "no \"m.mnn\"") "m.mnn" : Run Nat String) World.init)
        = some "\x7b\"error\":\"no \"m.mnn\"\"\x7d" ∧
      wellFormed "\x7b\"error\":\"no \"m.mnn\"\"\x7d" = false) := by
  refine ⟨?_, ?_, ?_, ?_, ?_, ?_, ?_⟩
  · intro hMs hn
    have wf : ∀ (cBackend : String) (cBackup : Option String) (threads : Int) (m : Metrics)
        (ops : List OpPerf),
        (∀ op ∈ ops, SafeText op.type ∧ SafeText op.name ∧ SafeText op.backend) →
        wellFormed (profileJson F E.showMs cBackend cBackup threads m E.outputs ops)
          = true := by
      intro cBackend cBackup threads m ops hs
      unfold wellFormed
      rw [readJson_profileJson F E.showMs cBackend cBackup threads m E.outputs ops hMs hn hs]
      rfl
    refine ⟨?_, ?_, wf⟩
    · intro s hs
      rcases runModelProfile_results F R E a World.init s hs with ⟨threads, m, e⟩ | h
      · exact Or.inl (e ▸ wf _ _ threads m [] (fun _ h => nomatch h))
      · exact Or.inr h
    · intro s hs
      rcases runModelMultiProfile_results F R E b World.init s hs with ⟨threads, m, e⟩ | h
      · exact Or.inl (e ▸ wf _ _ threads m [] (fun _ h => nomatch h))
      · exact Or.inr h
  · intro hn hw s hs
    rcases getModelInfo_results F dflt E modelPath World.init s hs with e | ⟨what, e, h⟩
    · exact Or.inl (e ▸ readJson_inputsDocument E.inputs hn)
    · have safe : SafeText what := by
        rcases h with ⟨k, hk⟩ | hb
        · exact hw k what hk
        · exact safeText_bridgeMessages what hb
      exact Or.inr ⟨what, e, e ▸ readJson_errorDocument what safe⟩
  · intro what h0
    simp only [getModelInfo, tryCatch, run_bind_apply, createFromFile, engineCall, World.init,
      h0, run_pure_apply]
  · intro name t rest
    simp only [outputsJson, if_true, String.empty_append]
  · intro name t rest
    simp only [inputsJson, if_true, String.empty_append]
  · intro op rest
    simp only [opsJson, ne_eq, not_true_eq_false, if_false, String.empty_append, Nat.zero_add]
  · exact ⟨by decide, by decide!, by decide, by decide!, by decide!, by decide!, by decide!⟩

/-- On the engine `plainEnv`, whose input tensor is named `x`, the string `getModelInfo`
returns is read as the object with the member `inputs`; and on an engine whose first
call throws with the message `boom` it returns the document with that message. -/
theorem documents_wellFormed_when_safe_witness :
    (readJson "\x7b\"inputs\":[\x7b\"name\":\"x\",\"dims\":[1,4],\"dtype\":\"float\"\x7d]\x7d"
        = some (Json.obj [("inputs", Json.arr ((present plainEnv.inputs).map inputTree))])
      ∨ ∃ what,
        "\x7b\"inputs\":[\x7b\"name\":\"x\",\"dims\":[1,4],\"dtype\":\"float\"\x7d]\x7d"
            = "\x7b\"error\":\"" ++ what ++ "\"\x7d" ∧
          readJson "\x7b\"inputs\":[\x7b\"name\":\"x\",\"dims\":[1,4],\"dtype\":\"float\"\x7d]\x7d"
            = some (Json.obj [("error", Json.str what)])) ∧
    ((getModelInfo mnnIds ⟨0, 0, 4, Precision.Precision_Normal⟩ (faultyEnv 0 "boom") "m.mnn" :
        Run Nat String) World.init).1
      = Except.ok ("\x7b\"error\":\"" ++ "boom" ++ "\"\x7d") :=
  ⟨(documents_wellFormed_when_safe mnnIds counterSampler plainEnv someRunArgs matchedArgs
      ⟨0, 0, 4, Precision.Precision_Normal⟩ "m.mnn").2.1
      (by
        unfold SafeText SafeChar
        decide)
      (fun k what h => nomatch h) _ (by rfl),
    (documents_wellFormed_when_safe mnnIds counterSampler (faultyEnv 0 "boom") someRunArgs
      matchedArgs ⟨0, 0, 4, Precision.Precision_Normal⟩ "m.mnn").2.2.1 "boom" rfl⟩

end MNNRunner
